import Mathlib

/-
Verification of the recursively-mapped page-table walker and mapper
(src/src/paging/recursive.rs, riscv64 / 4-level configuration).

The shallow embedding models physical memory as a map from frame base
addresses to page tables (a page table being a map from entry indices to
entries).  Dereferencing an intermediate table through its recursive
virtual alias `Page::from_page_table_indices(l, ..)` is modeled as the
lookup of the physical frame that the alias resolves to at the moment of
the access (chain of `frame` fields starting from the active root frame),
following the design note of the spec that the recursive alias is
"an explicit lookup function frame_to_table(frame) -> &mut Table".
TLB invalidation primitives are modeled as events appended to a trace,
plus a set of cached translations that a global flush empties.
Assertion failures (Rust `assert!` / `assert_ne!`) are modeled by the
`Res.crash` result; ordinary returns by `Res.done`.
-/

namespace RecPT

/-- Modelled from the spec: a page-table entry flag bitset with the bits the
core manipulates (valid, readable, writable) kept explicit and all other
bits collected in `rest`.  The entry/flag primitives live in the external
`page_table` module (not under src/), specified in the spec as "a
physical frame reference plus a flag bitset (valid, readable, writable,
huge-page, ...)". -/
structure PTFlags where
  valid : Bool
  readable : Bool
  writable : Bool
  rest : Nat
deriving DecidableEq

/-- The all-clear flag bitset. -/
def PTFlags.none : PTFlags := ⟨false, false, false, 0⟩

/-- Set or clear READABLE and WRITABLE together.  The walker always inserts
or removes the set `READABLE | WRITABLE`, so both bits move together. -/
def rwSet (b : Bool) (f : PTFlags) : PTFlags := ⟨f.valid, b, b, f.rest⟩

/-- The VALID-only flag bitset used when installing intermediate tables
(`set(frame, F::VALID)` in `create_p1_if_not_exist`). -/
def validFlags : PTFlags := ⟨true, false, false, 0⟩

/-- Modelled from the spec: one page-table slot, "a physical frame reference
plus a flag bitset".  `frame` is the physical base address of the target
frame. -/
structure PTEntry where
  frame : Nat
  flags : PTFlags
deriving DecidableEq

/-- The all-zero entry; `zero()` fills a table with these. -/
def unusedEntry : PTEntry := ⟨0, PTFlags.none⟩

/-- Modelled from the spec: the "unused" test of the external entry
abstraction — an entry is unused when every bit of it is zero. -/
def PTEntry.isUnused (e : PTEntry) : Prop := e = unusedEntry

instance (e : PTEntry) : Decidable e.isUnused :=
  inferInstanceAs (Decidable (e = unusedEntry))

/-- Apply `rwSet` to the flags of an entry (the frame is untouched). -/
def rwE (b : Bool) (e : PTEntry) : PTEntry := ⟨e.frame, rwSet b e.flags⟩

/-- A TLB invalidation primitive call, recorded in the machine trace:
`flushAll` is `sfence_vma_all()`, `flushOne va` is `sfence_vma(0, va)`. -/
inductive FlushEvent where
  | flushAll : FlushEvent
  | flushOne (va : Nat) : FlushEvent
deriving DecidableEq

/-- The machine state the core operates on: physical memory (frame base
address to table, table index to entry), the active root frame (the satp
register), the frame allocator modeled as the list of frames it will hand
out (spec: `alloc() -> Option<Frame>`, `None` on exhaustion), the set of
cached translations (TLB), and the trace of flush primitive calls. -/
structure Machine where
  mem : Nat → Nat → PTEntry
  rootFrame : Nat
  freeFrames : List Nat
  tlb : List Nat
  events : List FlushEvent

instance : Inhabited Machine := ⟨⟨fun _ _ => unusedEntry, 0, [], [], []⟩⟩

/-- Insert READABLE|WRITABLE on entry `i` of the table in frame `f`
(`flags_mut().insert(F::READABLE | F::WRITABLE)`). -/
def Machine.insRW (st : Machine) (f i : Nat) : Machine :=
  { st with mem := fun g j => if g = f ∧ j = i then rwE true (st.mem f i) else st.mem g j }

/-- Remove READABLE|WRITABLE on entry `i` of the table in frame `f`
(`flags_mut().remove(F::READABLE | F::WRITABLE)`). -/
def Machine.remRW (st : Machine) (f i : Nat) : Machine :=
  { st with mem := fun g j => if g = f ∧ j = i then rwE false (st.mem f i) else st.mem g j }

/-- Entry write `entry.set(frame, flags)`. -/
def Machine.setE (st : Machine) (f i fr : Nat) (fl : PTFlags) : Machine :=
  { st with mem := fun g j => if g = f ∧ j = i then ⟨fr, fl⟩ else st.mem g j }

/-- Table write `table.zero()` on the table in frame `f`. -/
def Machine.zeroF (st : Machine) (f : Nat) : Machine :=
  { st with mem := fun g j => if g = f then unusedEntry else st.mem g j }

/-- Overwrite the whole table in frame `f` (the effect of a closure that
received `&mut PageTable` for that frame). -/
def Machine.updT (st : Machine) (f : Nat) (t : Nat → PTEntry) : Machine :=
  { st with mem := fun g j => if g = f then t j else st.mem g j }

/-- Modelled from the spec: `flush_all()` / `sfence_vma_all()` — invalidate
all cached translations; recorded in the trace. -/
def Machine.sfenceAll (st : Machine) : Machine :=
  { st with tlb := [], events := st.events ++ [FlushEvent.flushAll] }

/-- Modelled from the spec: `flush_one(address)` / `sfence_vma(0, va)` —
invalidate the cached translation of a single address. -/
def Machine.sfenceOne (st : Machine) (va : Nat) : Machine :=
  { st with tlb := st.tlb.filter (fun x => x ≠ va),
            events := st.events ++ [FlushEvent.flushOne va] }

/-- Modelled from the spec: the frame allocator capability
`alloc() -> Option<Frame>`; hands out the head of `freeFrames`. -/
def Machine.alloc (st : Machine) : Option Nat × Machine :=
  match st.freeFrames with
  | [] => (none, st)
  | f :: r => (some f, { st with freeFrames := r })

/-- Physical frame of the level-3 table on path `a`: what the recursive
alias `(l, l, l, a)` dereferences to, namely the frame stored in entry `a`
of the root table. -/
def Machine.p3f (st : Machine) (a : Nat) : Nat := (st.mem st.rootFrame a).frame

/-- Physical frame of the level-2 table on path `(a, b)`: target of the
alias `(l, l, a, b)`. -/
def Machine.p2f (st : Machine) (a b : Nat) : Nat := (st.mem (st.p3f a) b).frame

/-- Physical frame of the level-1 table on path `(a, b, c)`: target of the
alias `(l, a, b, c)`. -/
def Machine.p1f (st : Machine) (a b c : Nat) : Nat := (st.mem (st.p2f a b) c).frame

/-- Insert R|W on root entry `a` (`p4_table[p4_index]`). -/
def Machine.insP4e (st : Machine) (a : Nat) : Machine := st.insRW st.rootFrame a

/-- Remove R|W on root entry `a`. -/
def Machine.remP4e (st : Machine) (a : Nat) : Machine := st.remRW st.rootFrame a

/-- Insert R|W on entry `b` of the level-3 table (`p3_table[p3_index]`). -/
def Machine.insP3e (st : Machine) (a b : Nat) : Machine := st.insRW (st.p3f a) b

/-- Remove R|W on entry `b` of the level-3 table. -/
def Machine.remP3e (st : Machine) (a b : Nat) : Machine := st.remRW (st.p3f a) b

/-- Insert R|W on entry `c` of the level-2 table (`p2_table[p2_index]`). -/
def Machine.insP2e (st : Machine) (a b c : Nat) : Machine := st.insRW (st.p2f a b) c

/-- Remove R|W on entry `c` of the level-2 table. -/
def Machine.remP2e (st : Machine) (a b c : Nat) : Machine := st.remRW (st.p2f a b) c

/-- Entry write `p4_table[p4_index].set(fr, fl)`. -/
def Machine.setP4e (st : Machine) (a fr : Nat) (fl : PTFlags) : Machine :=
  st.setE st.rootFrame a fr fl

/-- Entry write `p3_table[p3_index].set(fr, fl)`. -/
def Machine.setP3e (st : Machine) (a b fr : Nat) (fl : PTFlags) : Machine :=
  st.setE (st.p3f a) b fr fl

/-- Entry write `p2_table[p2_index].set(fr, fl)`. -/
def Machine.setP2e (st : Machine) (a b c fr : Nat) (fl : PTFlags) : Machine :=
  st.setE (st.p2f a b) c fr fl

/-- Table write `p3_table.zero()`. -/
def Machine.zeroP3 (st : Machine) (a : Nat) : Machine := st.zeroF (st.p3f a)

/-- Table write `p2_table.zero()`. -/
def Machine.zeroP2 (st : Machine) (a b : Nat) : Machine := st.zeroF (st.p2f a b)

/-- Table write `p1_table.zero()`. -/
def Machine.zeroP1 (st : Machine) (a b c : Nat) : Machine := st.zeroF (st.p1f a b c)

/-- Toggle step "insert on root entry `a`, then `sfence_vma_all()`"
(recursive.rs lines such as 245-246, 355-356, 431-432). -/
def Machine.seqA (st : Machine) (a : Nat) : Machine := (st.insP4e a).sfenceAll

/-- Toggle step "insert on p3 entry, fence, remove on root entry, fence"
(recursive.rs 270-273, 364-367, 446-449, and 262-265 after a `set`). -/
def Machine.seqB (st : Machine) (a b : Nat) : Machine :=
  ((((st.insP3e a b).sfenceAll).remP4e a).sfenceAll)

/-- Toggle step "insert on p2 entry, fence, insert on root entry, fence,
remove on p3 entry, fence, remove on root entry, fence"
(recursive.rs 305-312, 375-382, 467-474, and 293-300 after a `set`). -/
def Machine.seqC (st : Machine) (a b c : Nat) : Machine :=
  ((((((((st.insP2e a b c).sfenceAll).insP4e a).sfenceAll).remP3e a b).sfenceAll).remP4e a).sfenceAll)

/-- Rollback "remove on root entry, fence" used when allocation of the
level-2 table fails (recursive.rs 256-257) and when `is_mapped` finds the
p3 entry unused (434-435). -/
def Machine.failA (st : Machine) (a : Nat) : Machine := (st.remP4e a).sfenceAll

/-- Rollback "insert root, fence, remove p3 entry, fence, remove root,
fence" used when allocation of the level-1 table fails (recursive.rs
283-288) and when `is_mapped` finds the p2 entry unused (451-456). -/
def Machine.failB (st : Machine) (a b : Nat) : Machine :=
  ((((((st.insP4e a).sfenceAll).remP3e a b).sfenceAll).remP4e a).sfenceAll)

/-- The closing toggle sequence "ins root, f, ins p3, f, rem root, f,
rem p2, f, ins root, f, rem p3, f, rem root, f" shared by the tail of
`create_p1_if_not_exist` (315-330), `edit_p1` after the closure (386-399),
and both final branches of `is_mapped` (476-489 and 493-506). -/
def Machine.closeSeq (st : Machine) (a b c : Nat) : Machine :=
  (((((((((((((st.insP4e a).sfenceAll).insP3e a b).sfenceAll).remP4e a).sfenceAll).remP2e a b c).sfenceAll).insP4e a).sfenceAll).remP3e a b).sfenceAll).remP4e a).sfenceAll

/-- Error type of `map_to` (recursive.rs 53-64). -/
inductive MapToError where
  | frameAllocationFailed : MapToError
  | parentEntryHugePage : MapToError
  | pageAlreadyMapped : MapToError
deriving DecidableEq

/-- Error type of `unmap` (recursive.rs 66-76). -/
inductive UnmapError where
  | parentEntryHugePage : UnmapError
  | pageNotMapped : UnmapError
  | invalidFrameAddress (pa : Nat) : UnmapError
deriving DecidableEq

/-- Modelled from the spec: a virtual page identified by its four
page-table indices (the external `Page` abstraction exposes exactly
index extraction `p4_index() .. p1_index()`). -/
structure Page where
  p4 : Nat
  p3 : Nat
  p2 : Nat
  p1 : Nat
deriving DecidableEq

/-- Modelled from the spec: index decomposition `Page::of_addr` — each
level extracts a 9-bit field above the 12-bit page offset (4-level,
512-entry tables). -/
def Page.ofAddr (va : Nat) : Page :=
  ⟨va / 2 ^ 39 % 512, va / 2 ^ 30 % 512, va / 2 ^ 21 % 512, va / 2 ^ 12 % 512⟩

/-- Modelled from the spec: the base address of the page with the given
indices (inverse of `Page.ofAddr` on index tuples). -/
def Page.startAddress (p : Page) : Nat :=
  (((p.p4 * 512 + p.p3) * 512 + p.p2) * 512 + p.p1) * 4096

/-- The deferred-flush handle returned by mutating operations
(recursive.rs 34-51). -/
structure MapperFlush where
  page : Page
deriving DecidableEq

/-- MapperFlush::flush — performs the single-address invalidation of the
recorded page (recursive.rs 44-47). -/
def MapperFlush.flush (m : MapperFlush) (st : Machine) : Machine :=
  st.sfenceOne m.page.startAddress

/-- MapperFlush::ignore — does nothing (recursive.rs 50). -/
def MapperFlush.ignore (m : MapperFlush) (st : Machine) : Machine := st

/-- Result of `map_to` (`Result<MapperFlush, MapToError>`). -/
inductive MapResult where
  | ok (fl : MapperFlush) : MapResult
  | err (e : MapToError) : MapResult
deriving DecidableEq

/-- Result of `unmap` (`Result<(Frame, MapperFlush), UnmapError>`). -/
inductive UnmapResult where
  | ok (frame : Nat) (fl : MapperFlush) : UnmapResult
  | err (e : UnmapError) : UnmapResult
deriving DecidableEq

/-- Outcome of running a function that may hit a failing `assert!`:
`crash` is a panic, `done` an ordinary return. -/
inductive Res (α : Type) where
  | crash : Res α
  | done (a : α) : Res α
deriving DecidableEq

/-- Write one entry of a table value (the in-closure leaf write
`p1[i] = e`). -/
def updEntryT (t : Nat → PTEntry) (i : Nat) (e : PTEntry) : Nat → PTEntry :=
  fun j => if j = i then e else t j

/-- Stage of `create_p1_if_not_exist` for the root level (recursive.rs
231-247): if root entry `a` is unused, allocate the level-3 table frame,
install it VALID, raise R|W, fence, zero the new table through its alias,
fence; else just raise R|W and fence.  Returns the error to propagate,
if any. -/
def stage4 (st : Machine) (a : Nat) : Machine × Option MapToError :=
  if (st.mem st.rootFrame a).isUnused then
    match st.alloc with
    | (none, st1) => (st1, some MapToError.frameAllocationFailed)
    | (some fr, st1) => ((((st1.setP4e a fr validFlags).seqA a).zeroP3 a).sfenceAll, none)
  else (st.seqA a, none)

/-- Stage of `create_p1_if_not_exist` for the level-3 table (recursive.rs
249-274): on allocation failure the R|W raised on the root entry is
rolled back before returning. -/
def stage3 (st : Machine) (a b : Nat) : Machine × Option MapToError :=
  if (st.mem (st.p3f a) b).isUnused then
    match st.alloc with
    | (none, st1) => (st1.failA a, some MapToError.frameAllocationFailed)
    | (some fr, st1) => (((st1.setP3e a b fr validFlags).seqB a b).zeroP2 a b, none)
  else (st.seqB a b, none)

/-- Stage of `create_p1_if_not_exist` for the level-2 table (recursive.rs
276-313): on allocation failure the R|W raised on the p3 entry is rolled
back (through a root-entry toggle) before returning. -/
def stage2 (st : Machine) (a b c : Nat) : Machine × Option MapToError :=
  if (st.mem (st.p2f a b) c).isUnused then
    match st.alloc with
    | (none, st1) => (st1.failB a b, some MapToError.frameAllocationFailed)
    | (some fr, st1) => (((st1.setP2e a b c fr validFlags).seqC a b c).zeroP1 a b c, none)
  else (st.seqC a b c, none)

/-- RecursivePageTable::create_p1_if_not_exist, riscv64 (recursive.rs
213-333).  Asserts that the target root index is not a reserved
recursive-index slot, then runs the three stages and the closing toggle
sequence. -/
def create_p1_if_not_exist (l : Nat) (st : Machine) (a b c : Nat) :
    Res (Machine × Option MapToError) :=
  if a = l ∨ a = l + 1 then Res.crash else
  match stage4 st a with
  | (st1, some e) => Res.done (st1, some e)
  | (st1, none) =>
    match stage3 st1 a b with
    | (st2, some e) => Res.done (st2, some e)
    | (st2, none) =>
      match stage2 st2 a b c with
      | (st3, some e) => Res.done (st3, some e)
      | (st3, none) => Res.done (st3.closeSeq a b c, none)

/-- Tail of `edit_p1` (recursive.rs 384-399): run the closure on the
level-1 table reached through its alias, write its table back, then run
the closing toggle sequence. -/
def editRun {T : Type} (st : Machine) (a b c : Nat)
    (g : (Nat → PTEntry) → T × (Nat → PTEntry)) : Res (T × Machine) :=
  match g (st.mem (st.p1f a b c)) with
  | (t, tbl) => Res.done (t, (st.updT (st.p1f a b c) tbl).closeSeq a b c)

/-- Middle of `edit_p1` (recursive.rs 368-382): assert the p2 entry is
present, then toggle down to the level-1 table. -/
def editStep2 {T : Type} (st : Machine) (a b c : Nat)
    (g : (Nat → PTEntry) → T × (Nat → PTEntry)) : Res (T × Machine) :=
  if (st.mem (st.p2f a b) c).isUnused then Res.crash
  else editRun (st.seqC a b c) a b c g

/-- Middle of `edit_p1` (recursive.rs 357-367): assert the p3 entry is
present, then toggle down to the level-2 table. -/
def editStep3 {T : Type} (st : Machine) (a b c : Nat)
    (g : (Nat → PTEntry) → T × (Nat → PTEntry)) : Res (T × Machine) :=
  if (st.mem (st.p3f a) b).isUnused then Res.crash
  else editStep2 (st.seqB a b) a b c g

/-- RecursivePageTable::edit_p1, riscv64 (recursive.rs 335-402).  Asserts
the target root index is not a reserved slot and that every ancestor
entry along the path is present; panics otherwise. -/
def edit_p1 {T : Type} (l : Nat) (st : Machine) (a b c : Nat)
    (g : (Nat → PTEntry) → T × (Nat → PTEntry)) : Res (T × Machine) :=
  if a = l ∨ a = l + 1 then Res.crash
  else if (st.mem st.rootFrame a).isUnused then Res.crash
  else editStep3 (st.seqA a) a b c g

/-- Tail of `is_mapped` (recursive.rs 475-507): check the leaf entry and
run the closing toggle sequence either way. -/
def imStep1 (st : Machine) (a b c d : Nat) : Res (Machine × Bool) :=
  if (st.mem (st.p1f a b c) d).isUnused then Res.done (st.closeSeq a b c, false)
  else Res.done (st.closeSeq a b c, true)

/-- Middle of `is_mapped` (recursive.rs 450-474): short-circuit with
`false` (rolling back raised permissions) if the p2 entry is unused. -/
def imStep2 (st : Machine) (a b c d : Nat) : Res (Machine × Bool) :=
  if (st.mem (st.p2f a b) c).isUnused then Res.done (st.failB a b, false)
  else imStep1 (st.seqC a b c) a b c d

/-- Middle of `is_mapped` (recursive.rs 433-449): short-circuit with
`false` (rolling back the root toggle) if the p3 entry is unused. -/
def imStep3 (st : Machine) (a b c d : Nat) : Res (Machine × Bool) :=
  if (st.mem (st.p3f a) b).isUnused then Res.done (st.failA a, false)
  else imStep2 (st.seqB a b) a b c d

/-- RecursivePageTable::is_mapped, riscv64 (recursive.rs 404-508).
Asserts the target root index is not a reserved slot; returns `false` as
soon as an entry on the path is unused, restoring raised permissions. -/
def is_mapped (l : Nat) (st : Machine) (a b c d : Nat) : Res (Machine × Bool) :=
  if a = l ∨ a = l + 1 then Res.crash
  else if (st.mem st.rootFrame a).isUnused then Res.done (st, false)
  else imStep3 (st.seqA a) a b c d

/-- Mapper::map_to, riscv64 (recursive.rs 560-582): ensure the chain of
intermediate tables exists, then write the leaf entry through `edit_p1`,
rejecting an already-present leaf. -/
def map_to (l : Nat) (st : Machine) (page : Page) (frame : Nat) (flags : PTFlags) :
    Res (Machine × MapResult) :=
  match create_p1_if_not_exist l st page.p4 page.p3 page.p2 with
  | Res.crash => Res.crash
  | Res.done (st1, some e) => Res.done (st1, MapResult.err e)
  | Res.done (st1, none) =>
    match edit_p1 l st1 page.p4 page.p3 page.p2 (fun p1t =>
      if ¬ (p1t page.p1).isUnused then (MapResult.err MapToError.pageAlreadyMapped, p1t)
      else (MapResult.ok ⟨page⟩, updEntryT p1t page.p1 ⟨frame, flags⟩)) with
    | Res.crash => Res.crash
    | Res.done (r, st2) => Res.done (st2, r)

/-- Mapper::unmap, riscv64 (recursive.rs 584-603): return `PageNotMapped`
when `is_mapped` is false; otherwise clear the leaf entry through
`edit_p1` and return the frame it held (re-checking VALID inside the
closure). -/
def unmap (l : Nat) (st : Machine) (page : Page) : Res (Machine × UnmapResult) :=
  match is_mapped l st page.p4 page.p3 page.p2 page.p1 with
  | Res.crash => Res.crash
  | Res.done (st1, false) => Res.done (st1, UnmapResult.err UnmapError.pageNotMapped)
  | Res.done (st1, true) =>
    match edit_p1 l st1 page.p4 page.p3 page.p2 (fun p1t =>
      if ¬ ((p1t page.p1).flags.valid = true) then
        (UnmapResult.err UnmapError.pageNotMapped, p1t)
      else (UnmapResult.ok (p1t page.p1).frame ⟨page⟩, updEntryT p1t page.p1 unusedEntry)) with
    | Res.crash => Res.crash
    | Res.done (r, st2) => Res.done (st2, r)

/-- Mapper::translate_page, riscv64 (recursive.rs 605-623): `None` when
`is_mapped` is false, else read the leaf entry through `edit_p1`. -/
def translate_page (l : Nat) (st : Machine) (page : Page) : Res (Machine × Option Nat) :=
  match is_mapped l st page.p4 page.p3 page.p2 page.p1 with
  | Res.crash => Res.crash
  | Res.done (st1, false) => Res.done (st1, none)
  | Res.done (st1, true) =>
    match edit_p1 l st1 page.p4 page.p3 page.p2 (fun p1t =>
      if (p1t page.p1).isUnused then ((none : Option Nat), p1t)
      else (some (p1t page.p1).frame, p1t)) with
    | Res.crash => Res.crash
    | Res.done (r, st2) => Res.done (st2, r)

/-- Mapper::identity_map (recursive.rs 26-31): map the page whose virtual
address equals the frame's physical address. -/
def identity_map (l : Nat) (st : Machine) (frame : Nat) (flags : PTFlags) :
    Res (Machine × MapResult) :=
  map_to l st (Page.ofAddr frame) frame flags

/-- Error of the validating constructor (recursive.rs 88-92). -/
structure NotRecursivelyMapped where
deriving DecidableEq

/-- RecursivePageTable::new, riscv64 (recursive.rs 175-203).  `tableVA` is
the virtual address of the passed root-table reference and `tableFrame`
the physical frame that reference designates; `satp::read().frame()` is
the machine's `rootFrame`.  Returns the recursive index on success.
Note the flag test on entry `l` is bitflags `contains(R | W)`, which is
true only when BOTH bits are set. -/
def RecursivePageTable.new (st : Machine) (tableVA tableFrame : Nat) :
    Except NotRecursivelyMapped Nat :=
  if (Page.ofAddr tableVA).p3 ≠ (Page.ofAddr tableVA).p4
      ∨ (Page.ofAddr tableVA).p2 ≠ (Page.ofAddr tableVA).p4
      ∨ (Page.ofAddr tableVA).p1 ≠ (Page.ofAddr tableVA).p4 + 1
      ∨ st.rootFrame ≠ (st.mem tableFrame (Page.ofAddr tableVA).p4).frame
      ∨ st.rootFrame ≠ (st.mem tableFrame ((Page.ofAddr tableVA).p4 + 1)).frame
      ∨ ¬ ((st.mem tableFrame (Page.ofAddr tableVA).p4).flags.valid = true)
      ∨ ((st.mem tableFrame (Page.ofAddr tableVA).p4).flags.readable = true
          ∧ (st.mem tableFrame (Page.ofAddr tableVA).p4).flags.writable = true)
      ∨ ¬ ((st.mem tableFrame ((Page.ofAddr tableVA).p4 + 1)).flags.valid = true
          ∧ (st.mem tableFrame ((Page.ofAddr tableVA).p4 + 1)).flags.readable = true
          ∧ (st.mem tableFrame ((Page.ofAddr tableVA).p4 + 1)).flags.writable = true) then
    Except.error ⟨⟩
  else
    Except.ok (Page.ofAddr tableVA).p4

end RecPT

namespace RecPT

/-- Readable and writable both clear on an entry (the steady state of
every intermediate-level entry outside a toggle bracket). -/
def rwClear (e : PTEntry) : Prop :=
  e.flags.readable = false ∧ e.flags.writable = false

instance (e : PTEntry) : Decidable (rwClear e) :=
  inferInstanceAs (Decidable (e.flags.readable = false ∧ e.flags.writable = false))

/-- The machine left behind by a run, with a default for a crash. -/
def afterSt {α : Type} : Res (Machine × α) → Machine
  | Res.crash => default
  | Res.done (s, _) => s

/-- The value returned by a run, `none` for a crash. -/
def resOf {α : Type} : Res (Machine × α) → Option α
  | Res.crash => none
  | Res.done (_, r) => some r

/-- The VALID | READABLE | WRITABLE flag bitset (a typical leaf flag set). -/
def rwFlags : PTFlags := ⟨true, true, true, 0⟩

/-- Concrete fixture machine: a recursively-mapped table with recursive
index 0 (root frame 10, entries 0 and 1 of the root set up as the
constructor requires), a fully present intermediate chain for the path
(5, 6, 7) through table frames 20, 21, 22, one valid leaf mapping at
index 3 of the level-1 table, an allocator holding three fresh frames,
and one cached translation — the start address of page (5, 6, 7, 8). -/
def M0 : Machine := {
  mem := fun f i =>
    if f = 10 ∧ i = 0 then ⟨10, validFlags⟩
    else if f = 10 ∧ i = 1 then ⟨10, rwFlags⟩
    else if f = 10 ∧ i = 5 then ⟨20, validFlags⟩
    else if f = 20 ∧ i = 6 then ⟨21, validFlags⟩
    else if f = 21 ∧ i = 7 then ⟨22, validFlags⟩
    else if f = 22 ∧ i = 3 then ⟨77, rwFlags⟩
    else unusedEntry,
  rootFrame := 10, freeFrames := [30, 31, 32], tlb := [Page.startAddress ⟨5, 6, 7, 8⟩],
  events := [] }

/-- The fixture machine with an allocator holding a single frame. -/
def M3 : Machine := { M0 with freeFrames := [30] }

/-- Concrete machine whose root entry at the recursive index 0 has VALID
and READABLE set but WRITABLE clear, and entry 1 set up normally. -/
def M5 : Machine := {
  mem := fun f i =>
    if f = 10 ∧ i = 0 then ⟨10, ⟨true, true, false, 0⟩⟩
    else if f = 10 ∧ i = 1 then ⟨10, rwFlags⟩
    else unusedEntry,
  rootFrame := 10, freeFrames := [], tlb := [], events := [] }

theorem mem_insRW (st : Machine) (f i g j : Nat) :
    (st.insRW f i).mem g j =
      if g = f ∧ j = i then rwE true (st.mem f i) else st.mem g j := rfl

theorem mem_remRW (st : Machine) (f i g j : Nat) :
    (st.remRW f i).mem g j =
      if g = f ∧ j = i then rwE false (st.mem f i) else st.mem g j := rfl

theorem mem_setE (st : Machine) (f i fr : Nat) (fl : PTFlags) (g j : Nat) :
    (st.setE f i fr fl).mem g j =
      if g = f ∧ j = i then ⟨fr, fl⟩ else st.mem g j := rfl

theorem mem_zeroF (st : Machine) (f g j : Nat) :
    (st.zeroF f).mem g j = if g = f then unusedEntry else st.mem g j := rfl

theorem mem_updT (st : Machine) (f : Nat) (t : Nat → PTEntry) (g j : Nat) :
    (st.updT f t).mem g j = if g = f then t j else st.mem g j := rfl

theorem mem_sfenceAll (st : Machine) : (st.sfenceAll).mem = st.mem := rfl

theorem rootFrame_insRW (st : Machine) (f i : Nat) :
    (st.insRW f i).rootFrame = st.rootFrame := rfl

theorem rootFrame_remRW (st : Machine) (f i : Nat) :
    (st.remRW f i).rootFrame = st.rootFrame := rfl

theorem rootFrame_setE (st : Machine) (f i fr : Nat) (fl : PTFlags) :
    (st.setE f i fr fl).rootFrame = st.rootFrame := rfl

theorem rootFrame_zeroF (st : Machine) (f : Nat) :
    (st.zeroF f).rootFrame = st.rootFrame := rfl

theorem rootFrame_updT (st : Machine) (f : Nat) (t : Nat → PTEntry) :
    (st.updT f t).rootFrame = st.rootFrame := rfl

theorem rootFrame_sfenceAll (st : Machine) : (st.sfenceAll).rootFrame = st.rootFrame := rfl

theorem freeFrames_insRW (st : Machine) (f i : Nat) :
    (st.insRW f i).freeFrames = st.freeFrames := rfl

theorem freeFrames_remRW (st : Machine) (f i : Nat) :
    (st.remRW f i).freeFrames = st.freeFrames := rfl

theorem freeFrames_setE (st : Machine) (f i fr : Nat) (fl : PTFlags) :
    (st.setE f i fr fl).freeFrames = st.freeFrames := rfl

theorem freeFrames_zeroF (st : Machine) (f : Nat) :
    (st.zeroF f).freeFrames = st.freeFrames := rfl

theorem freeFrames_updT (st : Machine) (f : Nat) (t : Nat → PTEntry) :
    (st.updT f t).freeFrames = st.freeFrames := rfl

theorem freeFrames_sfenceAll (st : Machine) : (st.sfenceAll).freeFrames = st.freeFrames := rfl

theorem events_insRW (st : Machine) (f i : Nat) : (st.insRW f i).events = st.events := rfl

theorem events_remRW (st : Machine) (f i : Nat) : (st.remRW f i).events = st.events := rfl

theorem events_setE (st : Machine) (f i fr : Nat) (fl : PTFlags) :
    (st.setE f i fr fl).events = st.events := rfl

theorem events_zeroF (st : Machine) (f : Nat) : (st.zeroF f).events = st.events := rfl

theorem events_updT (st : Machine) (f : Nat) (t : Nat → PTEntry) :
    (st.updT f t).events = st.events := rfl

theorem events_sfenceAll (st : Machine) :
    (st.sfenceAll).events = st.events ++ [FlushEvent.flushAll] := rfl

theorem tlb_sfenceAll (st : Machine) : (st.sfenceAll).tlb = [] := rfl

theorem frame_rwE (b : Bool) (e : PTEntry) : (rwE b e).frame = e.frame := rfl

theorem rwE_rwE (b b' : Bool) (e : PTEntry) : rwE b (rwE b' e) = rwE b e := rfl

theorem rwE_false_of_clear (e : PTEntry) (h : rwClear e) : rwE false e = e := by
  obtain ⟨fr, fl⟩ := e
  obtain ⟨v, r, w, x⟩ := fl
  obtain ⟨h1, h2⟩ := h
  simp only [rwClear] at h1 h2
  simp [rwE, rwSet, h1, h2]

theorem rwClear_rwE_false (e : PTEntry) : rwClear (rwE false e) := ⟨rfl, rfl⟩

theorem rwClear_unused : rwClear unusedEntry := ⟨rfl, rfl⟩

theorem rwClear_validFlags (fr : Nat) : rwClear (⟨fr, validFlags⟩ : PTEntry) := ⟨rfl, rfl⟩

theorem not_unused_of_valid (e : PTEntry) (h : e.flags.valid = true) : ¬ e.isUnused := by
  intro he
  rw [PTEntry.isUnused] at he
  rw [he] at h
  simp [unusedEntry, PTFlags.none] at h

theorem not_unused_rwE_true (e : PTEntry) : ¬ (rwE true e).isUnused := by
  intro he
  rw [PTEntry.isUnused] at he
  have : (rwE true e).flags.readable = true := rfl
  rw [he] at this
  simp [unusedEntry, PTFlags.none] at this

theorem valid_rwE (b : Bool) (e : PTEntry) : (rwE b e).flags.valid = e.flags.valid := rfl

theorem frame_mk (fr : Nat) (fl : PTFlags) : (PTEntry.mk fr fl).frame = fr := rfl

theorem unused_validFlags (fr : Nat) (h : (⟨fr, validFlags⟩ : PTEntry).isUnused) : False := by
  rw [PTEntry.isUnused] at h
  have : validFlags = PTFlags.none := congrArg PTEntry.flags h
  simp [validFlags, PTFlags.none] at this

end RecPT

namespace RecPT

theorem p3f_insRW (st : Machine) (f i a : Nat) : (st.insRW f i).p3f a = st.p3f a := by
  show ((st.insRW f i).mem st.rootFrame a).frame = (st.mem st.rootFrame a).frame
  rw [mem_insRW]
  split
  · next h => rw [h.1, h.2]; rfl
  · rfl

theorem p3f_remRW (st : Machine) (f i a : Nat) : (st.remRW f i).p3f a = st.p3f a := by
  show ((st.remRW f i).mem st.rootFrame a).frame = (st.mem st.rootFrame a).frame
  rw [mem_remRW]
  split
  · next h => rw [h.1, h.2]; rfl
  · rfl

theorem p3f_sfenceAll (st : Machine) (a : Nat) : (st.sfenceAll).p3f a = st.p3f a := rfl

theorem frame_insRW (st : Machine) (f i g j : Nat) :
    ((st.insRW f i).mem g j).frame = (st.mem g j).frame := by
  rw [mem_insRW]
  split
  · next h => rw [h.1, h.2]; rfl
  · rfl

theorem frame_remRW (st : Machine) (f i g j : Nat) :
    ((st.remRW f i).mem g j).frame = (st.mem g j).frame := by
  rw [mem_remRW]
  split
  · next h => rw [h.1, h.2]; rfl
  · rfl

theorem p2f_insRW (st : Machine) (f i a b : Nat) : (st.insRW f i).p2f a b = st.p2f a b := by
  show ((st.insRW f i).mem ((st.insRW f i).p3f a) b).frame = _
  rw [p3f_insRW, frame_insRW]
  rfl

theorem p2f_remRW (st : Machine) (f i a b : Nat) : (st.remRW f i).p2f a b = st.p2f a b := by
  show ((st.remRW f i).mem ((st.remRW f i).p3f a) b).frame = _
  rw [p3f_remRW, frame_remRW]
  rfl

theorem p2f_sfenceAll (st : Machine) (a b : Nat) : (st.sfenceAll).p2f a b = st.p2f a b := rfl

theorem p1f_insRW (st : Machine) (f i a b c : Nat) :
    (st.insRW f i).p1f a b c = st.p1f a b c := by
  show ((st.insRW f i).mem ((st.insRW f i).p2f a b) c).frame = _
  rw [p2f_insRW]
  rw [frame_insRW st f i (st.p2f a b) c]
  rfl

theorem p1f_remRW (st : Machine) (f i a b c : Nat) :
    (st.remRW f i).p1f a b c = st.p1f a b c := by
  show ((st.remRW f i).mem ((st.remRW f i).p2f a b) c).frame = _
  rw [p2f_remRW]
  rw [frame_remRW st f i (st.p2f a b) c]
  rfl

theorem p1f_sfenceAll (st : Machine) (a b c : Nat) : (st.sfenceAll).p1f a b c = st.p1f a b c := rfl

theorem mem_seqA (st : Machine) (a x y : Nat) :
    (st.seqA a).mem x y =
      if x = st.rootFrame ∧ y = a then rwE true (st.mem st.rootFrame a) else st.mem x y := rfl

theorem p3f_seqA (st : Machine) (a a' : Nat) : (st.seqA a).p3f a' = st.p3f a' := by
  show ((st.insP4e a).sfenceAll).p3f a' = _
  rw [p3f_sfenceAll, Machine.insP4e, p3f_insRW]

theorem p2f_seqA (st : Machine) (a a' b : Nat) : (st.seqA a).p2f a' b = st.p2f a' b := by
  show ((st.insP4e a).sfenceAll).p2f a' b = _
  rw [p2f_sfenceAll, Machine.insP4e, p2f_insRW]

theorem p1f_seqA (st : Machine) (a a' b c : Nat) : (st.seqA a).p1f a' b c = st.p1f a' b c := by
  show ((st.insP4e a).sfenceAll).p1f a' b c = _
  rw [p1f_sfenceAll, Machine.insP4e, p1f_insRW]

theorem rootFrame_seqA (st : Machine) (a : Nat) : (st.seqA a).rootFrame = st.rootFrame := rfl

theorem freeFrames_seqA (st : Machine) (a : Nat) : (st.seqA a).freeFrames = st.freeFrames := rfl

theorem events_seqA (st : Machine) (a : Nat) :
    (st.seqA a).events = st.events ++ List.replicate 1 FlushEvent.flushAll := rfl

end RecPT

namespace RecPT

theorem mem_seqB (st : Machine) (a b : Nat) (d1 : st.p3f a ≠ st.rootFrame) (x y : Nat) :
    (st.seqB a b).mem x y =
      if x = st.rootFrame ∧ y = a then rwE false (st.mem st.rootFrame a)
      else if x = st.p3f a ∧ y = b then rwE true (st.mem (st.p3f a) b)
      else st.mem x y := by
  simp only [Machine.seqB, Machine.remP4e, Machine.insP3e, mem_sfenceAll, rootFrame_sfenceAll,
    rootFrame_insRW, p3f_sfenceAll, p3f_insRW, mem_remRW, mem_insRW, Ne.symm d1, false_and,
    if_false]

theorem rootFrame_seqB (st : Machine) (a b : Nat) : (st.seqB a b).rootFrame = st.rootFrame := rfl

theorem freeFrames_seqB (st : Machine) (a b : Nat) : (st.seqB a b).freeFrames = st.freeFrames := rfl

theorem events_seqB (st : Machine) (a b : Nat) :
    (st.seqB a b).events = st.events ++ List.replicate 2 FlushEvent.flushAll := by
  simp [Machine.seqB, Machine.remP4e, Machine.insP3e, Machine.sfenceAll, Machine.remRW,
    Machine.insRW, List.replicate]

theorem p3f_seqB (st : Machine) (a b a' : Nat) : (st.seqB a b).p3f a' = st.p3f a' := by
  simp only [Machine.seqB, Machine.remP4e, Machine.insP3e, p3f_sfenceAll, p3f_remRW, p3f_insRW]

theorem p2f_seqB (st : Machine) (a b a' b' : Nat) : (st.seqB a b).p2f a' b' = st.p2f a' b' := by
  simp only [Machine.seqB, Machine.remP4e, Machine.insP3e, p2f_sfenceAll, p2f_remRW, p2f_insRW]

theorem p1f_seqB (st : Machine) (a b a' b' c' : Nat) :
    (st.seqB a b).p1f a' b' c' = st.p1f a' b' c' := by
  simp only [Machine.seqB, Machine.remP4e, Machine.insP3e, p1f_sfenceAll, p1f_remRW, p1f_insRW]

end RecPT

namespace RecPT

theorem mem_seqC (st : Machine) (a b c : Nat)
    (d1 : st.p3f a ≠ st.rootFrame) (d2 : st.p2f a b ≠ st.rootFrame)
    (d3 : st.p2f a b ≠ st.p3f a) (x y : Nat) :
    (st.seqC a b c).mem x y =
      if x = st.rootFrame ∧ y = a then rwE false (st.mem st.rootFrame a)
      else if x = st.p3f a ∧ y = b then rwE false (st.mem (st.p3f a) b)
      else if x = st.p2f a b ∧ y = c then rwE true (st.mem (st.p2f a b) c)
      else st.mem x y := by
  simp only [Machine.seqC, Machine.remP4e, Machine.remP3e, Machine.insP4e, Machine.insP2e,
    mem_sfenceAll, rootFrame_sfenceAll, rootFrame_insRW, rootFrame_remRW,
    p3f_sfenceAll, p3f_insRW, p3f_remRW, p2f_sfenceAll, p2f_insRW, p2f_remRW,
    mem_remRW, mem_insRW]
  by_cases hA : x = st.rootFrame ∧ y = a
  · obtain ⟨hx, hy⟩ := hA
    subst hx; subst hy
    simp [Ne.symm d1, Ne.symm d2, d1, d2, rwE_rwE]
  · by_cases hB : x = st.p3f a ∧ y = b
    · obtain ⟨hx, hy⟩ := hB
      subst hx; subst hy
      simp only [if_neg hA]
      simp [Ne.symm d3, d1, d3, hA, rwE_rwE]
    · by_cases hC : x = st.p2f a b ∧ y = c
      · obtain ⟨hx, hy⟩ := hC
        subst hx; subst hy
        simp [hA, hB, d2, d3, rwE_rwE]
      · simp [hA, hB, hC]

end RecPT

namespace RecPT

theorem rootFrame_seqC (st : Machine) (a b c : Nat) : (st.seqC a b c).rootFrame = st.rootFrame := rfl

theorem freeFrames_seqC (st : Machine) (a b c : Nat) :
    (st.seqC a b c).freeFrames = st.freeFrames := rfl

theorem events_seqC (st : Machine) (a b c : Nat) :
    (st.seqC a b c).events = st.events ++ List.replicate 4 FlushEvent.flushAll := by
  simp [Machine.seqC, Machine.remP4e, Machine.remP3e, Machine.insP4e, Machine.insP2e,
    Machine.sfenceAll, Machine.remRW, Machine.insRW, List.replicate]

theorem p3f_seqC (st : Machine) (a b c a' : Nat) : (st.seqC a b c).p3f a' = st.p3f a' := by
  simp only [Machine.seqC, Machine.remP4e, Machine.remP3e, Machine.insP4e, Machine.insP2e,
    p3f_sfenceAll, p3f_remRW, p3f_insRW]

theorem p2f_seqC (st : Machine) (a b c a' b' : Nat) : (st.seqC a b c).p2f a' b' = st.p2f a' b' := by
  simp only [Machine.seqC, Machine.remP4e, Machine.remP3e, Machine.insP4e, Machine.insP2e,
    p2f_sfenceAll, p2f_remRW, p2f_insRW]

theorem p1f_seqC (st : Machine) (a b c a' b' c' : Nat) :
    (st.seqC a b c).p1f a' b' c' = st.p1f a' b' c' := by
  simp only [Machine.seqC, Machine.remP4e, Machine.remP3e, Machine.insP4e, Machine.insP2e,
    p1f_sfenceAll, p1f_remRW, p1f_insRW]

theorem mem_failA (st : Machine) (a x y : Nat) :
    (st.failA a).mem x y =
      if x = st.rootFrame ∧ y = a then rwE false (st.mem st.rootFrame a) else st.mem x y := rfl

theorem rootFrame_failA (st : Machine) (a : Nat) : (st.failA a).rootFrame = st.rootFrame := rfl

theorem freeFrames_failA (st : Machine) (a : Nat) : (st.failA a).freeFrames = st.freeFrames := rfl

theorem events_failA (st : Machine) (a : Nat) :
    (st.failA a).events = st.events ++ List.replicate 1 FlushEvent.flushAll := rfl

theorem mem_failB (st : Machine) (a b : Nat) (d1 : st.p3f a ≠ st.rootFrame) (x y : Nat) :
    (st.failB a b).mem x y =
      if x = st.rootFrame ∧ y = a then rwE false (st.mem st.rootFrame a)
      else if x = st.p3f a ∧ y = b then rwE false (st.mem (st.p3f a) b)
      else st.mem x y := by
  simp only [Machine.failB, Machine.remP4e, Machine.remP3e, Machine.insP4e,
    mem_sfenceAll, rootFrame_sfenceAll, rootFrame_insRW, rootFrame_remRW,
    p3f_sfenceAll, p3f_insRW, p3f_remRW, mem_remRW, mem_insRW]
  by_cases hA : x = st.rootFrame ∧ y = a
  · obtain ⟨hx, hy⟩ := hA
    subst hx; subst hy
    simp [Ne.symm d1, d1, rwE_rwE]
  · by_cases hB : x = st.p3f a ∧ y = b
    · obtain ⟨hx, hy⟩ := hB
      subst hx; subst hy
      simp [hA, d1, rwE_rwE]
    · simp [hA, hB]

theorem rootFrame_failB (st : Machine) (a b : Nat) : (st.failB a b).rootFrame = st.rootFrame := rfl

theorem freeFrames_failB (st : Machine) (a b : Nat) : (st.failB a b).freeFrames = st.freeFrames := rfl

theorem events_failB (st : Machine) (a b : Nat) :
    (st.failB a b).events = st.events ++ List.replicate 3 FlushEvent.flushAll := by
  simp [Machine.failB, Machine.remP4e, Machine.remP3e, Machine.insP4e,
    Machine.sfenceAll, Machine.remRW, Machine.insRW, List.replicate]

theorem mem_closeSeq (st : Machine) (a b c : Nat)
    (d1 : st.p3f a ≠ st.rootFrame) (d2 : st.p2f a b ≠ st.rootFrame)
    (d3 : st.p2f a b ≠ st.p3f a) (x y : Nat) :
    (st.closeSeq a b c).mem x y =
      if x = st.rootFrame ∧ y = a then rwE false (st.mem st.rootFrame a)
      else if x = st.p3f a ∧ y = b then rwE false (st.mem (st.p3f a) b)
      else if x = st.p2f a b ∧ y = c then rwE false (st.mem (st.p2f a b) c)
      else st.mem x y := by
  simp only [Machine.closeSeq, Machine.remP4e, Machine.remP3e, Machine.remP2e, Machine.insP4e,
    Machine.insP3e, mem_sfenceAll, rootFrame_sfenceAll, rootFrame_insRW, rootFrame_remRW,
    p3f_sfenceAll, p3f_insRW, p3f_remRW, p2f_sfenceAll, p2f_insRW, p2f_remRW,
    mem_remRW, mem_insRW]
  by_cases hA : x = st.rootFrame ∧ y = a
  · obtain ⟨hx, hy⟩ := hA
    subst hx; subst hy
    simp [Ne.symm d1, Ne.symm d2, d1, d2, rwE_rwE]
  · by_cases hB : x = st.p3f a ∧ y = b
    · obtain ⟨hx, hy⟩ := hB
      subst hx; subst hy
      simp [hA, Ne.symm d3, d1, d3, rwE_rwE]
    · by_cases hC : x = st.p2f a b ∧ y = c
      · obtain ⟨hx, hy⟩ := hC
        subst hx; subst hy
        simp [hA, hB, d2, d3, rwE_rwE]
      · simp [hA, hB, hC]

theorem rootFrame_closeSeq (st : Machine) (a b c : Nat) :
    (st.closeSeq a b c).rootFrame = st.rootFrame := rfl

theorem freeFrames_closeSeq (st : Machine) (a b c : Nat) :
    (st.closeSeq a b c).freeFrames = st.freeFrames := rfl

theorem tlb_closeSeq (st : Machine) (a b c : Nat) : (st.closeSeq a b c).tlb = [] := rfl

theorem events_closeSeq (st : Machine) (a b c : Nat) :
    (st.closeSeq a b c).events = st.events ++ List.replicate 7 FlushEvent.flushAll := by
  simp [Machine.closeSeq, Machine.remP4e, Machine.remP3e, Machine.remP2e, Machine.insP4e,
    Machine.insP3e, Machine.sfenceAll, Machine.remRW, Machine.insRW, List.replicate]

theorem mem_closeSeq_clean (st : Machine) (a b c : Nat)
    (d1 : st.p3f a ≠ st.rootFrame) (d2 : st.p2f a b ≠ st.rootFrame)
    (d3 : st.p2f a b ≠ st.p3f a)
    (cA : rwClear (st.mem st.rootFrame a)) (cB : rwClear (st.mem (st.p3f a) b))
    (cC : rwClear (st.mem (st.p2f a b) c)) :
    (st.closeSeq a b c).mem = st.mem := by
  funext x y
  rw [mem_closeSeq st a b c d1 d2 d3]
  by_cases hA : x = st.rootFrame ∧ y = a
  · obtain ⟨hx, hy⟩ := hA
    subst hx; subst hy
    simp [rwE_false_of_clear _ cA]
  · by_cases hB : x = st.p3f a ∧ y = b
    · obtain ⟨hx, hy⟩ := hB
      subst hx; subst hy
      simp [hA, rwE_false_of_clear _ cB]
    · by_cases hC : x = st.p2f a b ∧ y = c
      · obtain ⟨hx, hy⟩ := hC
        subst hx; subst hy
        simp [hA, hB, rwE_false_of_clear _ cC]
      · simp [hA, hB, hC]

end RecPT

namespace RecPT

theorem rep_app (A : List FlushEvent) (m n : Nat) :
    (A ++ List.replicate m FlushEvent.flushAll) ++ List.replicate n FlushEvent.flushAll
      = A ++ List.replicate (m + n) FlushEvent.flushAll := by
  rw [List.append_assoc, ← List.replicate_add]

theorem edit_exact {T : Type} (l : Nat) (st : Machine) (a b c : Nat)
    (g : (Nat → PTEntry) → T × (Nat → PTEntry))
    (ha : a ≠ l) (ha2 : a ≠ l + 1)
    (hA : ¬ (st.mem st.rootFrame a).isUnused)
    (hB : ¬ (st.mem (st.p3f a) b).isUnused)
    (hC : ¬ (st.mem (st.p2f a b) c).isUnused)
    (cA : rwClear (st.mem st.rootFrame a))
    (cB : rwClear (st.mem (st.p3f a) b))
    (cC : rwClear (st.mem (st.p2f a b) c))
    (d1 : st.p3f a ≠ st.rootFrame)
    (d2 : st.p2f a b ≠ st.rootFrame) (d3 : st.p2f a b ≠ st.p3f a)
    (d4 : st.p1f a b c ≠ st.rootFrame) (d5 : st.p1f a b c ≠ st.p3f a)
    (d6 : st.p1f a b c ≠ st.p2f a b) :
    ∃ st', edit_p1 l st a b c g = Res.done ((g (st.mem (st.p1f a b c))).1, st') ∧
      st'.mem = (fun x y => if x = st.p1f a b c
                   then (g (st.mem (st.p1f a b c))).2 y else st.mem x y) ∧
      st'.rootFrame = st.rootFrame ∧
      st'.freeFrames = st.freeFrames ∧
      st'.tlb = [] ∧
      st'.events = st.events ++ List.replicate 14 FlushEvent.flushAll := by
  have hYmem : ∀ x y, ((st.seqA a).seqB a b).mem x y =
      (if x = st.rootFrame ∧ y = a then rwE false (st.mem st.rootFrame a)
       else if x = st.p3f a ∧ y = b then rwE true (st.mem (st.p3f a) b)
       else st.mem x y) := by
    intro x y
    rw [mem_seqB _ a b (by rw [p3f_seqA, rootFrame_seqA]; exact d1)]
    rw [rootFrame_seqA, p3f_seqA]
    by_cases h1 : x = st.rootFrame ∧ y = a
    · obtain ⟨hx, hy⟩ := h1
      subst hx; subst hy
      simp [mem_seqA, rwE_rwE]
    · by_cases h2 : x = st.p3f a ∧ y = b
      · obtain ⟨hx, hy⟩ := h2
        subst hx; subst hy
        simp [h1, mem_seqA, Ne.symm d1, d1]
      · simp [h1, h2, mem_seqA]
  have hZmem : ∀ x y, (((st.seqA a).seqB a b).seqC a b c).mem x y =
      (if x = st.rootFrame ∧ y = a then rwE false (st.mem st.rootFrame a)
       else if x = st.p3f a ∧ y = b then rwE false (st.mem (st.p3f a) b)
       else if x = st.p2f a b ∧ y = c then rwE true (st.mem (st.p2f a b) c)
       else st.mem x y) := by
    intro x y
    rw [mem_seqC _ a b c (by rw [p3f_seqB, p3f_seqA, rootFrame_seqB, rootFrame_seqA]; exact d1)
      (by rw [p2f_seqB, p2f_seqA, rootFrame_seqB, rootFrame_seqA]; exact d2)
      (by rw [p2f_seqB, p2f_seqA, p3f_seqB, p3f_seqA]; exact d3)]
    rw [rootFrame_seqB, rootFrame_seqA, p3f_seqB, p3f_seqA, p2f_seqB, p2f_seqA]
    by_cases h1 : x = st.rootFrame ∧ y = a
    · obtain ⟨hx, hy⟩ := h1
      subst hx; subst hy
      simp [hYmem, rwE_rwE]
    · by_cases h2 : x = st.p3f a ∧ y = b
      · obtain ⟨hx, hy⟩ := h2
        subst hx; subst hy
        simp [h1, hYmem, rwE_rwE]
      · by_cases h3 : x = st.p2f a b ∧ y = c
        · obtain ⟨hx, hy⟩ := h3
          subst hx; subst hy
          simp [h1, h2, hYmem, Ne.symm d2, Ne.symm d3, d2, d3]
        · simp [h1, h2, h3, hYmem]
  have hZp1 : (((st.seqA a).seqB a b).seqC a b c).p1f a b c = st.p1f a b c := by
    rw [p1f_seqC, p1f_seqB, p1f_seqA]
  have hT : (((st.seqA a).seqB a b).seqC a b c).mem (st.p1f a b c) = st.mem (st.p1f a b c) := by
    funext y
    rw [hZmem]
    simp [d4, d5, d6]
  unfold edit_p1
  rw [if_neg (by simp [ha, ha2]), if_neg hA]
  unfold editStep3
  rw [p3f_seqA]
  have e1 : (st.seqA a).mem (st.p3f a) b = st.mem (st.p3f a) b := by
    rw [mem_seqA, if_neg]
    intro h
    exact d1 h.1
  rw [e1, if_neg hB]
  unfold editStep2
  rw [p2f_seqB, p2f_seqA]
  have e2 : ((st.seqA a).seqB a b).mem (st.p2f a b) c = st.mem (st.p2f a b) c := by
    rw [hYmem]
    simp [d2, d3]
  rw [e2, if_neg hC]
  unfold editRun
  rw [hZp1, hT]
  rcases hg : g (st.mem (st.p1f a b c)) with ⟨t, tbl⟩
  refine ⟨_, rfl, ?_, ?_, ?_, ?_, ?_⟩
  · -- the memory of the final state
    funext x y
    set Z := ((st.seqA a).seqB a b).seqC a b c with hZ
    set V := Z.updT (st.p1f a b c) tbl with hV
    have hVroot : V.rootFrame = st.rootFrame := by
      rw [hV, rootFrame_updT, hZ, rootFrame_seqC, rootFrame_seqB, rootFrame_seqA]
    have hVmemA : V.mem st.rootFrame a = rwE false (st.mem st.rootFrame a) := by
      rw [hV, mem_updT, if_neg (Ne.symm d4), hZmem]
      simp
    have hVp3 : V.p3f a = st.p3f a := by
      show (V.mem V.rootFrame a).frame = _
      rw [hVroot, hVmemA, frame_rwE]
      rfl
    have hVmemB : V.mem (st.p3f a) b = rwE false (st.mem (st.p3f a) b) := by
      rw [hV, mem_updT, if_neg (Ne.symm d5), hZmem]
      simp [Ne.symm d1, d1]
    have hVp2 : V.p2f a b = st.p2f a b := by
      show (V.mem (V.p3f a) b).frame = _
      rw [hVp3, hVmemB, frame_rwE]
      rfl
    have hVmemC : V.mem (st.p2f a b) c = rwE true (st.mem (st.p2f a b) c) := by
      rw [hV, mem_updT, if_neg (Ne.symm d6), hZmem]
      simp [Ne.symm d2, Ne.symm d3, d2, d3]
    rw [mem_closeSeq V a b c (by rw [hVp3, hVroot]; exact d1) (by rw [hVp2, hVroot]; exact d2)
      (by rw [hVp2, hVp3]; exact d3)]
    rw [hVroot, hVp3, hVp2]
    by_cases h1 : x = st.rootFrame ∧ y = a
    · obtain ⟨hx, hy⟩ := h1
      subst hx; subst hy
      rw [if_pos ⟨rfl, rfl⟩, hVmemA, rwE_rwE, rwE_false_of_clear _ cA, if_neg d4.symm]
    · by_cases h2 : x = st.p3f a ∧ y = b
      · obtain ⟨hx, hy⟩ := h2
        subst hx; subst hy
        rw [if_neg h1, if_pos ⟨rfl, rfl⟩, hVmemB, rwE_rwE, rwE_false_of_clear _ cB,
          if_neg d5.symm]
      · by_cases h3 : x = st.p2f a b ∧ y = c
        · obtain ⟨hx, hy⟩ := h3
          subst hx; subst hy
          rw [if_neg h1, if_neg h2, if_pos ⟨rfl, rfl⟩, hVmemC, rwE_rwE,
            rwE_false_of_clear _ cC, if_neg d6.symm]
        · rw [if_neg h1, if_neg h2, if_neg h3, hV, mem_updT]
          by_cases h4 : x = st.p1f a b c
          · rw [if_pos h4, if_pos h4]
          · rw [if_neg h4, if_neg h4, hZmem]
            simp [h1, h2, h3]
  · rw [rootFrame_closeSeq, rootFrame_updT, rootFrame_seqC, rootFrame_seqB, rootFrame_seqA]
  · rw [freeFrames_closeSeq]
    rfl
  · rw [tlb_closeSeq]
  · rw [events_closeSeq]
    have hev : ((((st.seqA a).seqB a b).seqC a b c).updT (st.p1f a b c) tbl).events
        = st.events ++ List.replicate 7 FlushEvent.flushAll := by
      rw [events_updT, events_seqC, events_seqB, events_seqA, rep_app, rep_app]
    rw [hev, rep_app]

end RecPT

namespace RecPT

theorem mem_seqAB (st : Machine) (a b : Nat) (d1 : st.p3f a ≠ st.rootFrame) (x y : Nat) :
    ((st.seqA a).seqB a b).mem x y =
      if x = st.rootFrame ∧ y = a then rwE false (st.mem st.rootFrame a)
      else if x = st.p3f a ∧ y = b then rwE true (st.mem (st.p3f a) b)
      else st.mem x y := by
  rw [mem_seqB _ a b (by rw [p3f_seqA, rootFrame_seqA]; exact d1)]
  rw [rootFrame_seqA, p3f_seqA]
  by_cases h1 : x = st.rootFrame ∧ y = a
  · obtain ⟨hx, hy⟩ := h1
    subst hx; subst hy
    simp [mem_seqA, rwE_rwE]
  · by_cases h2 : x = st.p3f a ∧ y = b
    · obtain ⟨hx, hy⟩ := h2
      subst hx; subst hy
      simp [h1, mem_seqA, Ne.symm d1, d1]
    · simp [h1, h2, mem_seqA]

theorem mem_seqABC (st : Machine) (a b c : Nat)
    (d1 : st.p3f a ≠ st.rootFrame) (d2 : st.p2f a b ≠ st.rootFrame)
    (d3 : st.p2f a b ≠ st.p3f a) (x y : Nat) :
    (((st.seqA a).seqB a b).seqC a b c).mem x y =
      if x = st.rootFrame ∧ y = a then rwE false (st.mem st.rootFrame a)
      else if x = st.p3f a ∧ y = b then rwE false (st.mem (st.p3f a) b)
      else if x = st.p2f a b ∧ y = c then rwE true (st.mem (st.p2f a b) c)
      else st.mem x y := by
  rw [mem_seqC _ a b c (by rw [p3f_seqB, p3f_seqA, rootFrame_seqB, rootFrame_seqA]; exact d1)
    (by rw [p2f_seqB, p2f_seqA, rootFrame_seqB, rootFrame_seqA]; exact d2)
    (by rw [p2f_seqB, p2f_seqA, p3f_seqB, p3f_seqA]; exact d3)]
  rw [rootFrame_seqB, rootFrame_seqA, p3f_seqB, p3f_seqA, p2f_seqB, p2f_seqA]
  by_cases h1 : x = st.rootFrame ∧ y = a
  · obtain ⟨hx, hy⟩ := h1
    rw [if_pos ⟨hx, hy⟩, if_pos ⟨hx, hy⟩]
    simp [mem_seqAB st a b d1, rwE_rwE]
  · by_cases h2 : x = st.p3f a ∧ y = b
    · obtain ⟨hx, hy⟩ := h2
      rw [if_neg h1, if_neg h1, if_pos ⟨hx, hy⟩, if_pos ⟨hx, hy⟩]
      simp [mem_seqAB st a b d1, rwE_rwE, d1, Ne.symm d1]
    · by_cases h3 : x = st.p2f a b ∧ y = c
      · obtain ⟨hx, hy⟩ := h3
        rw [if_neg h1, if_neg h1, if_neg h2, if_neg h2, if_pos ⟨hx, hy⟩, if_pos ⟨hx, hy⟩]
        simp [mem_seqAB st a b d1, Ne.symm d2, Ne.symm d3, d2, d3]
      · rw [if_neg h1, if_neg h1, if_neg h2, if_neg h2, if_neg h3, if_neg h3]
        simp [h1, h2, mem_seqAB st a b d1]

theorem mem_seqABC_clean (st : Machine) (a b c : Nat)
    (d1 : st.p3f a ≠ st.rootFrame) (d2 : st.p2f a b ≠ st.rootFrame)
    (d3 : st.p2f a b ≠ st.p3f a)
    (cA : rwClear (st.mem st.rootFrame a)) (cB : rwClear (st.mem (st.p3f a) b))
    (cC : rwClear (st.mem (st.p2f a b) c)) :
    ((((st.seqA a).seqB a b).seqC a b c).closeSeq a b c).mem = st.mem := by
  funext x y
  set Z := ((st.seqA a).seqB a b).seqC a b c with hZ
  have hZroot : Z.rootFrame = st.rootFrame := by
    rw [hZ, rootFrame_seqC, rootFrame_seqB, rootFrame_seqA]
  have hZp3 : Z.p3f a = st.p3f a := by
    rw [hZ, p3f_seqC, p3f_seqB, p3f_seqA]
  have hZp2 : Z.p2f a b = st.p2f a b := by
    rw [hZ, p2f_seqC, p2f_seqB, p2f_seqA]
  rw [mem_closeSeq Z a b c (by rw [hZp3, hZroot]; exact d1) (by rw [hZp2, hZroot]; exact d2)
    (by rw [hZp2, hZp3]; exact d3)]
  rw [hZroot, hZp3, hZp2]
  by_cases h1 : x = st.rootFrame ∧ y = a
  · obtain ⟨hx, hy⟩ := h1
    rw [if_pos ⟨hx, hy⟩, hx, hy]
    simp [hZ, mem_seqABC st a b c d1 d2 d3, rwE_rwE, rwE_false_of_clear _ cA]
  · by_cases h2 : x = st.p3f a ∧ y = b
    · obtain ⟨hx, hy⟩ := h2
      rw [if_neg h1, if_pos ⟨hx, hy⟩, hx, hy]
      simp [hZ, mem_seqABC st a b c d1 d2 d3, rwE_rwE, rwE_false_of_clear _ cB,
        d1, Ne.symm d1]
    · by_cases h3 : x = st.p2f a b ∧ y = c
      · obtain ⟨hx, hy⟩ := h3
        rw [if_neg h1, if_neg h2, if_pos ⟨hx, hy⟩, hx, hy]
        simp [hZ, mem_seqABC st a b c d1 d2 d3, rwE_rwE, rwE_false_of_clear _ cC,
          d2, d3, Ne.symm d2, Ne.symm d3]
      · rw [if_neg h1, if_neg h2, if_neg h3]
        simp [h1, h2, h3, hZ, mem_seqABC st a b c d1 d2 d3]

end RecPT

namespace RecPT

theorem is_mapped_unused4 (l : Nat) (st : Machine) (a b c d : Nat)
    (ha : a ≠ l) (ha2 : a ≠ l + 1) (hA : (st.mem st.rootFrame a).isUnused) :
    is_mapped l st a b c d = Res.done (st, false) := by
  unfold is_mapped
  rw [if_neg (by simp [ha, ha2]), if_pos hA]

theorem is_mapped_unused3 (l : Nat) (st : Machine) (a b c d : Nat)
    (ha : a ≠ l) (ha2 : a ≠ l + 1)
    (hA : ¬ (st.mem st.rootFrame a).isUnused)
    (hB : (st.mem (st.p3f a) b).isUnused)
    (cA : rwClear (st.mem st.rootFrame a))
    (d1 : st.p3f a ≠ st.rootFrame) :
    ∃ st', is_mapped l st a b c d = Res.done (st', false) ∧
      st'.mem = st.mem ∧ st'.rootFrame = st.rootFrame ∧ st'.freeFrames = st.freeFrames ∧
      st'.events = st.events ++ List.replicate 2 FlushEvent.flushAll := by
  unfold is_mapped
  rw [if_neg (by simp [ha, ha2]), if_neg hA]
  unfold imStep3
  rw [p3f_seqA]
  have e1 : (st.seqA a).mem (st.p3f a) b = st.mem (st.p3f a) b := by
    rw [mem_seqA, if_neg]
    intro h
    exact d1 h.1
  rw [e1, if_pos hB]
  refine ⟨_, rfl, ?_, rfl, rfl, ?_⟩
  · funext x y
    rw [mem_failA, rootFrame_seqA]
    by_cases h1 : x = st.rootFrame ∧ y = a
    · obtain ⟨hx, hy⟩ := h1
      rw [if_pos ⟨hx, hy⟩, hx, hy]
      simp [mem_seqA, rwE_rwE, rwE_false_of_clear _ cA]
    · rw [if_neg h1, mem_seqA, if_neg h1]
  · rw [events_failA, events_seqA, rep_app]

theorem is_mapped_unused2 (l : Nat) (st : Machine) (a b c d : Nat)
    (ha : a ≠ l) (ha2 : a ≠ l + 1)
    (hA : ¬ (st.mem st.rootFrame a).isUnused)
    (hB : ¬ (st.mem (st.p3f a) b).isUnused)
    (hC : (st.mem (st.p2f a b) c).isUnused)
    (cA : rwClear (st.mem st.rootFrame a))
    (cB : rwClear (st.mem (st.p3f a) b))
    (d1 : st.p3f a ≠ st.rootFrame)
    (d2 : st.p2f a b ≠ st.rootFrame) (d3 : st.p2f a b ≠ st.p3f a) :
    ∃ st', is_mapped l st a b c d = Res.done (st', false) ∧
      st'.mem = st.mem ∧ st'.rootFrame = st.rootFrame ∧ st'.freeFrames = st.freeFrames ∧
      st'.events = st.events ++ List.replicate 6 FlushEvent.flushAll := by
  unfold is_mapped
  rw [if_neg (by simp [ha, ha2]), if_neg hA]
  unfold imStep3
  rw [p3f_seqA]
  have e1 : (st.seqA a).mem (st.p3f a) b = st.mem (st.p3f a) b := by
    rw [mem_seqA, if_neg]
    intro h
    exact d1 h.1
  rw [e1, if_neg hB]
  unfold imStep2
  rw [p2f_seqB, p2f_seqA]
  have e2 : ((st.seqA a).seqB a b).mem (st.p2f a b) c = st.mem (st.p2f a b) c := by
    rw [mem_seqAB st a b d1]
    simp [d2, d3]
  rw [e2, if_pos hC]
  refine ⟨_, rfl, ?_, rfl, rfl, ?_⟩
  · funext x y
    rw [mem_failB _ a b (by rw [p3f_seqB, p3f_seqA, rootFrame_seqB, rootFrame_seqA]; exact d1)]
    rw [rootFrame_seqB, rootFrame_seqA, p3f_seqB, p3f_seqA]
    by_cases h1 : x = st.rootFrame ∧ y = a
    · obtain ⟨hx, hy⟩ := h1
      rw [if_pos ⟨hx, hy⟩, hx, hy]
      simp [mem_seqAB st a b d1, rwE_rwE, rwE_false_of_clear _ cA]
    · by_cases h2 : x = st.p3f a ∧ y = b
      · obtain ⟨hx, hy⟩ := h2
        rw [if_neg h1, if_pos ⟨hx, hy⟩, hx, hy]
        simp [mem_seqAB st a b d1, rwE_rwE, rwE_false_of_clear _ cB, d1, Ne.symm d1]
      · rw [if_neg h1, if_neg h2, mem_seqAB st a b d1, if_neg h1, if_neg h2]
  · rw [events_failB, events_seqB, events_seqA, rep_app, rep_app]

theorem is_mapped_leaf_reduce (l : Nat) (st : Machine) (a b c d : Nat)
    (ha : a ≠ l) (ha2 : a ≠ l + 1)
    (hA : ¬ (st.mem st.rootFrame a).isUnused)
    (hB : ¬ (st.mem (st.p3f a) b).isUnused)
    (hC : ¬ (st.mem (st.p2f a b) c).isUnused)
    (d1 : st.p3f a ≠ st.rootFrame)
    (d2 : st.p2f a b ≠ st.rootFrame) (d3 : st.p2f a b ≠ st.p3f a)
    (d4 : st.p1f a b c ≠ st.rootFrame) (d5 : st.p1f a b c ≠ st.p3f a)
    (d6 : st.p1f a b c ≠ st.p2f a b) :
    is_mapped l st a b c d =
      (if (st.mem (st.p1f a b c) d).isUnused
       then Res.done (((((st.seqA a).seqB a b).seqC a b c).closeSeq a b c), false)
       else Res.done (((((st.seqA a).seqB a b).seqC a b c).closeSeq a b c), true)) := by
  unfold is_mapped
  rw [if_neg (by simp [ha, ha2]), if_neg hA]
  unfold imStep3
  rw [p3f_seqA]
  have e1 : (st.seqA a).mem (st.p3f a) b = st.mem (st.p3f a) b := by
    rw [mem_seqA, if_neg]
    intro h
    exact d1 h.1
  rw [e1, if_neg hB]
  unfold imStep2
  rw [p2f_seqB, p2f_seqA]
  have e2 : ((st.seqA a).seqB a b).mem (st.p2f a b) c = st.mem (st.p2f a b) c := by
    rw [mem_seqAB st a b d1]
    simp [d2, d3]
  rw [e2, if_neg hC]
  unfold imStep1
  rw [p1f_seqC, p1f_seqB, p1f_seqA]
  have e3 : (((st.seqA a).seqB a b).seqC a b c).mem (st.p1f a b c) d
      = st.mem (st.p1f a b c) d := by
    rw [mem_seqABC st a b c d1 d2 d3]
    simp [d4, d5, d6]
  rw [e3]

end RecPT

namespace RecPT

theorem stage4_present (st : Machine) (a : Nat) (hA : ¬ (st.mem st.rootFrame a).isUnused) :
    stage4 st a = (st.seqA a, none) := by
  unfold stage4
  rw [if_neg hA]

theorem stage4_fail (st : Machine) (a : Nat) (hA : (st.mem st.rootFrame a).isUnused)
    (hf : st.freeFrames = []) :
    stage4 st a = (st, some MapToError.frameAllocationFailed) := by
  unfold stage4
  rw [if_pos hA]
  simp [Machine.alloc, hf]

theorem stage4_alloc (st : Machine) (a f1 : Nat) (rest : List Nat)
    (hA : (st.mem st.rootFrame a).isUnused) (hf : st.freeFrames = f1 :: rest) :
    stage4 st a =
      ((((({ st with freeFrames := rest }).setP4e a f1 validFlags).seqA a).zeroP3 a).sfenceAll,
        none) := by
  unfold stage4
  rw [if_pos hA]
  simp [Machine.alloc, hf]

theorem stage3_present (st : Machine) (a b : Nat)
    (hB : ¬ (st.mem (st.p3f a) b).isUnused) :
    stage3 st a b = (st.seqB a b, none) := by
  unfold stage3
  rw [if_neg hB]

theorem stage3_fail (st : Machine) (a b : Nat) (hB : (st.mem (st.p3f a) b).isUnused)
    (hf : st.freeFrames = []) :
    stage3 st a b = (st.failA a, some MapToError.frameAllocationFailed) := by
  unfold stage3
  rw [if_pos hB]
  simp [Machine.alloc, hf]

theorem stage3_alloc (st : Machine) (a b f2 : Nat) (rest : List Nat)
    (hB : (st.mem (st.p3f a) b).isUnused) (hf : st.freeFrames = f2 :: rest) :
    stage3 st a b =
      (((({ st with freeFrames := rest }).setP3e a b f2 validFlags).seqB a b).zeroP2 a b,
        none) := by
  unfold stage3
  rw [if_pos hB]
  simp [Machine.alloc, hf]

theorem stage2_present (st : Machine) (a b c : Nat)
    (hC : ¬ (st.mem (st.p2f a b) c).isUnused) :
    stage2 st a b c = (st.seqC a b c, none) := by
  unfold stage2
  rw [if_neg hC]

theorem stage2_fail (st : Machine) (a b c : Nat) (hC : (st.mem (st.p2f a b) c).isUnused)
    (hf : st.freeFrames = []) :
    stage2 st a b c = (st.failB a b, some MapToError.frameAllocationFailed) := by
  unfold stage2
  rw [if_pos hC]
  simp [Machine.alloc, hf]

theorem stage2_alloc (st : Machine) (a b c f3 : Nat) (rest : List Nat)
    (hC : (st.mem (st.p2f a b) c).isUnused) (hf : st.freeFrames = f3 :: rest) :
    stage2 st a b c =
      (((({ st with freeFrames := rest }).setP2e a b c f3 validFlags).seqC a b c).zeroP1 a b c,
        none) := by
  unfold stage2
  rw [if_pos hC]
  simp [Machine.alloc, hf]

theorem create_ppp (l : Nat) (st : Machine) (a b c : Nat)
    (ha : a ≠ l) (ha2 : a ≠ l + 1)
    (hA : ¬ (st.mem st.rootFrame a).isUnused)
    (hB : ¬ (st.mem (st.p3f a) b).isUnused)
    (hC : ¬ (st.mem (st.p2f a b) c).isUnused)
    (cA : rwClear (st.mem st.rootFrame a))
    (cB : rwClear (st.mem (st.p3f a) b))
    (cC : rwClear (st.mem (st.p2f a b) c))
    (d1 : st.p3f a ≠ st.rootFrame)
    (d2 : st.p2f a b ≠ st.rootFrame) (d3 : st.p2f a b ≠ st.p3f a) :
    ∃ st', create_p1_if_not_exist l st a b c = Res.done (st', none) ∧
      st'.mem = st.mem ∧ st'.rootFrame = st.rootFrame ∧ st'.freeFrames = st.freeFrames ∧
      st'.events = st.events ++ List.replicate 14 FlushEvent.flushAll := by
  unfold create_p1_if_not_exist
  rw [if_neg (by simp [ha, ha2])]
  rw [stage4_present st a hA]
  dsimp only
  have hB1 : ¬ ((st.seqA a).mem ((st.seqA a).p3f a) b).isUnused := by
    rw [p3f_seqA, mem_seqA, if_neg (fun h => d1 h.1)]
    exact hB
  rw [stage3_present (st.seqA a) a b hB1]
  dsimp only
  have hC1 : ¬ (((st.seqA a).seqB a b).mem (((st.seqA a).seqB a b).p2f a b) c).isUnused := by
    rw [p2f_seqB, p2f_seqA, mem_seqAB st a b d1]
    simp [d2, d3]
    exact hC
  rw [stage2_present ((st.seqA a).seqB a b) a b c hC1]
  dsimp only
  refine ⟨_, rfl, ?_, ?_, ?_, ?_⟩
  · exact mem_seqABC_clean st a b c d1 d2 d3 cA cB cC
  · rfl
  · rfl
  · rw [events_closeSeq, events_seqC, events_seqB, events_seqA, rep_app, rep_app, rep_app]

end RecPT

namespace RecPT

theorem tailC_mem (st2 : Machine) (a b c f3 : Nat) (rest : List Nat)
    (d1 : st2.p3f a ≠ st2.rootFrame) (d2 : st2.p2f a b ≠ st2.rootFrame)
    (d3 : st2.p2f a b ≠ st2.p3f a)
    (hf1 : f3 ≠ st2.rootFrame) (hf2 : f3 ≠ st2.p3f a) (hf3 : f3 ≠ st2.p2f a b) (x y : Nat) :
    ((((({ st2 with freeFrames := rest }).setP2e a b c f3 validFlags).seqC
        a b c).zeroP1 a b c).closeSeq a b c).mem x y =
      if x = f3 then unusedEntry
      else if x = st2.p2f a b ∧ y = c then (⟨f3, validFlags⟩ : PTEntry)
      else if x = st2.rootFrame ∧ y = a then rwE false (st2.mem st2.rootFrame a)
      else if x = st2.p3f a ∧ y = b then rwE false (st2.mem (st2.p3f a) b)
      else st2.mem x y := by
  have hSmem : ∀ x' y', (({ st2 with freeFrames := rest }).setP2e a b c f3 validFlags).mem x' y'
      = if x' = st2.p2f a b ∧ y' = c then (⟨f3, validFlags⟩ : PTEntry) else st2.mem x' y' :=
    fun x' y' => rfl
  set S := ({ st2 with freeFrames := rest }).setP2e a b c f3 validFlags with hS
  have hSroot : S.rootFrame = st2.rootFrame := rfl
  have hSp3 : S.p3f a = st2.p3f a := by
    show (S.mem S.rootFrame a).frame = _
    rw [hSroot, hSmem, if_neg (fun h => d2 h.1.symm)]
    rfl
  have hSp2 : S.p2f a b = st2.p2f a b := by
    show (S.mem (S.p3f a) b).frame = _
    rw [hSp3, hSmem, if_neg (fun h => d3 h.1.symm)]
    rfl
  have hSp1 : S.p1f a b c = f3 := by
    show (S.mem (S.p2f a b) c).frame = _
    rw [hSp2, hSmem, if_pos ⟨rfl, rfl⟩]
  have hTmem : ∀ x' y', (S.seqC a b c).mem x' y' =
      (if x' = st2.rootFrame ∧ y' = a then rwE false (st2.mem st2.rootFrame a)
       else if x' = st2.p3f a ∧ y' = b then rwE false (st2.mem (st2.p3f a) b)
       else if x' = st2.p2f a b ∧ y' = c then rwE true (⟨f3, validFlags⟩ : PTEntry)
       else st2.mem x' y') := by
    intro x' y'
    rw [mem_seqC S a b c (by rw [hSp3, hSroot]; exact d1) (by rw [hSp2, hSroot]; exact d2)
      (by rw [hSp2, hSp3]; exact d3)]
    rw [hSroot, hSp3, hSp2]
    by_cases h1 : x' = st2.rootFrame ∧ y' = a
    · rw [if_pos h1, if_pos h1, hSmem, if_neg (fun h => d2 h.1.symm)]
    · rw [if_neg h1, if_neg h1]
      by_cases h2 : x' = st2.p3f a ∧ y' = b
      · rw [if_pos h2, if_pos h2, hSmem, if_neg (fun h => d3 h.1.symm)]
      · rw [if_neg h2, if_neg h2]
        by_cases h3 : x' = st2.p2f a b ∧ y' = c
        · rw [if_pos h3, if_pos h3, hSmem, if_pos ⟨rfl, rfl⟩]
        · rw [if_neg h3, if_neg h3, hSmem, if_neg h3]
  set T := S.seqC a b c with hT
  have hTroot : T.rootFrame = st2.rootFrame := by
    rw [hT, rootFrame_seqC, hSroot]
  have hTp3 : T.p3f a = st2.p3f a := by
    rw [hT, p3f_seqC, hSp3]
  have hTp2 : T.p2f a b = st2.p2f a b := by
    rw [hT, p2f_seqC, hSp2]
  have hTp1 : T.p1f a b c = f3 := by
    rw [hT, p1f_seqC, hSp1]
  have hUeq : T.zeroP1 a b c = T.zeroF f3 := by
    rw [Machine.zeroP1, hTp1]
  rw [hUeq]
  set U := T.zeroF f3 with hU
  have hUmem : ∀ x' y', U.mem x' y' = if x' = f3 then unusedEntry else T.mem x' y' :=
    fun x' y' => rfl
  have hUroot : U.rootFrame = st2.rootFrame := by
    rw [hU, rootFrame_zeroF, hTroot]
  have hUp3 : U.p3f a = st2.p3f a := by
    show (U.mem U.rootFrame a).frame = _
    rw [hUroot, hUmem, if_neg (Ne.symm hf1), hTmem, if_pos ⟨rfl, rfl⟩, frame_rwE]
    rfl
  have hUp2 : U.p2f a b = st2.p2f a b := by
    show (U.mem (U.p3f a) b).frame = _
    rw [hUp3, hUmem, if_neg (Ne.symm hf2), hTmem, if_neg (fun h => d1 h.1),
      if_pos ⟨rfl, rfl⟩, frame_rwE]
    rfl
  rw [mem_closeSeq U a b c (by rw [hUp3, hUroot]; exact d1) (by rw [hUp2, hUroot]; exact d2)
    (by rw [hUp2, hUp3]; exact d3)]
  rw [hUroot, hUp3, hUp2]
  by_cases hx : x = f3
  · simp only [hx]
    simp [hUmem, hf1, hf2, hf3]
  · by_cases h1 : x = st2.rootFrame ∧ y = a
    · obtain ⟨hx1, hy1⟩ := h1
      simp only [hx1, hy1]
      simp [hUmem, hTmem, Ne.symm hf1, Ne.symm d2, rwE_rwE]
    · by_cases h2 : x = st2.p3f a ∧ y = b
      · obtain ⟨hx2, hy2⟩ := h2
        simp only [hx2, hy2]
        simp [hUmem, hTmem, d1, Ne.symm d1, Ne.symm hf2, Ne.symm d3, rwE_rwE]
      · by_cases h3 : x = st2.p2f a b ∧ y = c
        · obtain ⟨hx3, hy3⟩ := h3
          simp only [hx3, hy3]
          simp [hUmem, hTmem, d2, d3, Ne.symm d2, Ne.symm d3, Ne.symm hf3, rwE_rwE,
            rwE_false_of_clear _ (rwClear_validFlags f3)]
        · simp [hUmem, hTmem, h1, h2, h3, hx]

theorem tailC_rootFrame (st2 : Machine) (a b c f3 : Nat) (rest : List Nat) :
    ((((({ st2 with freeFrames := rest }).setP2e a b c f3 validFlags).seqC
        a b c).zeroP1 a b c).closeSeq a b c).rootFrame = st2.rootFrame := rfl

theorem tailC_freeFrames (st2 : Machine) (a b c f3 : Nat) (rest : List Nat) :
    ((((({ st2 with freeFrames := rest }).setP2e a b c f3 validFlags).seqC
        a b c).zeroP1 a b c).closeSeq a b c).freeFrames = rest := rfl

theorem tailC_events (st2 : Machine) (a b c f3 : Nat) (rest : List Nat) :
    ((((({ st2 with freeFrames := rest }).setP2e a b c f3 validFlags).seqC
        a b c).zeroP1 a b c).closeSeq a b c).events
      = st2.events ++ List.replicate 11 FlushEvent.flushAll := by
  rw [events_closeSeq]
  have h1 : (((({ st2 with freeFrames := rest }).setP2e a b c f3 validFlags).seqC
      a b c).zeroP1 a b c).events = st2.events ++ List.replicate 4 FlushEvent.flushAll := by
    show ((({ st2 with freeFrames := rest }).setP2e a b c f3 validFlags).seqC
      a b c).events = _
    rw [events_seqC]
    rfl
  rw [h1, rep_app]

end RecPT

namespace RecPT

theorem tailB_mem (st1 : Machine) (a b f2 : Nat) (rest : List Nat)
    (d1 : st1.p3f a ≠ st1.rootFrame)
    (hf1 : f2 ≠ st1.rootFrame) (hf2 : f2 ≠ st1.p3f a) (x y : Nat) :
    (((({ st1 with freeFrames := rest }).setP3e a b f2 validFlags).seqB a b).zeroP2 a b).mem x y =
      if x = f2 then unusedEntry
      else if x = st1.p3f a ∧ y = b then rwE true (⟨f2, validFlags⟩ : PTEntry)
      else if x = st1.rootFrame ∧ y = a then rwE false (st1.mem st1.rootFrame a)
      else st1.mem x y := by
  have hSmem : ∀ x' y', (({ st1 with freeFrames := rest }).setP3e a b f2 validFlags).mem x' y'
      = if x' = st1.p3f a ∧ y' = b then (⟨f2, validFlags⟩ : PTEntry) else st1.mem x' y' :=
    fun x' y' => rfl
  set S := ({ st1 with freeFrames := rest }).setP3e a b f2 validFlags with hS
  have hSroot : S.rootFrame = st1.rootFrame := rfl
  have hSp3 : S.p3f a = st1.p3f a := by
    show (S.mem S.rootFrame a).frame = _
    rw [hSroot, hSmem, if_neg (fun h => d1 h.1.symm)]
    rfl
  have hTmem : ∀ x' y', (S.seqB a b).mem x' y' =
      (if x' = st1.rootFrame ∧ y' = a then rwE false (st1.mem st1.rootFrame a)
       else if x' = st1.p3f a ∧ y' = b then rwE true (⟨f2, validFlags⟩ : PTEntry)
       else st1.mem x' y') := by
    intro x' y'
    rw [mem_seqB S a b (by rw [hSp3, hSroot]; exact d1)]
    rw [hSroot, hSp3]
    by_cases h1 : x' = st1.rootFrame ∧ y' = a
    · rw [if_pos h1, if_pos h1, hSmem, if_neg (fun h => d1 h.1.symm)]
    · rw [if_neg h1, if_neg h1]
      by_cases h2 : x' = st1.p3f a ∧ y' = b
      · rw [if_pos h2, if_pos h2, hSmem, if_pos ⟨rfl, rfl⟩]
      · rw [if_neg h2, if_neg h2, hSmem, if_neg h2]
  set T := S.seqB a b with hT
  have hTroot : T.rootFrame = st1.rootFrame := by
    rw [hT, rootFrame_seqB, hSroot]
  have hTp3 : T.p3f a = st1.p3f a := by
    rw [hT, p3f_seqB, hSp3]
  have hTp2 : T.p2f a b = f2 := by
    show (T.mem (T.p3f a) b).frame = _
    rw [hTp3, hTmem, if_neg (fun h => d1 h.1), if_pos ⟨rfl, rfl⟩]
    rfl
  have hUeq : T.zeroP2 a b = T.zeroF f2 := by
    rw [Machine.zeroP2, hTp2]
  rw [hUeq]
  have hUmem : ∀ x' y', (T.zeroF f2).mem x' y' =
      if x' = f2 then unusedEntry else T.mem x' y' := fun x' y' => rfl
  rw [hUmem]
  by_cases hx : x = f2
  · rw [if_pos hx, if_pos hx]
  · rw [if_neg hx, if_neg hx, hTmem]
    by_cases h2 : x = st1.p3f a ∧ y = b
    · rw [if_neg (fun h => d1 (h2.1.symm.trans h.1)), if_pos h2, if_pos h2]
    · by_cases h1 : x = st1.rootFrame ∧ y = a
      · rw [if_pos h1, if_neg h2, if_pos h1]
      · rw [if_neg h1, if_neg h2, if_neg h2, if_neg h1]

theorem tailB_rootFrame (st1 : Machine) (a b f2 : Nat) (rest : List Nat) :
    (((({ st1 with freeFrames := rest }).setP3e a b f2 validFlags).seqB
      a b).zeroP2 a b).rootFrame = st1.rootFrame := rfl

theorem tailB_freeFrames (st1 : Machine) (a b f2 : Nat) (rest : List Nat) :
    (((({ st1 with freeFrames := rest }).setP3e a b f2 validFlags).seqB
      a b).zeroP2 a b).freeFrames = rest := rfl

theorem tailB_events (st1 : Machine) (a b f2 : Nat) (rest : List Nat) :
    (((({ st1 with freeFrames := rest }).setP3e a b f2 validFlags).seqB
      a b).zeroP2 a b).events = st1.events ++ List.replicate 2 FlushEvent.flushAll := by
  show ((({ st1 with freeFrames := rest }).setP3e a b f2 validFlags).seqB a b).events = _
  rw [events_seqB]
  rfl

theorem tailA_mem (st : Machine) (a f1 : Nat) (rest : List Nat)
    (hf1 : f1 ≠ st.rootFrame) (x y : Nat) :
    ((((({ st with freeFrames := rest }).setP4e a f1 validFlags).seqA a).zeroP3
      a).sfenceAll).mem x y =
      if x = f1 then unusedEntry
      else if x = st.rootFrame ∧ y = a then rwE true (⟨f1, validFlags⟩ : PTEntry)
      else st.mem x y := by
  have hSmem : ∀ x' y', (({ st with freeFrames := rest }).setP4e a f1 validFlags).mem x' y'
      = if x' = st.rootFrame ∧ y' = a then (⟨f1, validFlags⟩ : PTEntry) else st.mem x' y' :=
    fun x' y' => rfl
  set S := ({ st with freeFrames := rest }).setP4e a f1 validFlags with hS
  have hSroot : S.rootFrame = st.rootFrame := rfl
  have hTmem : ∀ x' y', (S.seqA a).mem x' y' =
      (if x' = st.rootFrame ∧ y' = a then rwE true (⟨f1, validFlags⟩ : PTEntry)
       else st.mem x' y') := by
    intro x' y'
    rw [mem_seqA]
    rw [hSroot]
    by_cases h1 : x' = st.rootFrame ∧ y' = a
    · rw [if_pos h1, if_pos h1, hSmem, if_pos ⟨rfl, rfl⟩]
    · rw [if_neg h1, if_neg h1, hSmem, if_neg h1]
  set T := S.seqA a with hT
  have hTp3 : T.p3f a = f1 := by
    show (T.mem T.rootFrame a).frame = _
    have hTroot : T.rootFrame = st.rootFrame := by
      rw [hT, rootFrame_seqA, hSroot]
    rw [hTroot, hTmem, if_pos ⟨rfl, rfl⟩]
    rfl
  have hUeq : T.zeroP3 a = T.zeroF f1 := by
    rw [Machine.zeroP3, hTp3]
  rw [hUeq]
  show (if x = f1 then unusedEntry else T.mem x y) = _
  by_cases hx : x = f1
  · rw [if_pos hx, if_pos hx]
  · rw [if_neg hx, if_neg hx, hTmem]

theorem tailA_rootFrame (st : Machine) (a f1 : Nat) (rest : List Nat) :
    ((((({ st with freeFrames := rest }).setP4e a f1 validFlags).seqA a).zeroP3
      a).sfenceAll).rootFrame = st.rootFrame := rfl

theorem tailA_freeFrames (st : Machine) (a f1 : Nat) (rest : List Nat) :
    ((((({ st with freeFrames := rest }).setP4e a f1 validFlags).seqA a).zeroP3
      a).sfenceAll).freeFrames = rest := rfl

theorem single_rep : [FlushEvent.flushAll] = List.replicate 1 FlushEvent.flushAll := rfl

theorem tailA_events (st : Machine) (a f1 : Nat) (rest : List Nat) :
    ((((({ st with freeFrames := rest }).setP4e a f1 validFlags).seqA a).zeroP3
      a).sfenceAll).events = st.events ++ List.replicate 2 FlushEvent.flushAll := by
  simp [Machine.sfenceAll, Machine.zeroP3, Machine.zeroF, Machine.seqA, Machine.insP4e,
    Machine.insRW, Machine.setP4e, Machine.setE, List.replicate]

end RecPT

namespace RecPT

theorem create_ppu (l : Nat) (st : Machine) (a b c f3 : Nat) (rest : List Nat)
    (ha : a ≠ l) (ha2 : a ≠ l + 1)
    (hA : ¬ (st.mem st.rootFrame a).isUnused)
    (hB : ¬ (st.mem (st.p3f a) b).isUnused)
    (hC : (st.mem (st.p2f a b) c).isUnused)
    (cA : rwClear (st.mem st.rootFrame a))
    (cB : rwClear (st.mem (st.p3f a) b))
    (d1 : st.p3f a ≠ st.rootFrame)
    (d2 : st.p2f a b ≠ st.rootFrame) (d3 : st.p2f a b ≠ st.p3f a)
    (hf : st.freeFrames = f3 :: rest)
    (hfr1 : f3 ≠ st.rootFrame) (hfr2 : f3 ≠ st.p3f a) (hfr3 : f3 ≠ st.p2f a b) :
    ∃ st', create_p1_if_not_exist l st a b c = Res.done (st', none) ∧
      (∀ x y, st'.mem x y =
        if x = f3 then unusedEntry
        else if x = st.p2f a b ∧ y = c then (⟨f3, validFlags⟩ : PTEntry)
        else st.mem x y) ∧
      st'.rootFrame = st.rootFrame ∧ st'.freeFrames = rest ∧
      st'.events = st.events ++ List.replicate 14 FlushEvent.flushAll := by
  unfold create_p1_if_not_exist
  rw [if_neg (by simp [ha, ha2])]
  rw [stage4_present st a hA]
  dsimp only
  have hB1 : ¬ ((st.seqA a).mem ((st.seqA a).p3f a) b).isUnused := by
    rw [p3f_seqA, mem_seqA, if_neg (fun h => d1 h.1)]
    exact hB
  rw [stage3_present (st.seqA a) a b hB1]
  dsimp only
  have h2root : ((st.seqA a).seqB a b).rootFrame = st.rootFrame := by
    rw [rootFrame_seqB, rootFrame_seqA]
  have h2p3 : ((st.seqA a).seqB a b).p3f a = st.p3f a := by
    rw [p3f_seqB, p3f_seqA]
  have h2p2 : ((st.seqA a).seqB a b).p2f a b = st.p2f a b := by
    rw [p2f_seqB, p2f_seqA]
  have hC2 : (((st.seqA a).seqB a b).mem (((st.seqA a).seqB a b).p2f a b) c).isUnused := by
    rw [h2p2, mem_seqAB st a b d1]
    simp [d2, d3]
    exact hC
  have hff2 : ((st.seqA a).seqB a b).freeFrames = f3 :: rest := by
    rw [freeFrames_seqB, freeFrames_seqA, hf]
  rw [stage2_alloc ((st.seqA a).seqB a b) a b c f3 rest hC2 hff2]
  dsimp only
  refine ⟨_, rfl, ?_, ?_, ?_, ?_⟩
  · intro x y
    rw [tailC_mem ((st.seqA a).seqB a b) a b c f3 rest (by rw [h2p3, h2root]; exact d1)
      (by rw [h2p2, h2root]; exact d2) (by rw [h2p2, h2p3]; exact d3)
      (by rw [h2root]; exact hfr1) (by rw [h2p3]; exact hfr2) (by rw [h2p2]; exact hfr3)]
    rw [h2root, h2p3, h2p2]
    by_cases hx : x = f3
    · rw [if_pos hx, if_pos hx]
    · rw [if_neg hx, if_neg hx]
      by_cases h3 : x = st.p2f a b ∧ y = c
      · rw [if_pos h3, if_pos h3]
      · rw [if_neg h3, if_neg h3]
        by_cases h1 : x = st.rootFrame ∧ y = a
        · obtain ⟨hx1, hy1⟩ := h1
          rw [if_pos ⟨hx1, hy1⟩, hx1, hy1, mem_seqAB st a b d1]
          simp [rwE_rwE, rwE_false_of_clear _ cA]
        · rw [if_neg h1]
          by_cases h2 : x = st.p3f a ∧ y = b
          · obtain ⟨hx2, hy2⟩ := h2
            rw [if_pos ⟨hx2, hy2⟩, hx2, hy2, mem_seqAB st a b d1]
            simp [d1, Ne.symm d1, rwE_rwE, rwE_false_of_clear _ cB]
          · rw [if_neg h2, mem_seqAB st a b d1, if_neg h1, if_neg h2]
  · rw [tailC_rootFrame, h2root]
  · rw [tailC_freeFrames]
  · rw [tailC_events, events_seqB, events_seqA, rep_app, rep_app]

end RecPT

namespace RecPT

theorem create_puu (l : Nat) (st : Machine) (a b c f2 f3 : Nat) (rest : List Nat)
    (ha : a ≠ l) (ha2 : a ≠ l + 1)
    (hA : ¬ (st.mem st.rootFrame a).isUnused)
    (hB : (st.mem (st.p3f a) b).isUnused)
    (cA : rwClear (st.mem st.rootFrame a))
    (d1 : st.p3f a ≠ st.rootFrame)
    (hf : st.freeFrames = f2 :: f3 :: rest)
    (g1 : f2 ≠ st.rootFrame) (g2 : f2 ≠ st.p3f a)
    (g3 : f3 ≠ st.rootFrame) (g4 : f3 ≠ st.p3f a) (g5 : f3 ≠ f2) :
    ∃ st', create_p1_if_not_exist l st a b c = Res.done (st', none) ∧
      (∀ x y, st'.mem x y =
        if x = f3 then unusedEntry
        else if x = f2 ∧ y = c then (⟨f3, validFlags⟩ : PTEntry)
        else if x = f2 then unusedEntry
        else if x = st.p3f a ∧ y = b then (⟨f2, validFlags⟩ : PTEntry)
        else st.mem x y) ∧
      st'.rootFrame = st.rootFrame ∧ st'.freeFrames = rest ∧
      st'.events = st.events ++ List.replicate 14 FlushEvent.flushAll := by
  unfold create_p1_if_not_exist
  rw [if_neg (by simp [ha, ha2])]
  rw [stage4_present st a hA]
  dsimp only
  have hB1 : ((st.seqA a).mem ((st.seqA a).p3f a) b).isUnused := by
    rw [p3f_seqA, mem_seqA, if_neg (fun h => d1 h.1)]
    exact hB
  have hff1 : (st.seqA a).freeFrames = f2 :: (f3 :: rest) := by
    rw [freeFrames_seqA, hf]
  rw [stage3_alloc (st.seqA a) a b f2 (f3 :: rest) hB1 hff1]
  dsimp only
  have hd1' : (st.seqA a).p3f a ≠ (st.seqA a).rootFrame := by
    rw [p3f_seqA, rootFrame_seqA]
    exact d1
  have hg1' : f2 ≠ (st.seqA a).rootFrame := by
    rw [rootFrame_seqA]
    exact g1
  have hg2' : f2 ≠ (st.seqA a).p3f a := by
    rw [p3f_seqA]
    exact g2
  have hVmem : ∀ x y, ((((({ (st.seqA a) with freeFrames := f3 :: rest }).setP3e a b f2
      validFlags).seqB a b).zeroP2 a b)).mem x y =
      (if x = f2 then unusedEntry
       else if x = st.p3f a ∧ y = b then rwE true (⟨f2, validFlags⟩ : PTEntry)
       else if x = st.rootFrame ∧ y = a then rwE false (st.mem st.rootFrame a)
       else st.mem x y) := by
    intro x y
    rw [tailB_mem (st.seqA a) a b f2 (f3 :: rest) hd1' hg1' hg2']
    rw [p3f_seqA, rootFrame_seqA]
    by_cases hx2 : x = f2
    · rw [if_pos hx2, if_pos hx2]
    · rw [if_neg hx2, if_neg hx2]
      by_cases h2 : x = st.p3f a ∧ y = b
      · rw [if_pos h2, if_pos h2]
      · rw [if_neg h2, if_neg h2]
        by_cases h1 : x = st.rootFrame ∧ y = a
        · rw [if_pos h1, if_pos h1, mem_seqA,
            if_pos (⟨rfl, rfl⟩ : st.rootFrame = st.rootFrame ∧ a = a), rwE_rwE]
        · rw [if_neg h1, if_neg h1, mem_seqA, if_neg h1]
  set V := (((({ (st.seqA a) with freeFrames := f3 :: rest }).setP3e a b f2
      validFlags).seqB a b).zeroP2 a b) with hV
  have hVroot : V.rootFrame = st.rootFrame := by
    rw [hV, tailB_rootFrame, rootFrame_seqA]
  have hVp3 : V.p3f a = st.p3f a := by
    show (V.mem V.rootFrame a).frame = _
    rw [hVroot, hVmem, if_neg (Ne.symm g1), if_neg (fun h => d1 h.1.symm),
      if_pos ⟨rfl, rfl⟩, frame_rwE]
    rfl
  have hVp2 : V.p2f a b = f2 := by
    show (V.mem (V.p3f a) b).frame = _
    rw [hVp3, hVmem, if_neg (Ne.symm g2), if_pos ⟨rfl, rfl⟩]
    rfl
  have hC2 : (V.mem (V.p2f a b) c).isUnused := by
    rw [hVp2, hVmem, if_pos rfl]
    rfl
  have hffV : V.freeFrames = f3 :: rest := by
    rw [hV, tailB_freeFrames]
  rw [stage2_alloc V a b c f3 rest hC2 hffV]
  dsimp only
  refine ⟨_, rfl, ?_, ?_, ?_, ?_⟩
  · intro x y
    rw [tailC_mem V a b c f3 rest (by rw [hVp3, hVroot]; exact d1)
      (by rw [hVp2, hVroot]; exact g1) (by rw [hVp2, hVp3]; exact g2)
      (by rw [hVroot]; exact g3) (by rw [hVp3]; exact g4) (by rw [hVp2]; exact g5)]
    rw [hVroot, hVp3, hVp2]
    by_cases hx3 : x = f3
    · rw [if_pos hx3, if_pos hx3]
    · rw [if_neg hx3, if_neg hx3]
      by_cases hfc : x = f2 ∧ y = c
      · rw [if_pos hfc, if_pos hfc]
      · rw [if_neg hfc, if_neg hfc]
        by_cases hx2 : x = f2
        · rw [if_neg (fun h => g1 (hx2.symm.trans h.1)),
            if_neg (fun h => g2 (hx2.symm.trans h.1)), hVmem, if_pos hx2, if_pos hx2]
        · rw [if_neg hx2]
          by_cases h1 : x = st.rootFrame ∧ y = a
          · rw [if_pos h1, hVmem, if_neg (fun h => g1 h.symm),
              if_neg (fun h => d1 h.1.symm),
              if_pos (⟨rfl, rfl⟩ : st.rootFrame = st.rootFrame ∧ a = a), rwE_rwE,
              rwE_false_of_clear _ cA,
              if_neg (fun h => d1 (h1.1.symm.trans h.1).symm)]
            obtain ⟨hx1, hy1⟩ := h1
            rw [hx1, hy1]
          · rw [if_neg h1]
            by_cases h2 : x = st.p3f a ∧ y = b
            · rw [if_pos h2, hVmem, if_neg (fun h => g2 h.symm),
                if_pos (⟨rfl, rfl⟩ : st.p3f a = st.p3f a ∧ b = b), rwE_rwE,
                rwE_false_of_clear _ (rwClear_validFlags f2), if_pos h2]
            · rw [if_neg h2, hVmem, if_neg hx2, if_neg h2, if_neg h1, if_neg h2]
  · rw [tailC_rootFrame, hVroot]
  · rw [tailC_freeFrames]
  · rw [tailC_events, hV, tailB_events, events_seqA, rep_app, rep_app]

end RecPT

namespace RecPT

theorem create_uuu (l : Nat) (st : Machine) (a b c f1 f2 f3 : Nat) (rest : List Nat)
    (ha : a ≠ l) (ha2 : a ≠ l + 1)
    (hA : (st.mem st.rootFrame a).isUnused)
    (hf : st.freeFrames = f1 :: f2 :: f3 :: rest)
    (g1 : f1 ≠ st.rootFrame)
    (g2 : f2 ≠ st.rootFrame) (g3 : f2 ≠ f1)
    (g4 : f3 ≠ st.rootFrame) (g5 : f3 ≠ f1) (g6 : f3 ≠ f2) :
    ∃ st', create_p1_if_not_exist l st a b c = Res.done (st', none) ∧
      (∀ x y, st'.mem x y =
        if x = f3 then unusedEntry
        else if x = f2 ∧ y = c then (⟨f3, validFlags⟩ : PTEntry)
        else if x = f2 then unusedEntry
        else if x = f1 ∧ y = b then (⟨f2, validFlags⟩ : PTEntry)
        else if x = f1 then unusedEntry
        else if x = st.rootFrame ∧ y = a then (⟨f1, validFlags⟩ : PTEntry)
        else st.mem x y) ∧
      st'.rootFrame = st.rootFrame ∧ st'.freeFrames = rest ∧
      st'.events = st.events ++ List.replicate 15 FlushEvent.flushAll := by
  unfold create_p1_if_not_exist
  rw [if_neg (by simp [ha, ha2])]
  rw [stage4_alloc st a f1 (f2 :: f3 :: rest) hA hf]
  dsimp only
  have hS1mem : ∀ x y, ((((({ st with freeFrames := f2 :: f3 :: rest }).setP4e a f1
      validFlags).seqA a).zeroP3 a).sfenceAll).mem x y =
      (if x = f1 then unusedEntry
       else if x = st.rootFrame ∧ y = a then rwE true (⟨f1, validFlags⟩ : PTEntry)
       else st.mem x y) := fun x y => tailA_mem st a f1 (f2 :: f3 :: rest) g1 x y
  set st1 := (((({ st with freeFrames := f2 :: f3 :: rest }).setP4e a f1
      validFlags).seqA a).zeroP3 a).sfenceAll with hst1
  have h1root : st1.rootFrame = st.rootFrame := by
    rw [hst1, tailA_rootFrame]
  have h1p3 : st1.p3f a = f1 := by
    show (st1.mem st1.rootFrame a).frame = _
    rw [h1root, hS1mem, if_neg (Ne.symm g1), if_pos ⟨rfl, rfl⟩]
    rfl
  have hB1 : (st1.mem (st1.p3f a) b).isUnused := by
    rw [h1p3, hS1mem, if_pos rfl]
    rfl
  have hff1 : st1.freeFrames = f2 :: (f3 :: rest) := by
    rw [hst1, tailA_freeFrames]
  rw [stage3_alloc st1 a b f2 (f3 :: rest) hB1 hff1]
  dsimp only
  have hVmem : ∀ x y, ((((({ st1 with freeFrames := f3 :: rest }).setP3e a b f2
      validFlags).seqB a b).zeroP2 a b)).mem x y =
      (if x = f2 then unusedEntry
       else if x = f1 ∧ y = b then rwE true (⟨f2, validFlags⟩ : PTEntry)
       else if x = st.rootFrame ∧ y = a then (⟨f1, validFlags⟩ : PTEntry)
       else if x = f1 then unusedEntry
       else st.mem x y) := by
    intro x y
    rw [tailB_mem st1 a b f2 (f3 :: rest) (by rw [h1p3, h1root]; exact g1)
      (by rw [h1root]; exact g2) (by rw [h1p3]; exact g3)]
    rw [h1root, h1p3]
    by_cases hx2 : x = f2
    · rw [if_pos hx2, if_pos hx2]
    · rw [if_neg hx2, if_neg hx2]
      by_cases hfb : x = f1 ∧ y = b
      · rw [if_pos hfb, if_pos hfb]
      · rw [if_neg hfb, if_neg hfb]
        by_cases h1 : x = st.rootFrame ∧ y = a
        · rw [if_pos h1, if_pos h1, hS1mem, if_neg (fun h => g1 h.symm),
            if_pos (⟨rfl, rfl⟩ : st.rootFrame = st.rootFrame ∧ a = a), rwE_rwE,
            rwE_false_of_clear _ (rwClear_validFlags f1)]
        · rw [if_neg h1, if_neg h1, hS1mem, if_neg h1]
  set V := (((({ st1 with freeFrames := f3 :: rest }).setP3e a b f2
      validFlags).seqB a b).zeroP2 a b) with hV
  have hVroot : V.rootFrame = st.rootFrame := by
    rw [hV, tailB_rootFrame, h1root]
  have hVp3 : V.p3f a = f1 := by
    show (V.mem V.rootFrame a).frame = _
    rw [hVroot, hVmem, if_neg (Ne.symm g2), if_neg (fun h => g1 h.1.symm),
      if_pos ⟨rfl, rfl⟩]
  have hVp2 : V.p2f a b = f2 := by
    show (V.mem (V.p3f a) b).frame = _
    rw [hVp3, hVmem, if_neg (Ne.symm g3), if_pos ⟨rfl, rfl⟩]
    rfl
  have hC2 : (V.mem (V.p2f a b) c).isUnused := by
    rw [hVp2, hVmem, if_pos rfl]
    rfl
  have hffV : V.freeFrames = f3 :: rest := by
    rw [hV, tailB_freeFrames]
  rw [stage2_alloc V a b c f3 rest hC2 hffV]
  dsimp only
  refine ⟨_, rfl, ?_, ?_, ?_, ?_⟩
  · intro x y
    rw [tailC_mem V a b c f3 rest (by rw [hVp3, hVroot]; exact g1)
      (by rw [hVp2, hVroot]; exact g2) (by rw [hVp2, hVp3]; exact g3)
      (by rw [hVroot]; exact g4) (by rw [hVp3]; exact g5) (by rw [hVp2]; exact g6)]
    rw [hVroot, hVp3, hVp2]
    by_cases hx3 : x = f3
    · rw [if_pos hx3, if_pos hx3]
    · rw [if_neg hx3, if_neg hx3]
      by_cases hfc : x = f2 ∧ y = c
      · rw [if_pos hfc, if_pos hfc]
      · rw [if_neg hfc, if_neg hfc]
        by_cases hra : x = st.rootFrame ∧ y = a
        · rw [if_pos hra, hVmem, if_neg (fun h => g2 h.symm),
            if_neg (fun h => g1 h.1.symm),
            if_pos (⟨rfl, rfl⟩ : st.rootFrame = st.rootFrame ∧ a = a),
            rwE_false_of_clear _ (rwClear_validFlags f1),
            if_neg (fun h => g2 (hra.1.symm.trans h).symm),
            if_neg (fun h => g1 (hra.1.symm.trans h.1).symm),
            if_neg (fun h => g1 (hra.1.symm.trans h).symm), if_pos hra]
        · rw [if_neg hra]
          by_cases hfb : x = f1 ∧ y = b
          · rw [if_pos hfb, hVmem, if_neg (fun h => g3 h.symm),
              if_pos (⟨rfl, rfl⟩ : f1 = f1 ∧ b = b), rwE_rwE,
              rwE_false_of_clear _ (rwClear_validFlags f2),
              if_neg (fun h => g3 (hfb.1.symm.trans h).symm), if_pos hfb]
          · rw [if_neg hfb]
            by_cases hx2 : x = f2
            · rw [hVmem, if_pos hx2, if_pos hx2]
            · rw [hVmem, if_neg hx2, if_neg hfb, if_neg hra, if_neg hx2]
              by_cases hx1 : x = f1
              · rw [if_pos hx1, if_neg hfb, if_pos hx1]
              · rw [if_neg hx1, if_neg hfb, if_neg hx1, if_neg hra]
  · rw [tailC_rootFrame, hVroot]
  · rw [tailC_freeFrames]
  · rw [tailC_events, hV, tailB_events, hst1, tailA_events, rep_app, rep_app]

end RecPT

namespace RecPT

theorem create_fail4 (l : Nat) (st : Machine) (a b c : Nat)
    (ha : a ≠ l) (ha2 : a ≠ l + 1)
    (hA : (st.mem st.rootFrame a).isUnused) (hf : st.freeFrames = []) :
    create_p1_if_not_exist l st a b c
      = Res.done (st, some MapToError.frameAllocationFailed) := by
  unfold create_p1_if_not_exist
  rw [if_neg (by simp [ha, ha2]), stage4_fail st a hA hf]

theorem create_fail3a (l : Nat) (st : Machine) (a b c : Nat)
    (ha : a ≠ l) (ha2 : a ≠ l + 1)
    (hA : ¬ (st.mem st.rootFrame a).isUnused)
    (hB : (st.mem (st.p3f a) b).isUnused)
    (cA : rwClear (st.mem st.rootFrame a))
    (d1 : st.p3f a ≠ st.rootFrame) (hf : st.freeFrames = []) :
    ∃ st', create_p1_if_not_exist l st a b c
        = Res.done (st', some MapToError.frameAllocationFailed) ∧
      st'.mem = st.mem ∧ st'.rootFrame = st.rootFrame ∧ st'.freeFrames = [] ∧
      st'.events = st.events ++ List.replicate 2 FlushEvent.flushAll := by
  unfold create_p1_if_not_exist
  rw [if_neg (by simp [ha, ha2]), stage4_present st a hA]
  dsimp only
  have hB1 : ((st.seqA a).mem ((st.seqA a).p3f a) b).isUnused := by
    rw [p3f_seqA, mem_seqA, if_neg (fun h => d1 h.1)]
    exact hB
  rw [stage3_fail (st.seqA a) a b hB1 (by rw [freeFrames_seqA, hf])]
  dsimp only
  refine ⟨_, rfl, ?_, rfl, ?_, ?_⟩
  · funext x y
    rw [mem_failA, rootFrame_seqA]
    by_cases h1 : x = st.rootFrame ∧ y = a
    · obtain ⟨hx, hy⟩ := h1
      rw [if_pos ⟨hx, hy⟩, hx, hy]
      simp [mem_seqA, rwE_rwE, rwE_false_of_clear _ cA]
    · rw [if_neg h1, mem_seqA, if_neg h1]
  · rw [freeFrames_failA, freeFrames_seqA, hf]
  · rw [events_failA, events_seqA, rep_app]

theorem create_fail3b (l : Nat) (st : Machine) (a b c f1 : Nat)
    (ha : a ≠ l) (ha2 : a ≠ l + 1)
    (hA : (st.mem st.rootFrame a).isUnused)
    (hf : st.freeFrames = [f1]) (g1 : f1 ≠ st.rootFrame) :
    ∃ st', create_p1_if_not_exist l st a b c
        = Res.done (st', some MapToError.frameAllocationFailed) ∧
      (∀ x y, st'.mem x y =
        if x = f1 then unusedEntry
        else if x = st.rootFrame ∧ y = a then (⟨f1, validFlags⟩ : PTEntry)
        else st.mem x y) ∧
      st'.rootFrame = st.rootFrame ∧ st'.freeFrames = [] ∧
      st'.events = st.events ++ List.replicate 3 FlushEvent.flushAll := by
  unfold create_p1_if_not_exist
  rw [if_neg (by simp [ha, ha2]), stage4_alloc st a f1 [] hA hf]
  dsimp only
  have hS1mem : ∀ x y, ((((({ st with freeFrames := [] }).setP4e a f1
      validFlags).seqA a).zeroP3 a).sfenceAll).mem x y =
      (if x = f1 then unusedEntry
       else if x = st.rootFrame ∧ y = a then rwE true (⟨f1, validFlags⟩ : PTEntry)
       else st.mem x y) := fun x y => tailA_mem st a f1 [] g1 x y
  set st1 := (((({ st with freeFrames := [] }).setP4e a f1
      validFlags).seqA a).zeroP3 a).sfenceAll with hst1
  have h1root : st1.rootFrame = st.rootFrame := by
    rw [hst1, tailA_rootFrame]
  have h1p3 : st1.p3f a = f1 := by
    show (st1.mem st1.rootFrame a).frame = _
    rw [h1root, hS1mem, if_neg (Ne.symm g1), if_pos ⟨rfl, rfl⟩]
    rfl
  have hB1 : (st1.mem (st1.p3f a) b).isUnused := by
    rw [h1p3, hS1mem, if_pos rfl]
    rfl
  rw [stage3_fail st1 a b hB1 (by rw [hst1, tailA_freeFrames])]
  dsimp only
  refine ⟨_, rfl, ?_, ?_, ?_, ?_⟩
  · intro x y
    rw [mem_failA, h1root]
    by_cases h1 : x = st.rootFrame ∧ y = a
    · rw [if_pos h1, hS1mem, if_neg (fun h => g1 h.symm),
        if_pos (⟨rfl, rfl⟩ : st.rootFrame = st.rootFrame ∧ a = a), rwE_rwE,
        rwE_false_of_clear _ (rwClear_validFlags f1),
        if_neg (fun h => g1 (h1.1.symm.trans h).symm), if_pos h1]
    · rw [if_neg h1, hS1mem]
      by_cases hx1 : x = f1
      · rw [if_pos hx1, if_pos hx1]
      · rw [if_neg hx1, if_neg h1, if_neg hx1, if_neg h1]
  · rw [rootFrame_failA, h1root]
  · rw [freeFrames_failA, hst1, tailA_freeFrames]
  · rw [events_failA, hst1, tailA_events, rep_app]

theorem create_fail2a (l : Nat) (st : Machine) (a b c : Nat)
    (ha : a ≠ l) (ha2 : a ≠ l + 1)
    (hA : ¬ (st.mem st.rootFrame a).isUnused)
    (hB : ¬ (st.mem (st.p3f a) b).isUnused)
    (hC : (st.mem (st.p2f a b) c).isUnused)
    (cA : rwClear (st.mem st.rootFrame a))
    (cB : rwClear (st.mem (st.p3f a) b))
    (d1 : st.p3f a ≠ st.rootFrame)
    (d2 : st.p2f a b ≠ st.rootFrame) (d3 : st.p2f a b ≠ st.p3f a)
    (hf : st.freeFrames = []) :
    ∃ st', create_p1_if_not_exist l st a b c
        = Res.done (st', some MapToError.frameAllocationFailed) ∧
      st'.mem = st.mem ∧ st'.rootFrame = st.rootFrame ∧ st'.freeFrames = [] ∧
      st'.events = st.events ++ List.replicate 6 FlushEvent.flushAll := by
  unfold create_p1_if_not_exist
  rw [if_neg (by simp [ha, ha2]), stage4_present st a hA]
  dsimp only
  have hB1 : ¬ ((st.seqA a).mem ((st.seqA a).p3f a) b).isUnused := by
    rw [p3f_seqA, mem_seqA, if_neg (fun h => d1 h.1)]
    exact hB
  rw [stage3_present (st.seqA a) a b hB1]
  dsimp only
  have hC2 : (((st.seqA a).seqB a b).mem (((st.seqA a).seqB a b).p2f a b) c).isUnused := by
    rw [p2f_seqB, p2f_seqA, mem_seqAB st a b d1]
    simp [d2, d3]
    exact hC
  rw [stage2_fail ((st.seqA a).seqB a b) a b c hC2
    (by rw [freeFrames_seqB, freeFrames_seqA, hf])]
  dsimp only
  refine ⟨_, rfl, ?_, ?_, ?_, ?_⟩
  · funext x y
    rw [mem_failB _ a b (by rw [p3f_seqB, p3f_seqA, rootFrame_seqB, rootFrame_seqA]; exact d1)]
    rw [rootFrame_seqB, rootFrame_seqA, p3f_seqB, p3f_seqA]
    by_cases h1 : x = st.rootFrame ∧ y = a
    · obtain ⟨hx, hy⟩ := h1
      rw [if_pos ⟨hx, hy⟩, hx, hy]
      simp [mem_seqAB st a b d1, rwE_rwE, rwE_false_of_clear _ cA]
    · by_cases h2 : x = st.p3f a ∧ y = b
      · obtain ⟨hx, hy⟩ := h2
        rw [if_neg h1, if_pos ⟨hx, hy⟩, hx, hy]
        simp [mem_seqAB st a b d1, rwE_rwE, rwE_false_of_clear _ cB, d1, Ne.symm d1]
      · rw [if_neg h1, if_neg h2, mem_seqAB st a b d1, if_neg h1, if_neg h2]
  · rw [rootFrame_failB, rootFrame_seqB, rootFrame_seqA]
  · rw [freeFrames_failB, freeFrames_seqB, freeFrames_seqA, hf]
  · rw [events_failB, events_seqB, events_seqA, rep_app, rep_app]

end RecPT

namespace RecPT

theorem create_fail2b (l : Nat) (st : Machine) (a b c f2 : Nat)
    (ha : a ≠ l) (ha2 : a ≠ l + 1)
    (hA : ¬ (st.mem st.rootFrame a).isUnused)
    (hB : (st.mem (st.p3f a) b).isUnused)
    (cA : rwClear (st.mem st.rootFrame a))
    (d1 : st.p3f a ≠ st.rootFrame)
    (hf : st.freeFrames = [f2])
    (g1 : f2 ≠ st.rootFrame) (g2 : f2 ≠ st.p3f a) :
    ∃ st', create_p1_if_not_exist l st a b c
        = Res.done (st', some MapToError.frameAllocationFailed) ∧
      (∀ x y, st'.mem x y =
        if x = f2 then unusedEntry
        else if x = st.p3f a ∧ y = b then (⟨f2, validFlags⟩ : PTEntry)
        else st.mem x y) ∧
      st'.rootFrame = st.rootFrame ∧ st'.freeFrames = [] ∧
      st'.events = st.events ++ List.replicate 6 FlushEvent.flushAll := by
  unfold create_p1_if_not_exist
  rw [if_neg (by simp [ha, ha2]), stage4_present st a hA]
  dsimp only
  have hB1 : ((st.seqA a).mem ((st.seqA a).p3f a) b).isUnused := by
    rw [p3f_seqA, mem_seqA, if_neg (fun h => d1 h.1)]
    exact hB
  rw [stage3_alloc (st.seqA a) a b f2 [] hB1 (by rw [freeFrames_seqA, hf])]
  dsimp only
  have hd1' : (st.seqA a).p3f a ≠ (st.seqA a).rootFrame := by
    rw [p3f_seqA, rootFrame_seqA]
    exact d1
  have hVmem : ∀ x y, ((((({ (st.seqA a) with freeFrames := [] }).setP3e a b f2
      validFlags).seqB a b).zeroP2 a b)).mem x y =
      (if x = f2 then unusedEntry
       else if x = st.p3f a ∧ y = b then rwE true (⟨f2, validFlags⟩ : PTEntry)
       else if x = st.rootFrame ∧ y = a then rwE false (st.mem st.rootFrame a)
       else st.mem x y) := by
    intro x y
    rw [tailB_mem (st.seqA a) a b f2 [] hd1' (by rw [rootFrame_seqA]; exact g1)
      (by rw [p3f_seqA]; exact g2)]
    rw [p3f_seqA, rootFrame_seqA]
    by_cases hx2 : x = f2
    · rw [if_pos hx2, if_pos hx2]
    · rw [if_neg hx2, if_neg hx2]
      by_cases h2 : x = st.p3f a ∧ y = b
      · rw [if_pos h2, if_pos h2]
      · rw [if_neg h2, if_neg h2]
        by_cases h1 : x = st.rootFrame ∧ y = a
        · rw [if_pos h1, if_pos h1, mem_seqA,
            if_pos (⟨rfl, rfl⟩ : st.rootFrame = st.rootFrame ∧ a = a), rwE_rwE]
        · rw [if_neg h1, if_neg h1, mem_seqA, if_neg h1]
  set V := (((({ (st.seqA a) with freeFrames := [] }).setP3e a b f2
      validFlags).seqB a b).zeroP2 a b) with hV
  have hVroot : V.rootFrame = st.rootFrame := by
    rw [hV, tailB_rootFrame, rootFrame_seqA]
  have hVp3 : V.p3f a = st.p3f a := by
    show (V.mem V.rootFrame a).frame = _
    rw [hVroot, hVmem, if_neg (Ne.symm g1), if_neg (fun h => d1 h.1.symm),
      if_pos ⟨rfl, rfl⟩, frame_rwE]
    rfl
  have hVp2 : V.p2f a b = f2 := by
    show (V.mem (V.p3f a) b).frame = _
    rw [hVp3, hVmem, if_neg (Ne.symm g2), if_pos ⟨rfl, rfl⟩]
    rfl
  have hC2 : (V.mem (V.p2f a b) c).isUnused := by
    rw [hVp2, hVmem, if_pos rfl]
    rfl
  rw [stage2_fail V a b c hC2 (by rw [hV, tailB_freeFrames])]
  dsimp only
  refine ⟨_, rfl, ?_, ?_, ?_, ?_⟩
  · intro x y
    rw [mem_failB V a b (by rw [hVp3, hVroot]; exact d1)]
    rw [hVroot, hVp3]
    by_cases h1 : x = st.rootFrame ∧ y = a
    · rw [if_pos h1, hVmem, if_neg (fun h => g1 h.symm),
        if_neg (fun h => d1 h.1.symm),
        if_pos (⟨rfl, rfl⟩ : st.rootFrame = st.rootFrame ∧ a = a), rwE_rwE,
        rwE_false_of_clear _ cA,
        if_neg (fun h => g1 (h1.1.symm.trans h).symm),
        if_neg (fun h => d1 (h1.1.symm.trans h.1).symm)]
      obtain ⟨hx, hy⟩ := h1
      rw [hx, hy]
    · rw [if_neg h1]
      by_cases h2 : x = st.p3f a ∧ y = b
      · rw [if_pos h2, hVmem, if_neg (fun h => g2 h.symm),
          if_pos (⟨rfl, rfl⟩ : st.p3f a = st.p3f a ∧ b = b), rwE_rwE,
          rwE_false_of_clear _ (rwClear_validFlags f2),
          if_neg (fun h => g2 (h.symm.trans h2.1)), if_pos h2]
      · rw [if_neg h2, hVmem]
        by_cases hx2 : x = f2
        · rw [if_pos hx2, if_pos hx2]
        · rw [if_neg hx2, if_neg h2, if_neg h1, if_neg hx2, if_neg h2]
  · rw [rootFrame_failB, hVroot]
  · rw [freeFrames_failB, hV, tailB_freeFrames]
  · rw [events_failB, hV, tailB_events, events_seqA, rep_app, rep_app]

theorem create_fail2c (l : Nat) (st : Machine) (a b c f1 f2 : Nat)
    (ha : a ≠ l) (ha2 : a ≠ l + 1)
    (hA : (st.mem st.rootFrame a).isUnused)
    (hf : st.freeFrames = [f1, f2])
    (g1 : f1 ≠ st.rootFrame)
    (g2 : f2 ≠ st.rootFrame) (g3 : f2 ≠ f1) :
    ∃ st', create_p1_if_not_exist l st a b c
        = Res.done (st', some MapToError.frameAllocationFailed) ∧
      (∀ x y, st'.mem x y =
        if x = f2 then unusedEntry
        else if x = f1 ∧ y = b then (⟨f2, validFlags⟩ : PTEntry)
        else if x = f1 then unusedEntry
        else if x = st.rootFrame ∧ y = a then (⟨f1, validFlags⟩ : PTEntry)
        else st.mem x y) ∧
      st'.rootFrame = st.rootFrame ∧ st'.freeFrames = [] ∧
      st'.events = st.events ++ List.replicate 7 FlushEvent.flushAll := by
  unfold create_p1_if_not_exist
  rw [if_neg (by simp [ha, ha2])]
  rw [stage4_alloc st a f1 [f2] hA hf]
  dsimp only
  have hS1mem : ∀ x y, ((((({ st with freeFrames := [f2] }).setP4e a f1
      validFlags).seqA a).zeroP3 a).sfenceAll).mem x y =
      (if x = f1 then unusedEntry
       else if x = st.rootFrame ∧ y = a then rwE true (⟨f1, validFlags⟩ : PTEntry)
       else st.mem x y) := fun x y => tailA_mem st a f1 [f2] g1 x y
  set st1 := (((({ st with freeFrames := [f2] }).setP4e a f1
      validFlags).seqA a).zeroP3 a).sfenceAll with hst1
  have h1root : st1.rootFrame = st.rootFrame := by
    rw [hst1, tailA_rootFrame]
  have h1p3 : st1.p3f a = f1 := by
    show (st1.mem st1.rootFrame a).frame = _
    rw [h1root, hS1mem, if_neg (Ne.symm g1), if_pos ⟨rfl, rfl⟩]
    rfl
  have hB1 : (st1.mem (st1.p3f a) b).isUnused := by
    rw [h1p3, hS1mem, if_pos rfl]
    rfl
  have hff1 : st1.freeFrames = [f2] := by
    rw [hst1, tailA_freeFrames]
  rw [stage3_alloc st1 a b f2 [] hB1 hff1]
  dsimp only
  have hVmem : ∀ x y, ((((({ st1 with freeFrames := [] }).setP3e a b f2
      validFlags).seqB a b).zeroP2 a b)).mem x y =
      (if x = f2 then unusedEntry
       else if x = f1 ∧ y = b then rwE true (⟨f2, validFlags⟩ : PTEntry)
       else if x = st.rootFrame ∧ y = a then (⟨f1, validFlags⟩ : PTEntry)
       else if x = f1 then unusedEntry
       else st.mem x y) := by
    intro x y
    rw [tailB_mem st1 a b f2 [] (by rw [h1p3, h1root]; exact g1)
      (by rw [h1root]; exact g2) (by rw [h1p3]; exact g3)]
    rw [h1root, h1p3]
    by_cases hx2 : x = f2
    · rw [if_pos hx2, if_pos hx2]
    · rw [if_neg hx2, if_neg hx2]
      by_cases hfb : x = f1 ∧ y = b
      · rw [if_pos hfb, if_pos hfb]
      · rw [if_neg hfb, if_neg hfb]
        by_cases h1 : x = st.rootFrame ∧ y = a
        · rw [if_pos h1, if_pos h1, hS1mem, if_neg (fun h => g1 h.symm),
            if_pos (⟨rfl, rfl⟩ : st.rootFrame = st.rootFrame ∧ a = a), rwE_rwE,
            rwE_false_of_clear _ (rwClear_validFlags f1)]
        · rw [if_neg h1, if_neg h1, hS1mem, if_neg h1]
  set V := (((({ st1 with freeFrames := [] }).setP3e a b f2
      validFlags).seqB a b).zeroP2 a b) with hV
  have hVroot : V.rootFrame = st.rootFrame := by
    rw [hV, tailB_rootFrame, h1root]
  have hVp3 : V.p3f a = f1 := by
    show (V.mem V.rootFrame a).frame = _
    rw [hVroot, hVmem, if_neg (Ne.symm g2), if_neg (fun h => g1 h.1.symm),
      if_pos ⟨rfl, rfl⟩]
  have hVp2 : V.p2f a b = f2 := by
    show (V.mem (V.p3f a) b).frame = _
    rw [hVp3, hVmem, if_neg (Ne.symm g3), if_pos ⟨rfl, rfl⟩]
    rfl
  have hC2 : (V.mem (V.p2f a b) c).isUnused := by
    rw [hVp2, hVmem, if_pos rfl]
    rfl
  rw [stage2_fail V a b c hC2 (by rw [hV, tailB_freeFrames])]
  dsimp only
  refine ⟨_, rfl, ?_, ?_, ?_, ?_⟩
  · intro x y
    rw [mem_failB V a b (by rw [hVp3, hVroot]; exact g1)]
    rw [hVroot, hVp3]
    by_cases hra : x = st.rootFrame ∧ y = a
    · rw [if_pos hra, hVmem, if_neg (fun h => g2 h.symm),
        if_neg (fun h => g1 h.1.symm),
        if_pos (⟨rfl, rfl⟩ : st.rootFrame = st.rootFrame ∧ a = a),
        rwE_false_of_clear _ (rwClear_validFlags f1),
        if_neg (fun h => g2 (hra.1.symm.trans h).symm),
        if_neg (fun h => g1 (hra.1.symm.trans h.1).symm),
        if_neg (fun h => g1 (hra.1.symm.trans h).symm), if_pos hra]
    · rw [if_neg hra]
      by_cases hfb : x = f1 ∧ y = b
      · rw [if_pos hfb, hVmem, if_neg (fun h => g3 h.symm),
          if_pos (⟨rfl, rfl⟩ : f1 = f1 ∧ b = b), rwE_rwE,
          rwE_false_of_clear _ (rwClear_validFlags f2),
          if_neg (fun h => g3 (hfb.1.symm.trans h).symm), if_pos hfb]
      · rw [if_neg hfb, hVmem]
        by_cases hx2 : x = f2
        · rw [if_pos hx2, if_pos hx2]
        · rw [if_neg hx2, if_neg hfb, if_neg hra, if_neg hx2, if_neg hfb]
          by_cases hx1 : x = f1
          · rw [if_pos hx1, if_pos hx1]
          · rw [if_neg hx1, if_neg hx1, if_neg hra]
  · rw [rootFrame_failB, hVroot]
  · rw [freeFrames_failB, hV, tailB_freeFrames]
  · rw [events_failB, hV, tailB_events, hst1, tailA_events, rep_app, rep_app]

end RecPT

namespace RecPT

theorem is_mapped_exact (l : Nat) (st : Machine) (a b c d : Nat)
    (ha : a ≠ l) (ha2 : a ≠ l + 1)
    (hA : ¬ (st.mem st.rootFrame a).isUnused)
    (hB : ¬ (st.mem (st.p3f a) b).isUnused)
    (hC : ¬ (st.mem (st.p2f a b) c).isUnused)
    (cA : rwClear (st.mem st.rootFrame a))
    (cB : rwClear (st.mem (st.p3f a) b))
    (cC : rwClear (st.mem (st.p2f a b) c))
    (d1 : st.p3f a ≠ st.rootFrame)
    (d2 : st.p2f a b ≠ st.rootFrame) (d3 : st.p2f a b ≠ st.p3f a)
    (d4 : st.p1f a b c ≠ st.rootFrame) (d5 : st.p1f a b c ≠ st.p3f a)
    (d6 : st.p1f a b c ≠ st.p2f a b) :
    ∃ st', is_mapped l st a b c d
        = Res.done (st', if (st.mem (st.p1f a b c) d).isUnused then false else true) ∧
      st'.mem = st.mem ∧ st'.rootFrame = st.rootFrame ∧ st'.freeFrames = st.freeFrames ∧
      st'.tlb = [] ∧
      st'.events = st.events ++ List.replicate 14 FlushEvent.flushAll := by
  refine ⟨(((st.seqA a).seqB a b).seqC a b c).closeSeq a b c, ?_, ?_, rfl, rfl, rfl, ?_⟩
  · rw [is_mapped_leaf_reduce l st a b c d ha ha2 hA hB hC d1 d2 d3 d4 d5 d6]
    by_cases h : (st.mem (st.p1f a b c) d).isUnused
    · rw [if_pos h, if_pos h]
    · rw [if_neg h, if_neg h]
  · exact mem_seqABC_clean st a b c d1 d2 d3 cA cB cC
  · rw [events_closeSeq, events_seqC, events_seqB, events_seqA, rep_app, rep_app, rep_app]

theorem map_to_fresh (l : Nat) (st : Machine) (page : Page) (fr : Nat) (fl : PTFlags)
    (ha : page.p4 ≠ l) (ha2 : page.p4 ≠ l + 1)
    (hA : ¬ (st.mem st.rootFrame page.p4).isUnused)
    (hB : ¬ (st.mem (st.p3f page.p4) page.p3).isUnused)
    (hC : ¬ (st.mem (st.p2f page.p4 page.p3) page.p2).isUnused)
    (cA : rwClear (st.mem st.rootFrame page.p4))
    (cB : rwClear (st.mem (st.p3f page.p4) page.p3))
    (cC : rwClear (st.mem (st.p2f page.p4 page.p3) page.p2))
    (d1 : st.p3f page.p4 ≠ st.rootFrame)
    (d2 : st.p2f page.p4 page.p3 ≠ st.rootFrame)
    (d3 : st.p2f page.p4 page.p3 ≠ st.p3f page.p4)
    (d4 : st.p1f page.p4 page.p3 page.p2 ≠ st.rootFrame)
    (d5 : st.p1f page.p4 page.p3 page.p2 ≠ st.p3f page.p4)
    (d6 : st.p1f page.p4 page.p3 page.p2 ≠ st.p2f page.p4 page.p3)
    (hL : (st.mem (st.p1f page.p4 page.p3 page.p2) page.p1).isUnused) :
    ∃ st', map_to l st page fr fl = Res.done (st', MapResult.ok ⟨page⟩) ∧
      (∀ x y, st'.mem x y =
        if x = st.p1f page.p4 page.p3 page.p2 ∧ y = page.p1
        then (⟨fr, fl⟩ : PTEntry) else st.mem x y) ∧
      st'.rootFrame = st.rootFrame ∧ st'.freeFrames = st.freeFrames ∧
      st'.tlb = [] ∧
      st'.events = st.events ++ List.replicate 28 FlushEvent.flushAll := by
  obtain ⟨st1, hc, hm1, hr1, hf1, he1⟩ :=
    create_ppp l st page.p4 page.p3 page.p2 ha ha2 hA hB hC cA cB cC d1 d2 d3
  unfold map_to
  rw [hc]
  dsimp only
  have hp3 : st1.p3f page.p4 = st.p3f page.p4 := by
    unfold Machine.p3f
    rw [hm1, hr1]
  have hp2 : st1.p2f page.p4 page.p3 = st.p2f page.p4 page.p3 := by
    unfold Machine.p2f
    rw [hm1, hp3]
  have hp1 : st1.p1f page.p4 page.p3 page.p2 = st.p1f page.p4 page.p3 page.p2 := by
    unfold Machine.p1f
    rw [hm1, hp2]
  obtain ⟨st2, hed, hm2, hr2, hf2, ht2, he2⟩ := edit_exact l st1 page.p4 page.p3 page.p2
    (fun p1t =>
      if ¬ (p1t page.p1).isUnused then (MapResult.err MapToError.pageAlreadyMapped, p1t)
      else (MapResult.ok ⟨page⟩, updEntryT p1t page.p1 ⟨fr, fl⟩))
    ha ha2 (by rw [hm1, hr1]; exact hA) (by rw [hm1, hp3]; exact hB)
    (by rw [hm1, hp2]; exact hC)
    (by rw [hm1, hr1]; exact cA) (by rw [hm1, hp3]; exact cB) (by rw [hm1, hp2]; exact cC)
    (by rw [hp3, hr1]; exact d1) (by rw [hp2, hr1]; exact d2) (by rw [hp2, hp3]; exact d3)
    (by rw [hp1, hr1]; exact d4) (by rw [hp1, hp3]; exact d5) (by rw [hp1, hp2]; exact d6)
  rw [hed]
  dsimp only
  have ht : st1.mem (st1.p1f page.p4 page.p3 page.p2)
      = st.mem (st.p1f page.p4 page.p3 page.p2) := by
    rw [hm1, hp1]
  rw [ht] at hm2 ⊢
  rw [if_neg (fun hcon => hcon hL)] at hm2 ⊢
  refine ⟨st2, rfl, ?_, hr2.trans hr1, hf2.trans hf1, ht2, ?_⟩
  · intro x y
    rw [hm2]
    dsimp only
    rw [hp1]
    by_cases hx : x = st.p1f page.p4 page.p3 page.p2
    · rw [if_pos hx]
      unfold updEntryT
      by_cases hy : y = page.p1
      · rw [if_pos hy, if_pos ⟨hx, hy⟩]
      · rw [if_neg hy, if_neg (fun h => hy h.2), hx]
    · rw [if_neg hx, if_neg (fun h => hx h.1), hm1]
  · rw [he2, he1, rep_app]

theorem map_to_already (l : Nat) (st : Machine) (page : Page) (fr : Nat) (fl : PTFlags)
    (ha : page.p4 ≠ l) (ha2 : page.p4 ≠ l + 1)
    (hA : ¬ (st.mem st.rootFrame page.p4).isUnused)
    (hB : ¬ (st.mem (st.p3f page.p4) page.p3).isUnused)
    (hC : ¬ (st.mem (st.p2f page.p4 page.p3) page.p2).isUnused)
    (cA : rwClear (st.mem st.rootFrame page.p4))
    (cB : rwClear (st.mem (st.p3f page.p4) page.p3))
    (cC : rwClear (st.mem (st.p2f page.p4 page.p3) page.p2))
    (d1 : st.p3f page.p4 ≠ st.rootFrame)
    (d2 : st.p2f page.p4 page.p3 ≠ st.rootFrame)
    (d3 : st.p2f page.p4 page.p3 ≠ st.p3f page.p4)
    (d4 : st.p1f page.p4 page.p3 page.p2 ≠ st.rootFrame)
    (d5 : st.p1f page.p4 page.p3 page.p2 ≠ st.p3f page.p4)
    (d6 : st.p1f page.p4 page.p3 page.p2 ≠ st.p2f page.p4 page.p3)
    (hL : ¬ (st.mem (st.p1f page.p4 page.p3 page.p2) page.p1).isUnused) :
    ∃ st', map_to l st page fr fl
        = Res.done (st', MapResult.err MapToError.pageAlreadyMapped) ∧
      st'.mem = st.mem ∧
      st'.rootFrame = st.rootFrame ∧ st'.freeFrames = st.freeFrames ∧
      st'.tlb = [] ∧
      st'.events = st.events ++ List.replicate 28 FlushEvent.flushAll := by
  obtain ⟨st1, hc, hm1, hr1, hf1, he1⟩ :=
    create_ppp l st page.p4 page.p3 page.p2 ha ha2 hA hB hC cA cB cC d1 d2 d3
  unfold map_to
  rw [hc]
  dsimp only
  have hp3 : st1.p3f page.p4 = st.p3f page.p4 := by
    unfold Machine.p3f
    rw [hm1, hr1]
  have hp2 : st1.p2f page.p4 page.p3 = st.p2f page.p4 page.p3 := by
    unfold Machine.p2f
    rw [hm1, hp3]
  have hp1 : st1.p1f page.p4 page.p3 page.p2 = st.p1f page.p4 page.p3 page.p2 := by
    unfold Machine.p1f
    rw [hm1, hp2]
  obtain ⟨st2, hed, hm2, hr2, hf2, ht2, he2⟩ := edit_exact l st1 page.p4 page.p3 page.p2
    (fun p1t =>
      if ¬ (p1t page.p1).isUnused then (MapResult.err MapToError.pageAlreadyMapped, p1t)
      else (MapResult.ok ⟨page⟩, updEntryT p1t page.p1 ⟨fr, fl⟩))
    ha ha2 (by rw [hm1, hr1]; exact hA) (by rw [hm1, hp3]; exact hB)
    (by rw [hm1, hp2]; exact hC)
    (by rw [hm1, hr1]; exact cA) (by rw [hm1, hp3]; exact cB) (by rw [hm1, hp2]; exact cC)
    (by rw [hp3, hr1]; exact d1) (by rw [hp2, hr1]; exact d2) (by rw [hp2, hp3]; exact d3)
    (by rw [hp1, hr1]; exact d4) (by rw [hp1, hp3]; exact d5) (by rw [hp1, hp2]; exact d6)
  rw [hed]
  dsimp only
  have ht : st1.mem (st1.p1f page.p4 page.p3 page.p2)
      = st.mem (st.p1f page.p4 page.p3 page.p2) := by
    rw [hm1, hp1]
  rw [ht] at hm2 ⊢
  rw [if_pos hL] at hm2 ⊢
  refine ⟨st2, rfl, ?_, hr2.trans hr1, hf2.trans hf1, ht2, ?_⟩
  · funext x y
    rw [hm2]
    dsimp only
    by_cases hx : x = st1.p1f page.p4 page.p3 page.p2
    · rw [if_pos hx, hx, hp1]
    · rw [if_neg hx, hm1]
  · rw [he2, he1, rep_app]

end RecPT

namespace RecPT

theorem unmap_mapped (l : Nat) (st : Machine) (page : Page)
    (ha : page.p4 ≠ l) (ha2 : page.p4 ≠ l + 1)
    (hA : ¬ (st.mem st.rootFrame page.p4).isUnused)
    (hB : ¬ (st.mem (st.p3f page.p4) page.p3).isUnused)
    (hC : ¬ (st.mem (st.p2f page.p4 page.p3) page.p2).isUnused)
    (cA : rwClear (st.mem st.rootFrame page.p4))
    (cB : rwClear (st.mem (st.p3f page.p4) page.p3))
    (cC : rwClear (st.mem (st.p2f page.p4 page.p3) page.p2))
    (d1 : st.p3f page.p4 ≠ st.rootFrame)
    (d2 : st.p2f page.p4 page.p3 ≠ st.rootFrame)
    (d3 : st.p2f page.p4 page.p3 ≠ st.p3f page.p4)
    (d4 : st.p1f page.p4 page.p3 page.p2 ≠ st.rootFrame)
    (d5 : st.p1f page.p4 page.p3 page.p2 ≠ st.p3f page.p4)
    (d6 : st.p1f page.p4 page.p3 page.p2 ≠ st.p2f page.p4 page.p3)
    (hv : (st.mem (st.p1f page.p4 page.p3 page.p2) page.p1).flags.valid = true) :
    ∃ st', unmap l st page = Res.done (st',
        UnmapResult.ok (st.mem (st.p1f page.p4 page.p3 page.p2) page.p1).frame ⟨page⟩) ∧
      (∀ x y, st'.mem x y =
        if x = st.p1f page.p4 page.p3 page.p2 ∧ y = page.p1
        then unusedEntry else st.mem x y) ∧
      st'.rootFrame = st.rootFrame ∧ st'.freeFrames = st.freeFrames ∧
      st'.tlb = [] ∧
      st'.events = st.events ++ List.replicate 28 FlushEvent.flushAll := by
  have hL : ¬ (st.mem (st.p1f page.p4 page.p3 page.p2) page.p1).isUnused :=
    not_unused_of_valid _ hv
  obtain ⟨st1, him, hm1, hr1, hf1, ht1, he1⟩ :=
    is_mapped_exact l st page.p4 page.p3 page.p2 page.p1 ha ha2 hA hB hC cA cB cC
      d1 d2 d3 d4 d5 d6
  rw [if_neg hL] at him
  unfold unmap
  rw [him]
  dsimp only
  have hp3 : st1.p3f page.p4 = st.p3f page.p4 := by
    unfold Machine.p3f
    rw [hm1, hr1]
  have hp2 : st1.p2f page.p4 page.p3 = st.p2f page.p4 page.p3 := by
    unfold Machine.p2f
    rw [hm1, hp3]
  have hp1 : st1.p1f page.p4 page.p3 page.p2 = st.p1f page.p4 page.p3 page.p2 := by
    unfold Machine.p1f
    rw [hm1, hp2]
  obtain ⟨st2, hed, hm2, hr2, hf2, ht2, he2⟩ := edit_exact l st1 page.p4 page.p3 page.p2
    (fun p1t =>
      if ¬ ((p1t page.p1).flags.valid = true) then
        (UnmapResult.err UnmapError.pageNotMapped, p1t)
      else (UnmapResult.ok (p1t page.p1).frame ⟨page⟩, updEntryT p1t page.p1 unusedEntry))
    ha ha2 (by rw [hm1, hr1]; exact hA) (by rw [hm1, hp3]; exact hB)
    (by rw [hm1, hp2]; exact hC)
    (by rw [hm1, hr1]; exact cA) (by rw [hm1, hp3]; exact cB) (by rw [hm1, hp2]; exact cC)
    (by rw [hp3, hr1]; exact d1) (by rw [hp2, hr1]; exact d2) (by rw [hp2, hp3]; exact d3)
    (by rw [hp1, hr1]; exact d4) (by rw [hp1, hp3]; exact d5) (by rw [hp1, hp2]; exact d6)
  rw [hed]
  dsimp only
  have ht : st1.mem (st1.p1f page.p4 page.p3 page.p2)
      = st.mem (st.p1f page.p4 page.p3 page.p2) := by
    rw [hm1, hp1]
  rw [ht] at hm2 ⊢
  rw [if_neg (fun hcon => hcon hv)] at hm2 ⊢
  refine ⟨st2, rfl, ?_, hr2.trans hr1, hf2.trans hf1, ht2, ?_⟩
  · intro x y
    rw [hm2]
    dsimp only
    rw [hp1]
    by_cases hx : x = st.p1f page.p4 page.p3 page.p2
    · rw [if_pos hx]
      unfold updEntryT
      by_cases hy : y = page.p1
      · rw [if_pos hy, if_pos ⟨hx, hy⟩]
      · rw [if_neg hy, if_neg (fun h => hy h.2), hx]
    · rw [if_neg hx, if_neg (fun h => hx h.1), hm1]
  · rw [he2, he1, rep_app]

theorem unmap_leaf_invalid (l : Nat) (st : Machine) (page : Page)
    (ha : page.p4 ≠ l) (ha2 : page.p4 ≠ l + 1)
    (hA : ¬ (st.mem st.rootFrame page.p4).isUnused)
    (hB : ¬ (st.mem (st.p3f page.p4) page.p3).isUnused)
    (hC : ¬ (st.mem (st.p2f page.p4 page.p3) page.p2).isUnused)
    (cA : rwClear (st.mem st.rootFrame page.p4))
    (cB : rwClear (st.mem (st.p3f page.p4) page.p3))
    (cC : rwClear (st.mem (st.p2f page.p4 page.p3) page.p2))
    (d1 : st.p3f page.p4 ≠ st.rootFrame)
    (d2 : st.p2f page.p4 page.p3 ≠ st.rootFrame)
    (d3 : st.p2f page.p4 page.p3 ≠ st.p3f page.p4)
    (d4 : st.p1f page.p4 page.p3 page.p2 ≠ st.rootFrame)
    (d5 : st.p1f page.p4 page.p3 page.p2 ≠ st.p3f page.p4)
    (d6 : st.p1f page.p4 page.p3 page.p2 ≠ st.p2f page.p4 page.p3)
    (hL : ¬ (st.mem (st.p1f page.p4 page.p3 page.p2) page.p1).isUnused)
    (hv : ¬ (st.mem (st.p1f page.p4 page.p3 page.p2) page.p1).flags.valid = true) :
    ∃ st', unmap l st page
        = Res.done (st', UnmapResult.err UnmapError.pageNotMapped) ∧
      st'.mem = st.mem ∧
      st'.rootFrame = st.rootFrame ∧ st'.freeFrames = st.freeFrames ∧
      st'.tlb = [] ∧
      st'.events = st.events ++ List.replicate 28 FlushEvent.flushAll := by
  obtain ⟨st1, him, hm1, hr1, hf1, ht1, he1⟩ :=
    is_mapped_exact l st page.p4 page.p3 page.p2 page.p1 ha ha2 hA hB hC cA cB cC
      d1 d2 d3 d4 d5 d6
  rw [if_neg hL] at him
  unfold unmap
  rw [him]
  dsimp only
  have hp3 : st1.p3f page.p4 = st.p3f page.p4 := by
    unfold Machine.p3f
    rw [hm1, hr1]
  have hp2 : st1.p2f page.p4 page.p3 = st.p2f page.p4 page.p3 := by
    unfold Machine.p2f
    rw [hm1, hp3]
  have hp1 : st1.p1f page.p4 page.p3 page.p2 = st.p1f page.p4 page.p3 page.p2 := by
    unfold Machine.p1f
    rw [hm1, hp2]
  obtain ⟨st2, hed, hm2, hr2, hf2, ht2, he2⟩ := edit_exact l st1 page.p4 page.p3 page.p2
    (fun p1t =>
      if ¬ ((p1t page.p1).flags.valid = true) then
        (UnmapResult.err UnmapError.pageNotMapped, p1t)
      else (UnmapResult.ok (p1t page.p1).frame ⟨page⟩, updEntryT p1t page.p1 unusedEntry))
    ha ha2 (by rw [hm1, hr1]; exact hA) (by rw [hm1, hp3]; exact hB)
    (by rw [hm1, hp2]; exact hC)
    (by rw [hm1, hr1]; exact cA) (by rw [hm1, hp3]; exact cB) (by rw [hm1, hp2]; exact cC)
    (by rw [hp3, hr1]; exact d1) (by rw [hp2, hr1]; exact d2) (by rw [hp2, hp3]; exact d3)
    (by rw [hp1, hr1]; exact d4) (by rw [hp1, hp3]; exact d5) (by rw [hp1, hp2]; exact d6)
  rw [hed]
  dsimp only
  have ht : st1.mem (st1.p1f page.p4 page.p3 page.p2)
      = st.mem (st.p1f page.p4 page.p3 page.p2) := by
    rw [hm1, hp1]
  rw [ht] at hm2 ⊢
  rw [if_pos hv] at hm2 ⊢
  refine ⟨st2, rfl, ?_, hr2.trans hr1, hf2.trans hf1, ht2, ?_⟩
  · funext x y
    rw [hm2]
    dsimp only
    by_cases hx : x = st1.p1f page.p4 page.p3 page.p2
    · rw [if_pos hx, hx, hp1]
    · rw [if_neg hx, hm1]
  · rw [he2, he1, rep_app]

theorem unmap_notmapped (l : Nat) (st : Machine) (page : Page)
    (ha : page.p4 ≠ l) (ha2 : page.p4 ≠ l + 1)
    (cA : rwClear (st.mem st.rootFrame page.p4))
    (cB : rwClear (st.mem (st.p3f page.p4) page.p3))
    (cC : rwClear (st.mem (st.p2f page.p4 page.p3) page.p2))
    (d1 : st.p3f page.p4 ≠ st.rootFrame)
    (d2 : st.p2f page.p4 page.p3 ≠ st.rootFrame)
    (d3 : st.p2f page.p4 page.p3 ≠ st.p3f page.p4)
    (d4 : st.p1f page.p4 page.p3 page.p2 ≠ st.rootFrame)
    (d5 : st.p1f page.p4 page.p3 page.p2 ≠ st.p3f page.p4)
    (d6 : st.p1f page.p4 page.p3 page.p2 ≠ st.p2f page.p4 page.p3)
    (hnm : (st.mem st.rootFrame page.p4).isUnused
         ∨ (st.mem (st.p3f page.p4) page.p3).isUnused
         ∨ (st.mem (st.p2f page.p4 page.p3) page.p2).isUnused
         ∨ (st.mem (st.p1f page.p4 page.p3 page.p2) page.p1).isUnused) :
    ∃ st', unmap l st page
        = Res.done (st', UnmapResult.err UnmapError.pageNotMapped) ∧
      st'.mem = st.mem ∧
      st'.rootFrame = st.rootFrame ∧ st'.freeFrames = st.freeFrames := by
  by_cases hAu : (st.mem st.rootFrame page.p4).isUnused
  · have him := is_mapped_unused4 l st page.p4 page.p3 page.p2 page.p1 ha ha2 hAu
    unfold unmap
    rw [him]
    exact ⟨st, rfl, rfl, rfl, rfl⟩
  · by_cases hBu : (st.mem (st.p3f page.p4) page.p3).isUnused
    · obtain ⟨st1, him, hm1, hr1, hf1, he1⟩ :=
        is_mapped_unused3 l st page.p4 page.p3 page.p2 page.p1 ha ha2 hAu hBu cA d1
      unfold unmap
      rw [him]
      exact ⟨st1, rfl, hm1, hr1, hf1⟩
    · by_cases hCu : (st.mem (st.p2f page.p4 page.p3) page.p2).isUnused
      · obtain ⟨st1, him, hm1, hr1, hf1, he1⟩ :=
          is_mapped_unused2 l st page.p4 page.p3 page.p2 page.p1 ha ha2 hAu hBu hCu
            cA cB d1 d2 d3
        unfold unmap
        rw [him]
        exact ⟨st1, rfl, hm1, hr1, hf1⟩
      · have hLu : (st.mem (st.p1f page.p4 page.p3 page.p2) page.p1).isUnused := by
          rcases hnm with h | h | h | h
          · exact absurd h hAu
          · exact absurd h hBu
          · exact absurd h hCu
          · exact h
        obtain ⟨st1, him, hm1, hr1, hf1, ht1, he1⟩ :=
          is_mapped_exact l st page.p4 page.p3 page.p2 page.p1 ha ha2 hAu hBu hCu cA cB cC
            d1 d2 d3 d4 d5 d6
        rw [if_pos hLu] at him
        unfold unmap
        rw [him]
        exact ⟨st1, rfl, hm1, hr1, hf1⟩

end RecPT

namespace RecPT

theorem translate_some (l : Nat) (st : Machine) (page : Page)
    (ha : page.p4 ≠ l) (ha2 : page.p4 ≠ l + 1)
    (hA : ¬ (st.mem st.rootFrame page.p4).isUnused)
    (hB : ¬ (st.mem (st.p3f page.p4) page.p3).isUnused)
    (hC : ¬ (st.mem (st.p2f page.p4 page.p3) page.p2).isUnused)
    (cA : rwClear (st.mem st.rootFrame page.p4))
    (cB : rwClear (st.mem (st.p3f page.p4) page.p3))
    (cC : rwClear (st.mem (st.p2f page.p4 page.p3) page.p2))
    (d1 : st.p3f page.p4 ≠ st.rootFrame)
    (d2 : st.p2f page.p4 page.p3 ≠ st.rootFrame)
    (d3 : st.p2f page.p4 page.p3 ≠ st.p3f page.p4)
    (d4 : st.p1f page.p4 page.p3 page.p2 ≠ st.rootFrame)
    (d5 : st.p1f page.p4 page.p3 page.p2 ≠ st.p3f page.p4)
    (d6 : st.p1f page.p4 page.p3 page.p2 ≠ st.p2f page.p4 page.p3)
    (hL : ¬ (st.mem (st.p1f page.p4 page.p3 page.p2) page.p1).isUnused) :
    ∃ st', translate_page l st page
        = Res.done (st', some (st.mem (st.p1f page.p4 page.p3 page.p2) page.p1).frame) ∧
      st'.mem = st.mem ∧
      st'.rootFrame = st.rootFrame ∧ st'.freeFrames = st.freeFrames ∧
      st'.tlb = [] ∧
      st'.events = st.events ++ List.replicate 28 FlushEvent.flushAll := by
  obtain ⟨st1, him, hm1, hr1, hf1, ht1, he1⟩ :=
    is_mapped_exact l st page.p4 page.p3 page.p2 page.p1 ha ha2 hA hB hC cA cB cC
      d1 d2 d3 d4 d5 d6
  rw [if_neg hL] at him
  unfold translate_page
  rw [him]
  dsimp only
  have hp3 : st1.p3f page.p4 = st.p3f page.p4 := by
    unfold Machine.p3f
    rw [hm1, hr1]
  have hp2 : st1.p2f page.p4 page.p3 = st.p2f page.p4 page.p3 := by
    unfold Machine.p2f
    rw [hm1, hp3]
  have hp1 : st1.p1f page.p4 page.p3 page.p2 = st.p1f page.p4 page.p3 page.p2 := by
    unfold Machine.p1f
    rw [hm1, hp2]
  obtain ⟨st2, hed, hm2, hr2, hf2, ht2, he2⟩ := edit_exact l st1 page.p4 page.p3 page.p2
    (fun p1t =>
      if (p1t page.p1).isUnused then ((none : Option Nat), p1t)
      else (some (p1t page.p1).frame, p1t))
    ha ha2 (by rw [hm1, hr1]; exact hA) (by rw [hm1, hp3]; exact hB)
    (by rw [hm1, hp2]; exact hC)
    (by rw [hm1, hr1]; exact cA) (by rw [hm1, hp3]; exact cB) (by rw [hm1, hp2]; exact cC)
    (by rw [hp3, hr1]; exact d1) (by rw [hp2, hr1]; exact d2) (by rw [hp2, hp3]; exact d3)
    (by rw [hp1, hr1]; exact d4) (by rw [hp1, hp3]; exact d5) (by rw [hp1, hp2]; exact d6)
  rw [hed]
  dsimp only
  have ht : st1.mem (st1.p1f page.p4 page.p3 page.p2)
      = st.mem (st.p1f page.p4 page.p3 page.p2) := by
    rw [hm1, hp1]
  rw [ht] at hm2 ⊢
  rw [if_neg hL] at hm2 ⊢
  refine ⟨st2, rfl, ?_, hr2.trans hr1, hf2.trans hf1, ht2, ?_⟩
  · funext x y
    rw [hm2]
    dsimp only
    by_cases hx : x = st1.p1f page.p4 page.p3 page.p2
    · rw [if_pos hx, hx, hp1]
    · rw [if_neg hx, hm1]
  · rw [he2, he1, rep_app]

theorem translate_none (l : Nat) (st : Machine) (page : Page)
    (ha : page.p4 ≠ l) (ha2 : page.p4 ≠ l + 1)
    (cA : rwClear (st.mem st.rootFrame page.p4))
    (cB : rwClear (st.mem (st.p3f page.p4) page.p3))
    (cC : rwClear (st.mem (st.p2f page.p4 page.p3) page.p2))
    (d1 : st.p3f page.p4 ≠ st.rootFrame)
    (d2 : st.p2f page.p4 page.p3 ≠ st.rootFrame)
    (d3 : st.p2f page.p4 page.p3 ≠ st.p3f page.p4)
    (d4 : st.p1f page.p4 page.p3 page.p2 ≠ st.rootFrame)
    (d5 : st.p1f page.p4 page.p3 page.p2 ≠ st.p3f page.p4)
    (d6 : st.p1f page.p4 page.p3 page.p2 ≠ st.p2f page.p4 page.p3)
    (hnm : (st.mem st.rootFrame page.p4).isUnused
         ∨ (st.mem (st.p3f page.p4) page.p3).isUnused
         ∨ (st.mem (st.p2f page.p4 page.p3) page.p2).isUnused
         ∨ (st.mem (st.p1f page.p4 page.p3 page.p2) page.p1).isUnused) :
    ∃ st', translate_page l st page = Res.done (st', none) ∧
      st'.mem = st.mem ∧
      st'.rootFrame = st.rootFrame ∧ st'.freeFrames = st.freeFrames := by
  by_cases hAu : (st.mem st.rootFrame page.p4).isUnused
  · have him := is_mapped_unused4 l st page.p4 page.p3 page.p2 page.p1 ha ha2 hAu
    unfold translate_page
    rw [him]
    exact ⟨st, rfl, rfl, rfl, rfl⟩
  · by_cases hBu : (st.mem (st.p3f page.p4) page.p3).isUnused
    · obtain ⟨st1, him, hm1, hr1, hf1, he1⟩ :=
        is_mapped_unused3 l st page.p4 page.p3 page.p2 page.p1 ha ha2 hAu hBu cA d1
      unfold translate_page
      rw [him]
      exact ⟨st1, rfl, hm1, hr1, hf1⟩
    · by_cases hCu : (st.mem (st.p2f page.p4 page.p3) page.p2).isUnused
      · obtain ⟨st1, him, hm1, hr1, hf1, he1⟩ :=
          is_mapped_unused2 l st page.p4 page.p3 page.p2 page.p1 ha ha2 hAu hBu hCu
            cA cB d1 d2 d3
        unfold translate_page
        rw [him]
        exact ⟨st1, rfl, hm1, hr1, hf1⟩
      · have hLu : (st.mem (st.p1f page.p4 page.p3 page.p2) page.p1).isUnused := by
          rcases hnm with h | h | h | h
          · exact absurd h hAu
          · exact absurd h hBu
          · exact absurd h hCu
          · exact h
        obtain ⟨st1, him, hm1, hr1, hf1, ht1, he1⟩ :=
          is_mapped_exact l st page.p4 page.p3 page.p2 page.p1 ha ha2 hAu hBu hCu cA cB cC
            d1 d2 d3 d4 d5 d6
        rw [if_pos hLu] at him
        unfold translate_page
        rw [him]
        exact ⟨st1, rfl, hm1, hr1, hf1⟩

end RecPT

namespace RecPT

theorem stage4_shape (st : Machine) (a : Nat) :
    (∃ st1, stage4 st a = (st1, none)) ∨
    (∃ st1, stage4 st a = (st1, some MapToError.frameAllocationFailed)) := by
  unfold stage4
  by_cases h : (st.mem st.rootFrame a).isUnused
  · rw [if_pos h]
    rcases halloc : st.alloc with ⟨_ | f, s1⟩
    · exact Or.inr ⟨_, rfl⟩
    · exact Or.inl ⟨_, rfl⟩
  · rw [if_neg h]
    exact Or.inl ⟨_, rfl⟩

theorem stage3_shape (st : Machine) (a b : Nat) :
    (∃ st1, stage3 st a b = (st1, none)) ∨
    (∃ st1, stage3 st a b = (st1, some MapToError.frameAllocationFailed)) := by
  unfold stage3
  by_cases h : (st.mem (st.p3f a) b).isUnused
  · rw [if_pos h]
    rcases halloc : st.alloc with ⟨_ | f, s1⟩
    · exact Or.inr ⟨_, rfl⟩
    · exact Or.inl ⟨_, rfl⟩
  · rw [if_neg h]
    exact Or.inl ⟨_, rfl⟩

theorem stage2_shape (st : Machine) (a b c : Nat) :
    (∃ st1, stage2 st a b c = (st1, none)) ∨
    (∃ st1, stage2 st a b c = (st1, some MapToError.frameAllocationFailed)) := by
  unfold stage2
  by_cases h : (st.mem (st.p2f a b) c).isUnused
  · rw [if_pos h]
    rcases halloc : st.alloc with ⟨_ | f, s1⟩
    · exact Or.inr ⟨_, rfl⟩
    · exact Or.inl ⟨_, rfl⟩
  · rw [if_neg h]
    exact Or.inl ⟨_, rfl⟩

theorem create_result_shape (l : Nat) (st : Machine) (a b c : Nat) :
    create_p1_if_not_exist l st a b c = Res.crash ∨
    (∃ st1, create_p1_if_not_exist l st a b c = Res.done (st1, none)) ∨
    (∃ st1, create_p1_if_not_exist l st a b c
        = Res.done (st1, some MapToError.frameAllocationFailed)) := by
  unfold create_p1_if_not_exist
  by_cases h : a = l ∨ a = l + 1
  · rw [if_pos h]
    exact Or.inl rfl
  · rw [if_neg h]
    rcases stage4_shape st a with ⟨st1, h4⟩ | ⟨st1, h4⟩
    · rw [h4]
      dsimp only
      rcases stage3_shape st1 a b with ⟨st2, h3⟩ | ⟨st2, h3⟩
      · rw [h3]
        dsimp only
        rcases stage2_shape st2 a b c with ⟨st3, h2⟩ | ⟨st3, h2⟩
        · rw [h2]
          exact Or.inr (Or.inl ⟨_, rfl⟩)
        · rw [h2]
          exact Or.inr (Or.inr ⟨_, rfl⟩)
      · rw [h3]
        exact Or.inr (Or.inr ⟨_, rfl⟩)
    · rw [h4]
      exact Or.inr (Or.inr ⟨_, rfl⟩)

theorem edit_result_shape {T : Type} (l : Nat) (st : Machine) (a b c : Nat)
    (g : (Nat → PTEntry) → T × (Nat → PTEntry)) :
    edit_p1 l st a b c g = Res.crash ∨
    ∃ tbl st', edit_p1 l st a b c g = Res.done ((g tbl).1, st') := by
  unfold edit_p1 editStep3 editStep2 editRun
  by_cases h1 : a = l ∨ a = l + 1
  · rw [if_pos h1]
    exact Or.inl rfl
  · rw [if_neg h1]
    by_cases h2 : (st.mem st.rootFrame a).isUnused
    · rw [if_pos h2]
      exact Or.inl rfl
    · rw [if_neg h2]
      by_cases h3 : ((st.seqA a).mem ((st.seqA a).p3f a) b).isUnused
      · rw [if_pos h3]
        exact Or.inl rfl
      · rw [if_neg h3]
        by_cases h4 : (((st.seqA a).seqB a b).mem (((st.seqA a).seqB a b).p2f a b) c).isUnused
        · rw [if_pos h4]
          exact Or.inl rfl
        · rw [if_neg h4]
          right
          rcases hg : g ((((st.seqA a).seqB a b).seqC a b c).mem
              ((((st.seqA a).seqB a b).seqC a b c).p1f a b c)) with ⟨t, tbl⟩
          refine ⟨(((st.seqA a).seqB a b).seqC a b c).mem
              ((((st.seqA a).seqB a b).seqC a b c).p1f a b c),
            ((((st.seqA a).seqB a b).seqC a b c).updT
              ((((st.seqA a).seqB a b).seqC a b c).p1f a b c) tbl).closeSeq a b c, ?_⟩
          rw [hg]

theorem is_mapped_shape (l : Nat) (st : Machine) (a b c d : Nat) :
    is_mapped l st a b c d = Res.crash ∨
    (∃ s, is_mapped l st a b c d = Res.done (s, false)) ∨
    (∃ s, is_mapped l st a b c d = Res.done (s, true)) := by
  unfold is_mapped imStep3 imStep2 imStep1
  by_cases h1 : a = l ∨ a = l + 1
  · rw [if_pos h1]
    exact Or.inl rfl
  · rw [if_neg h1]
    by_cases h2 : (st.mem st.rootFrame a).isUnused
    · rw [if_pos h2]
      exact Or.inr (Or.inl ⟨_, rfl⟩)
    · rw [if_neg h2]
      by_cases h3 : ((st.seqA a).mem ((st.seqA a).p3f a) b).isUnused
      · rw [if_pos h3]
        exact Or.inr (Or.inl ⟨_, rfl⟩)
      · rw [if_neg h3]
        by_cases h4 : (((st.seqA a).seqB a b).mem (((st.seqA a).seqB a b).p2f a b) c).isUnused
        · rw [if_pos h4]
          exact Or.inr (Or.inl ⟨_, rfl⟩)
        · rw [if_neg h4]
          by_cases h5 : ((((st.seqA a).seqB a b).seqC a b c).mem
              ((((st.seqA a).seqB a b).seqC a b c).p1f a b c) d).isUnused
          · rw [if_pos h5]
            exact Or.inr (Or.inl ⟨_, rfl⟩)
          · rw [if_neg h5]
            exact Or.inr (Or.inr ⟨_, rfl⟩)

theorem map_to_result_classification (l : Nat) (st : Machine) (page : Page) (fr : Nat)
    (fl : PTFlags) (st' : Machine) (r : MapResult)
    (h : map_to l st page fr fl = Res.done (st', r)) :
    r = MapResult.err MapToError.frameAllocationFailed ∨
    r = MapResult.err MapToError.pageAlreadyMapped ∨ ∃ mf, r = MapResult.ok mf := by
  unfold map_to at h
  rcases create_result_shape l st page.p4 page.p3 page.p2 with hc | ⟨st1, hc⟩ | ⟨st1, hc⟩
  · rw [hc] at h
    exact Res.noConfusion h
  · rw [hc] at h
    dsimp only at h
    rcases edit_result_shape l st1 page.p4 page.p3 page.p2
      (fun p1t =>
        if ¬ (p1t page.p1).isUnused then (MapResult.err MapToError.pageAlreadyMapped, p1t)
        else (MapResult.ok ⟨page⟩, updEntryT p1t page.p1 ⟨fr, fl⟩)) with he | ⟨tbl, st2, he⟩
    · rw [he] at h
      exact Res.noConfusion h
    · rw [he] at h
      dsimp only at h
      have hr : r = (if ¬ (tbl page.p1).isUnused
          then (MapResult.err MapToError.pageAlreadyMapped, tbl)
          else (MapResult.ok ⟨page⟩, updEntryT tbl page.p1 ⟨fr, fl⟩)).1 := by
        have h2 := congrArg (fun z => match z with
          | Res.crash => r
          | Res.done p => p.2) h
        dsimp only at h2
        exact h2.symm
      by_cases hu : ¬ (tbl page.p1).isUnused
      · rw [if_pos hu] at hr
        exact Or.inr (Or.inl hr)
      · rw [if_neg hu] at hr
        exact Or.inr (Or.inr ⟨_, hr⟩)
  · rw [hc] at h
    dsimp only at h
    have hr : r = MapResult.err MapToError.frameAllocationFailed := by
      have h2 := congrArg (fun z => match z with
        | Res.crash => r
        | Res.done p => p.2) h
      dsimp only at h2
      exact h2.symm
    exact Or.inl hr

theorem unmap_result_classification (l : Nat) (st : Machine) (page : Page)
    (st' : Machine) (r : UnmapResult)
    (h : unmap l st page = Res.done (st', r)) :
    r = UnmapResult.err UnmapError.pageNotMapped ∨ ∃ f mf, r = UnmapResult.ok f mf := by
  unfold unmap at h
  rcases is_mapped_shape l st page.p4 page.p3 page.p2 page.p1 with him | ⟨s, him⟩ | ⟨s, him⟩
  · rw [him] at h
    exact Res.noConfusion h
  · rw [him] at h
    dsimp only at h
    have hr : r = UnmapResult.err UnmapError.pageNotMapped := by
      have h2 := congrArg (fun z => match z with
        | Res.crash => r
        | Res.done p => p.2) h
      dsimp only at h2
      exact h2.symm
    exact Or.inl hr
  · rw [him] at h
    dsimp only at h
    rcases edit_result_shape l s page.p4 page.p3 page.p2
      (fun p1t =>
        if ¬ ((p1t page.p1).flags.valid = true) then
          (UnmapResult.err UnmapError.pageNotMapped, p1t)
        else (UnmapResult.ok (p1t page.p1).frame ⟨page⟩,
          updEntryT p1t page.p1 unusedEntry)) with he | ⟨tbl, st2, he⟩
    · rw [he] at h
      exact Res.noConfusion h
    · rw [he] at h
      dsimp only at h
      have hr : r = (if ¬ ((tbl page.p1).flags.valid = true)
          then (UnmapResult.err UnmapError.pageNotMapped, tbl)
          else (UnmapResult.ok (tbl page.p1).frame ⟨page⟩,
            updEntryT tbl page.p1 unusedEntry)).1 := by
        have h2 := congrArg (fun z => match z with
          | Res.crash => r
          | Res.done p => p.2) h
        dsimp only at h2
        exact h2.symm
      by_cases hu : ¬ ((tbl page.p1).flags.valid = true)
      · rw [if_pos hu] at hr
        exact Or.inl hr
      · rw [if_neg hu] at hr
        exact Or.inr ⟨_, _, hr⟩

end RecPT

namespace RecPT

theorem create_crash_reserved (l : Nat) (st : Machine) (a b c : Nat)
    (h : a = l ∨ a = l + 1) : create_p1_if_not_exist l st a b c = Res.crash := by
  unfold create_p1_if_not_exist
  rw [if_pos h]

theorem edit_crash_reserved {T : Type} (l : Nat) (st : Machine) (a b c : Nat)
    (g : (Nat → PTEntry) → T × (Nat → PTEntry))
    (h : a = l ∨ a = l + 1) : edit_p1 l st a b c g = Res.crash := by
  unfold edit_p1
  rw [if_pos h]

theorem is_mapped_crash_reserved (l : Nat) (st : Machine) (a b c d : Nat)
    (h : a = l ∨ a = l + 1) : is_mapped l st a b c d = Res.crash := by
  unfold is_mapped
  rw [if_pos h]

theorem edit_crash_unused4 {T : Type} (l : Nat) (st : Machine) (a b c : Nat)
    (g : (Nat → PTEntry) → T × (Nat → PTEntry))
    (ha : a ≠ l) (ha2 : a ≠ l + 1)
    (hA : (st.mem st.rootFrame a).isUnused) : edit_p1 l st a b c g = Res.crash := by
  unfold edit_p1
  rw [if_neg (by simp [ha, ha2]), if_pos hA]

theorem edit_crash_unused3 {T : Type} (l : Nat) (st : Machine) (a b c : Nat)
    (g : (Nat → PTEntry) → T × (Nat → PTEntry))
    (ha : a ≠ l) (ha2 : a ≠ l + 1)
    (hA : ¬ (st.mem st.rootFrame a).isUnused)
    (hB : (st.mem (st.p3f a) b).isUnused)
    (d1 : st.p3f a ≠ st.rootFrame) : edit_p1 l st a b c g = Res.crash := by
  unfold edit_p1
  rw [if_neg (by simp [ha, ha2]), if_neg hA]
  unfold editStep3
  rw [p3f_seqA]
  have e1 : (st.seqA a).mem (st.p3f a) b = st.mem (st.p3f a) b := by
    rw [mem_seqA, if_neg (fun h => d1 h.1)]
  rw [e1, if_pos hB]

theorem edit_crash_unused2 {T : Type} (l : Nat) (st : Machine) (a b c : Nat)
    (g : (Nat → PTEntry) → T × (Nat → PTEntry))
    (ha : a ≠ l) (ha2 : a ≠ l + 1)
    (hA : ¬ (st.mem st.rootFrame a).isUnused)
    (hB : ¬ (st.mem (st.p3f a) b).isUnused)
    (hC : (st.mem (st.p2f a b) c).isUnused)
    (d1 : st.p3f a ≠ st.rootFrame)
    (d2 : st.p2f a b ≠ st.rootFrame) (d3 : st.p2f a b ≠ st.p3f a) :
    edit_p1 l st a b c g = Res.crash := by
  unfold edit_p1
  rw [if_neg (by simp [ha, ha2]), if_neg hA]
  unfold editStep3
  rw [p3f_seqA]
  have e1 : (st.seqA a).mem (st.p3f a) b = st.mem (st.p3f a) b := by
    rw [mem_seqA, if_neg (fun h => d1 h.1)]
  rw [e1, if_neg hB]
  unfold editStep2
  rw [p2f_seqB, p2f_seqA]
  have e2 : ((st.seqA a).seqB a b).mem (st.p2f a b) c = st.mem (st.p2f a b) c := by
    rw [mem_seqAB st a b d1]
    simp [d2, d3]
  rw [e2, if_pos hC]

end RecPT

namespace RecPT

theorem chain_transport (st st' : Machine) (a b c i : Nat) (e : PTEntry)
    (hroot : st'.rootFrame = st.rootFrame)
    (hmem : ∀ x y, st'.mem x y = if x = st.p1f a b c ∧ y = i then e else st.mem x y)
    (d4 : st.p1f a b c ≠ st.rootFrame) (d5 : st.p1f a b c ≠ st.p3f a)
    (d6 : st.p1f a b c ≠ st.p2f a b) :
    st'.p3f a = st.p3f a ∧ st'.p2f a b = st.p2f a b ∧ st'.p1f a b c = st.p1f a b c ∧
    st'.mem st'.rootFrame a = st.mem st.rootFrame a ∧
    st'.mem (st'.p3f a) b = st.mem (st.p3f a) b ∧
    st'.mem (st'.p2f a b) c = st.mem (st.p2f a b) c ∧
    st'.mem (st'.p1f a b c) i = e := by
  have h3 : st'.p3f a = st.p3f a := by
    show (st'.mem st'.rootFrame a).frame = (st.mem st.rootFrame a).frame
    rw [hroot, hmem, if_neg (fun h => d4 h.1.symm)]
  have h2 : st'.p2f a b = st.p2f a b := by
    show (st'.mem (st'.p3f a) b).frame = (st.mem (st.p3f a) b).frame
    rw [h3, hmem, if_neg (fun h => d5 h.1.symm)]
  have h1 : st'.p1f a b c = st.p1f a b c := by
    show (st'.mem (st'.p2f a b) c).frame = (st.mem (st.p2f a b) c).frame
    rw [h2, hmem, if_neg (fun h => d6 h.1.symm)]
  refine ⟨h3, h2, h1, ?_, ?_, ?_, ?_⟩
  · rw [hroot, hmem, if_neg (fun h => d4 h.1.symm)]
  · rw [h3, hmem, if_neg (fun h => d5 h.1.symm)]
  · rw [h2, hmem, if_neg (fun h => d6 h.1.symm)]
  · rw [h1, hmem, if_pos ⟨rfl, rfl⟩]

theorem chain_transport_eq (st st' : Machine) (a b c : Nat)
    (hroot : st'.rootFrame = st.rootFrame) (hmem : st'.mem = st.mem) :
    st'.p3f a = st.p3f a ∧ st'.p2f a b = st.p2f a b ∧ st'.p1f a b c = st.p1f a b c := by
  have h3 : st'.p3f a = st.p3f a := by
    unfold Machine.p3f
    rw [hmem, hroot]
  have h2 : st'.p2f a b = st.p2f a b := by
    unfold Machine.p2f
    rw [hmem, h3]
  have h1 : st'.p1f a b c = st.p1f a b c := by
    unfold Machine.p1f
    rw [hmem, h2]
  exact ⟨h3, h2, h1⟩

end RecPT

namespace RecPT

theorem map_to_err (l : Nat) (st st1 : Machine) (page : Page) (fr : Nat) (fl : PTFlags)
    (e : MapToError)
    (hc : create_p1_if_not_exist l st page.p4 page.p3 page.p2 = Res.done (st1, some e)) :
    map_to l st page fr fl = Res.done (st1, MapResult.err e) := by
  unfold map_to
  rw [hc]

theorem map_to_alloc_ppu (l : Nat) (st : Machine) (page : Page) (fr f3 : Nat)
    (fl : PTFlags) (rest : List Nat)
    (ha : page.p4 ≠ l) (ha2 : page.p4 ≠ l + 1)
    (hA : ¬ (st.mem st.rootFrame page.p4).isUnused)
    (hB : ¬ (st.mem (st.p3f page.p4) page.p3).isUnused)
    (hC : (st.mem (st.p2f page.p4 page.p3) page.p2).isUnused)
    (cA : rwClear (st.mem st.rootFrame page.p4))
    (cB : rwClear (st.mem (st.p3f page.p4) page.p3))
    (d1 : st.p3f page.p4 ≠ st.rootFrame)
    (d2 : st.p2f page.p4 page.p3 ≠ st.rootFrame)
    (d3 : st.p2f page.p4 page.p3 ≠ st.p3f page.p4)
    (hf : st.freeFrames = f3 :: rest)
    (g1 : f3 ≠ st.rootFrame) (g2 : f3 ≠ st.p3f page.p4)
    (g3 : f3 ≠ st.p2f page.p4 page.p3) :
    ∃ st', map_to l st page fr fl = Res.done (st', MapResult.ok ⟨page⟩) ∧
      (∀ x y, st'.mem x y =
        if x = f3 ∧ y = page.p1 then (⟨fr, fl⟩ : PTEntry)
        else if x = f3 then unusedEntry
        else if x = st.p2f page.p4 page.p3 ∧ y = page.p2 then (⟨f3, validFlags⟩ : PTEntry)
        else st.mem x y) ∧
      st'.rootFrame = st.rootFrame ∧ st'.freeFrames = rest ∧ st'.tlb = [] ∧
      st'.events = st.events ++ List.replicate 28 FlushEvent.flushAll ∧
      st'.p3f page.p4 = st.p3f page.p4 ∧
      st'.p2f page.p4 page.p3 = st.p2f page.p4 page.p3 ∧
      st'.p1f page.p4 page.p3 page.p2 = f3 ∧
      st'.mem (st'.p1f page.p4 page.p3 page.p2) page.p1 = ⟨fr, fl⟩ := by
  obtain ⟨st1, hc, hm1, hr1, hf1, he1⟩ :=
    create_ppu l st page.p4 page.p3 page.p2 f3 rest ha ha2 hA hB hC cA cB d1 d2 d3
      hf g1 g2 g3
  have E4 : st1.mem st.rootFrame page.p4 = st.mem st.rootFrame page.p4 := by
    rw [hm1, if_neg (fun h => g1 h.symm), if_neg (fun h => d2 h.1.symm)]
  have hp3 : st1.p3f page.p4 = st.p3f page.p4 := by
    show (st1.mem st1.rootFrame page.p4).frame = _
    rw [hr1, E4]
    rfl
  have E3 : st1.mem (st.p3f page.p4) page.p3 = st.mem (st.p3f page.p4) page.p3 := by
    rw [hm1, if_neg (fun h => g2 h.symm), if_neg (fun h => d3 h.1.symm)]
  have hp2 : st1.p2f page.p4 page.p3 = st.p2f page.p4 page.p3 := by
    show (st1.mem (st1.p3f page.p4) page.p3).frame = _
    rw [hp3, E3]
    rfl
  have E2 : st1.mem (st.p2f page.p4 page.p3) page.p2 = ⟨f3, validFlags⟩ := by
    rw [hm1, if_neg (fun h => g3 h.symm), if_pos ⟨rfl, rfl⟩]
  have hp1 : st1.p1f page.p4 page.p3 page.p2 = f3 := by
    show (st1.mem (st1.p2f page.p4 page.p3) page.p2).frame = _
    rw [hp2, E2]
  have hA1 : ¬ (st1.mem st1.rootFrame page.p4).isUnused := by
    rw [hr1, E4]
    exact hA
  have hB1 : ¬ (st1.mem (st1.p3f page.p4) page.p3).isUnused := by
    rw [hp3, E3]
    exact hB
  have hC1 : ¬ (st1.mem (st1.p2f page.p4 page.p3) page.p2).isUnused := by
    rw [hp2, E2]
    exact fun h => unused_validFlags f3 h
  have cA1 : rwClear (st1.mem st1.rootFrame page.p4) := by
    rw [hr1, E4]
    exact cA
  have cB1 : rwClear (st1.mem (st1.p3f page.p4) page.p3) := by
    rw [hp3, E3]
    exact cB
  have cC1 : rwClear (st1.mem (st1.p2f page.p4 page.p3) page.p2) := by
    rw [hp2, E2]
    exact rwClear_validFlags f3
  have d1a : st1.p3f page.p4 ≠ st1.rootFrame := by
    rw [hp3, hr1]
    exact d1
  have d2a : st1.p2f page.p4 page.p3 ≠ st1.rootFrame := by
    rw [hp2, hr1]
    exact d2
  have d3a : st1.p2f page.p4 page.p3 ≠ st1.p3f page.p4 := by
    rw [hp2, hp3]
    exact d3
  have d4a : st1.p1f page.p4 page.p3 page.p2 ≠ st1.rootFrame := by
    rw [hp1, hr1]
    exact g1
  have d5a : st1.p1f page.p4 page.p3 page.p2 ≠ st1.p3f page.p4 := by
    rw [hp1, hp3]
    exact g2
  have d6a : st1.p1f page.p4 page.p3 page.p2 ≠ st1.p2f page.p4 page.p3 := by
    rw [hp1, hp2]
    exact g3
  unfold map_to
  rw [hc]
  dsimp only
  obtain ⟨st2, hed, hm2, hr2, hf2, ht2, he2⟩ := edit_exact l st1 page.p4 page.p3 page.p2
    (fun p1t =>
      if ¬ (p1t page.p1).isUnused then (MapResult.err MapToError.pageAlreadyMapped, p1t)
      else (MapResult.ok ⟨page⟩, updEntryT p1t page.p1 ⟨fr, fl⟩))
    ha ha2 hA1 hB1 hC1 cA1 cB1 cC1 d1a d2a d3a d4a d5a d6a
  rw [hed]
  dsimp only
  have hL1 : (st1.mem (st1.p1f page.p4 page.p3 page.p2) page.p1).isUnused := by
    rw [hp1, hm1, if_pos rfl]
    rfl
  rw [if_neg (fun hcon => hcon hL1)] at hm2 ⊢
  have Hmem : ∀ x y, st2.mem x y =
      if x = f3 ∧ y = page.p1 then (⟨fr, fl⟩ : PTEntry)
      else if x = f3 then unusedEntry
      else if x = st.p2f page.p4 page.p3 ∧ y = page.p2 then (⟨f3, validFlags⟩ : PTEntry)
      else st.mem x y := by
    intro x y
    rw [hm2]
    dsimp only
    rw [hp1]
    by_cases hx : x = f3
    · rw [if_pos hx]
      unfold updEntryT
      by_cases hy : y = page.p1
      · rw [if_pos hy, if_pos ⟨hx, hy⟩]
      · rw [if_neg hy, hm1, if_pos rfl, if_neg (fun h => hy h.2), if_pos hx]
    · rw [if_neg hx, if_neg (fun h => hx h.1), hm1, if_neg hx]
  have hr' : st2.rootFrame = st.rootFrame := hr2.trans hr1
  have F4 : st2.mem st.rootFrame page.p4 = st.mem st.rootFrame page.p4 := by
    rw [Hmem, if_neg (fun h => g1 h.1.symm), if_neg (fun h => g1 h.symm),
      if_neg (fun h => d2 h.1.symm)]
  have q3 : st2.p3f page.p4 = st.p3f page.p4 := by
    show (st2.mem st2.rootFrame page.p4).frame = _
    rw [hr', F4]
    rfl
  have F3 : st2.mem (st.p3f page.p4) page.p3 = st.mem (st.p3f page.p4) page.p3 := by
    rw [Hmem, if_neg (fun h => g2 h.1.symm), if_neg (fun h => g2 h.symm),
      if_neg (fun h => d3 h.1.symm)]
  have q2 : st2.p2f page.p4 page.p3 = st.p2f page.p4 page.p3 := by
    show (st2.mem (st2.p3f page.p4) page.p3).frame = _
    rw [q3, F3]
    rfl
  have F2 : st2.mem (st.p2f page.p4 page.p3) page.p2 = ⟨f3, validFlags⟩ := by
    rw [Hmem, if_neg (fun h => g3 h.1.symm), if_neg (fun h => g3 h.symm),
      if_pos ⟨rfl, rfl⟩]
  have q1 : st2.p1f page.p4 page.p3 page.p2 = f3 := by
    show (st2.mem (st2.p2f page.p4 page.p3) page.p2).frame = _
    rw [q2, F2]
  refine ⟨st2, rfl, Hmem, hr', hf2.trans hf1, ht2, ?_, q3, q2, q1, ?_⟩
  · rw [he2, he1, rep_app]
  · rw [q1, Hmem, if_pos ⟨rfl, rfl⟩]

theorem map_to_alloc_puu (l : Nat) (st : Machine) (page : Page) (fr f2 f3 : Nat)
    (fl : PTFlags) (rest : List Nat)
    (ha : page.p4 ≠ l) (ha2 : page.p4 ≠ l + 1)
    (hA : ¬ (st.mem st.rootFrame page.p4).isUnused)
    (hB : (st.mem (st.p3f page.p4) page.p3).isUnused)
    (cA : rwClear (st.mem st.rootFrame page.p4))
    (d1 : st.p3f page.p4 ≠ st.rootFrame)
    (hf : st.freeFrames = f2 :: f3 :: rest)
    (ga1 : f2 ≠ st.rootFrame) (ga2 : f2 ≠ st.p3f page.p4)
    (gb1 : f3 ≠ st.rootFrame) (gb2 : f3 ≠ st.p3f page.p4) (gb3 : f3 ≠ f2) :
    ∃ st', map_to l st page fr fl = Res.done (st', MapResult.ok ⟨page⟩) ∧
      (∀ x y, st'.mem x y =
        if x = f3 ∧ y = page.p1 then (⟨fr, fl⟩ : PTEntry)
        else if x = f3 then unusedEntry
        else if x = f2 ∧ y = page.p2 then (⟨f3, validFlags⟩ : PTEntry)
        else if x = f2 then unusedEntry
        else if x = st.p3f page.p4 ∧ y = page.p3 then (⟨f2, validFlags⟩ : PTEntry)
        else st.mem x y) ∧
      st'.rootFrame = st.rootFrame ∧ st'.freeFrames = rest ∧ st'.tlb = [] ∧
      st'.events = st.events ++ List.replicate 28 FlushEvent.flushAll ∧
      st'.p3f page.p4 = st.p3f page.p4 ∧
      st'.p2f page.p4 page.p3 = f2 ∧
      st'.p1f page.p4 page.p3 page.p2 = f3 ∧
      st'.mem (st'.p1f page.p4 page.p3 page.p2) page.p1 = ⟨fr, fl⟩ := by
  obtain ⟨st1, hc, hm1, hr1, hf1, he1⟩ :=
    create_puu l st page.p4 page.p3 page.p2 f2 f3 rest ha ha2 hA hB cA d1 hf
      ga1 ga2 gb1 gb2 gb3
  have E4 : st1.mem st.rootFrame page.p4 = st.mem st.rootFrame page.p4 := by
    rw [hm1, if_neg (fun h => gb1 h.symm), if_neg (fun h => ga1 h.1.symm),
      if_neg (fun h => ga1 h.symm), if_neg (fun h => d1 h.1.symm)]
  have hp3 : st1.p3f page.p4 = st.p3f page.p4 := by
    show (st1.mem st1.rootFrame page.p4).frame = _
    rw [hr1, E4]
    rfl
  have E3 : st1.mem (st.p3f page.p4) page.p3 = ⟨f2, validFlags⟩ := by
    rw [hm1, if_neg (fun h => gb2 h.symm), if_neg (fun h => ga2 h.1.symm),
      if_neg (fun h => ga2 h.symm), if_pos ⟨rfl, rfl⟩]
  have hp2 : st1.p2f page.p4 page.p3 = f2 := by
    show (st1.mem (st1.p3f page.p4) page.p3).frame = _
    rw [hp3, E3]
  have E2 : st1.mem f2 page.p2 = ⟨f3, validFlags⟩ := by
    rw [hm1, if_neg (fun h => gb3 h.symm), if_pos ⟨rfl, rfl⟩]
  have hp1 : st1.p1f page.p4 page.p3 page.p2 = f3 := by
    show (st1.mem (st1.p2f page.p4 page.p3) page.p2).frame = _
    rw [hp2, E2]
  have hA1 : ¬ (st1.mem st1.rootFrame page.p4).isUnused := by
    rw [hr1, E4]
    exact hA
  have hB1 : ¬ (st1.mem (st1.p3f page.p4) page.p3).isUnused := by
    rw [hp3, E3]
    exact fun h => unused_validFlags f2 h
  have hC1 : ¬ (st1.mem (st1.p2f page.p4 page.p3) page.p2).isUnused := by
    rw [hp2, E2]
    exact fun h => unused_validFlags f3 h
  have cA1 : rwClear (st1.mem st1.rootFrame page.p4) := by
    rw [hr1, E4]
    exact cA
  have cB1 : rwClear (st1.mem (st1.p3f page.p4) page.p3) := by
    rw [hp3, E3]
    exact rwClear_validFlags f2
  have cC1 : rwClear (st1.mem (st1.p2f page.p4 page.p3) page.p2) := by
    rw [hp2, E2]
    exact rwClear_validFlags f3
  have d1a : st1.p3f page.p4 ≠ st1.rootFrame := by
    rw [hp3, hr1]
    exact d1
  have d2a : st1.p2f page.p4 page.p3 ≠ st1.rootFrame := by
    rw [hp2, hr1]
    exact ga1
  have d3a : st1.p2f page.p4 page.p3 ≠ st1.p3f page.p4 := by
    rw [hp2, hp3]
    exact ga2
  have d4a : st1.p1f page.p4 page.p3 page.p2 ≠ st1.rootFrame := by
    rw [hp1, hr1]
    exact gb1
  have d5a : st1.p1f page.p4 page.p3 page.p2 ≠ st1.p3f page.p4 := by
    rw [hp1, hp3]
    exact gb2
  have d6a : st1.p1f page.p4 page.p3 page.p2 ≠ st1.p2f page.p4 page.p3 := by
    rw [hp1, hp2]
    exact gb3
  unfold map_to
  rw [hc]
  dsimp only
  obtain ⟨st2, hed, hm2, hr2, hf2, ht2, he2⟩ := edit_exact l st1 page.p4 page.p3 page.p2
    (fun p1t =>
      if ¬ (p1t page.p1).isUnused then (MapResult.err MapToError.pageAlreadyMapped, p1t)
      else (MapResult.ok ⟨page⟩, updEntryT p1t page.p1 ⟨fr, fl⟩))
    ha ha2 hA1 hB1 hC1 cA1 cB1 cC1 d1a d2a d3a d4a d5a d6a
  rw [hed]
  dsimp only
  have hL1 : (st1.mem (st1.p1f page.p4 page.p3 page.p2) page.p1).isUnused := by
    rw [hp1, hm1, if_pos rfl]
    rfl
  rw [if_neg (fun hcon => hcon hL1)] at hm2 ⊢
  have Hmem : ∀ x y, st2.mem x y =
      if x = f3 ∧ y = page.p1 then (⟨fr, fl⟩ : PTEntry)
      else if x = f3 then unusedEntry
      else if x = f2 ∧ y = page.p2 then (⟨f3, validFlags⟩ : PTEntry)
      else if x = f2 then unusedEntry
      else if x = st.p3f page.p4 ∧ y = page.p3 then (⟨f2, validFlags⟩ : PTEntry)
      else st.mem x y := by
    intro x y
    rw [hm2]
    dsimp only
    rw [hp1]
    by_cases hx : x = f3
    · rw [if_pos hx]
      unfold updEntryT
      by_cases hy : y = page.p1
      · rw [if_pos hy, if_pos ⟨hx, hy⟩]
      · rw [if_neg hy, hm1, if_pos rfl, if_neg (fun h => hy h.2), if_pos hx]
    · rw [if_neg hx, if_neg (fun h => hx h.1), hm1, if_neg hx]
  have hr' : st2.rootFrame = st.rootFrame := hr2.trans hr1
  have F4 : st2.mem st.rootFrame page.p4 = st.mem st.rootFrame page.p4 := by
    rw [Hmem, if_neg (fun h => gb1 h.1.symm), if_neg (fun h => gb1 h.symm),
      if_neg (fun h => ga1 h.1.symm), if_neg (fun h => ga1 h.symm),
      if_neg (fun h => d1 h.1.symm)]
  have q3 : st2.p3f page.p4 = st.p3f page.p4 := by
    show (st2.mem st2.rootFrame page.p4).frame = _
    rw [hr', F4]
    rfl
  have F3 : st2.mem (st.p3f page.p4) page.p3 = ⟨f2, validFlags⟩ := by
    rw [Hmem, if_neg (fun h => gb2 h.1.symm), if_neg (fun h => gb2 h.symm),
      if_neg (fun h => ga2 h.1.symm), if_neg (fun h => ga2 h.symm),
      if_pos ⟨rfl, rfl⟩]
  have q2 : st2.p2f page.p4 page.p3 = f2 := by
    show (st2.mem (st2.p3f page.p4) page.p3).frame = _
    rw [q3, F3]
  have F2 : st2.mem f2 page.p2 = ⟨f3, validFlags⟩ := by
    rw [Hmem, if_neg (fun h => gb3 h.1.symm), if_neg (fun h => gb3 h.symm),
      if_pos ⟨rfl, rfl⟩]
  have q1 : st2.p1f page.p4 page.p3 page.p2 = f3 := by
    show (st2.mem (st2.p2f page.p4 page.p3) page.p2).frame = _
    rw [q2, F2]
  refine ⟨st2, rfl, Hmem, hr', hf2.trans hf1, ht2, ?_, q3, q2, q1, ?_⟩
  · rw [he2, he1, rep_app]
  · rw [q1, Hmem, if_pos ⟨rfl, rfl⟩]

theorem map_to_alloc_uuu (l : Nat) (st : Machine) (page : Page) (fr f1 f2 f3 : Nat)
    (fl : PTFlags) (rest : List Nat)
    (ha : page.p4 ≠ l) (ha2 : page.p4 ≠ l + 1)
    (hA : (st.mem st.rootFrame page.p4).isUnused)
    (hf : st.freeFrames = f1 :: f2 :: f3 :: rest)
    (g1 : f1 ≠ st.rootFrame)
    (g2 : f2 ≠ st.rootFrame) (g3 : f2 ≠ f1)
    (g4 : f3 ≠ st.rootFrame) (g5 : f3 ≠ f1) (g6 : f3 ≠ f2) :
    ∃ st', map_to l st page fr fl = Res.done (st', MapResult.ok ⟨page⟩) ∧
      (∀ x y, st'.mem x y =
        if x = f3 ∧ y = page.p1 then (⟨fr, fl⟩ : PTEntry)
        else if x = f3 then unusedEntry
        else if x = f2 ∧ y = page.p2 then (⟨f3, validFlags⟩ : PTEntry)
        else if x = f2 then unusedEntry
        else if x = f1 ∧ y = page.p3 then (⟨f2, validFlags⟩ : PTEntry)
        else if x = f1 then unusedEntry
        else if x = st.rootFrame ∧ y = page.p4 then (⟨f1, validFlags⟩ : PTEntry)
        else st.mem x y) ∧
      st'.rootFrame = st.rootFrame ∧ st'.freeFrames = rest ∧ st'.tlb = [] ∧
      st'.events = st.events ++ List.replicate 29 FlushEvent.flushAll ∧
      st'.p3f page.p4 = f1 ∧
      st'.p2f page.p4 page.p3 = f2 ∧
      st'.p1f page.p4 page.p3 page.p2 = f3 ∧
      st'.mem (st'.p1f page.p4 page.p3 page.p2) page.p1 = ⟨fr, fl⟩ := by
  obtain ⟨st1, hc, hm1, hr1, hf1, he1⟩ :=
    create_uuu l st page.p4 page.p3 page.p2 f1 f2 f3 rest ha ha2 hA hf g1 g2 g3 g4 g5 g6
  have E4 : st1.mem st.rootFrame page.p4 = ⟨f1, validFlags⟩ := by
    rw [hm1, if_neg (fun h => g4 h.symm), if_neg (fun h => g2 h.1.symm),
      if_neg (fun h => g2 h.symm), if_neg (fun h => g1 h.1.symm),
      if_neg (fun h => g1 h.symm), if_pos ⟨rfl, rfl⟩]
  have hp3 : st1.p3f page.p4 = f1 := by
    show (st1.mem st1.rootFrame page.p4).frame = _
    rw [hr1, E4]
  have E3 : st1.mem f1 page.p3 = ⟨f2, validFlags⟩ := by
    rw [hm1, if_neg (fun h => g5 h.symm), if_neg (fun h => g3 h.1.symm),
      if_neg (fun h => g3 h.symm), if_pos ⟨rfl, rfl⟩]
  have hp2 : st1.p2f page.p4 page.p3 = f2 := by
    show (st1.mem (st1.p3f page.p4) page.p3).frame = _
    rw [hp3, E3]
  have E2 : st1.mem f2 page.p2 = ⟨f3, validFlags⟩ := by
    rw [hm1, if_neg (fun h => g6 h.symm), if_pos ⟨rfl, rfl⟩]
  have hp1 : st1.p1f page.p4 page.p3 page.p2 = f3 := by
    show (st1.mem (st1.p2f page.p4 page.p3) page.p2).frame = _
    rw [hp2, E2]
  have hA1 : ¬ (st1.mem st1.rootFrame page.p4).isUnused := by
    rw [hr1, E4]
    exact fun h => unused_validFlags f1 h
  have hB1 : ¬ (st1.mem (st1.p3f page.p4) page.p3).isUnused := by
    rw [hp3, E3]
    exact fun h => unused_validFlags f2 h
  have hC1 : ¬ (st1.mem (st1.p2f page.p4 page.p3) page.p2).isUnused := by
    rw [hp2, E2]
    exact fun h => unused_validFlags f3 h
  have cA1 : rwClear (st1.mem st1.rootFrame page.p4) := by
    rw [hr1, E4]
    exact rwClear_validFlags f1
  have cB1 : rwClear (st1.mem (st1.p3f page.p4) page.p3) := by
    rw [hp3, E3]
    exact rwClear_validFlags f2
  have cC1 : rwClear (st1.mem (st1.p2f page.p4 page.p3) page.p2) := by
    rw [hp2, E2]
    exact rwClear_validFlags f3
  have d1a : st1.p3f page.p4 ≠ st1.rootFrame := by
    rw [hp3, hr1]
    exact g1
  have d2a : st1.p2f page.p4 page.p3 ≠ st1.rootFrame := by
    rw [hp2, hr1]
    exact g2
  have d3a : st1.p2f page.p4 page.p3 ≠ st1.p3f page.p4 := by
    rw [hp2, hp3]
    exact g3
  have d4a : st1.p1f page.p4 page.p3 page.p2 ≠ st1.rootFrame := by
    rw [hp1, hr1]
    exact g4
  have d5a : st1.p1f page.p4 page.p3 page.p2 ≠ st1.p3f page.p4 := by
    rw [hp1, hp3]
    exact g5
  have d6a : st1.p1f page.p4 page.p3 page.p2 ≠ st1.p2f page.p4 page.p3 := by
    rw [hp1, hp2]
    exact g6
  unfold map_to
  rw [hc]
  dsimp only
  obtain ⟨st2, hed, hm2, hr2, hf2, ht2, he2⟩ := edit_exact l st1 page.p4 page.p3 page.p2
    (fun p1t =>
      if ¬ (p1t page.p1).isUnused then (MapResult.err MapToError.pageAlreadyMapped, p1t)
      else (MapResult.ok ⟨page⟩, updEntryT p1t page.p1 ⟨fr, fl⟩))
    ha ha2 hA1 hB1 hC1 cA1 cB1 cC1 d1a d2a d3a d4a d5a d6a
  rw [hed]
  dsimp only
  have hL1 : (st1.mem (st1.p1f page.p4 page.p3 page.p2) page.p1).isUnused := by
    rw [hp1, hm1, if_pos rfl]
    rfl
  rw [if_neg (fun hcon => hcon hL1)] at hm2 ⊢
  have Hmem : ∀ x y, st2.mem x y =
      if x = f3 ∧ y = page.p1 then (⟨fr, fl⟩ : PTEntry)
      else if x = f3 then unusedEntry
      else if x = f2 ∧ y = page.p2 then (⟨f3, validFlags⟩ : PTEntry)
      else if x = f2 then unusedEntry
      else if x = f1 ∧ y = page.p3 then (⟨f2, validFlags⟩ : PTEntry)
      else if x = f1 then unusedEntry
      else if x = st.rootFrame ∧ y = page.p4 then (⟨f1, validFlags⟩ : PTEntry)
      else st.mem x y := by
    intro x y
    rw [hm2]
    dsimp only
    rw [hp1]
    by_cases hx : x = f3
    · rw [if_pos hx]
      unfold updEntryT
      by_cases hy : y = page.p1
      · rw [if_pos hy, if_pos ⟨hx, hy⟩]
      · rw [if_neg hy, hm1, if_pos rfl, if_neg (fun h => hy h.2), if_pos hx]
    · rw [if_neg hx, if_neg (fun h => hx h.1), hm1, if_neg hx]
  have hr' : st2.rootFrame = st.rootFrame := hr2.trans hr1
  have F4 : st2.mem st.rootFrame page.p4 = ⟨f1, validFlags⟩ := by
    rw [Hmem, if_neg (fun h => g4 h.1.symm), if_neg (fun h => g4 h.symm),
      if_neg (fun h => g2 h.1.symm), if_neg (fun h => g2 h.symm),
      if_neg (fun h => g1 h.1.symm), if_neg (fun h => g1 h.symm), if_pos ⟨rfl, rfl⟩]
  have q3 : st2.p3f page.p4 = f1 := by
    show (st2.mem st2.rootFrame page.p4).frame = _
    rw [hr', F4]
  have F3 : st2.mem f1 page.p3 = ⟨f2, validFlags⟩ := by
    rw [Hmem, if_neg (fun h => g5 h.1.symm), if_neg (fun h => g5 h.symm),
      if_neg (fun h => g3 h.1.symm), if_neg (fun h => g3 h.symm), if_pos ⟨rfl, rfl⟩]
  have q2 : st2.p2f page.p4 page.p3 = f2 := by
    show (st2.mem (st2.p3f page.p4) page.p3).frame = _
    rw [q3, F3]
  have F2 : st2.mem f2 page.p2 = ⟨f3, validFlags⟩ := by
    rw [Hmem, if_neg (fun h => g6 h.1.symm), if_neg (fun h => g6 h.symm),
      if_pos ⟨rfl, rfl⟩]
  have q1 : st2.p1f page.p4 page.p3 page.p2 = f3 := by
    show (st2.mem (st2.p2f page.p4 page.p3) page.p2).frame = _
    rw [q2, F2]
  refine ⟨st2, rfl, Hmem, hr', hf2.trans hf1, ht2, ?_, q3, q2, q1, ?_⟩
  · rw [he2, he1, rep_app]
  · rw [q1, Hmem, if_pos ⟨rfl, rfl⟩]

end RecPT

namespace RecPT

theorem roundtrip_tail (l : Nat) (st1 : Machine) (page : Page) (fr : Nat) (fl : PTFlags)
    (ha : page.p4 ≠ l) (ha2 : page.p4 ≠ l + 1)
    (hA1 : ¬ (st1.mem st1.rootFrame page.p4).isUnused)
    (hB1 : ¬ (st1.mem (st1.p3f page.p4) page.p3).isUnused)
    (hC1 : ¬ (st1.mem (st1.p2f page.p4 page.p3) page.p2).isUnused)
    (cA1 : rwClear (st1.mem st1.rootFrame page.p4))
    (cB1 : rwClear (st1.mem (st1.p3f page.p4) page.p3))
    (cC1 : rwClear (st1.mem (st1.p2f page.p4 page.p3) page.p2))
    (d1a : st1.p3f page.p4 ≠ st1.rootFrame)
    (d2a : st1.p2f page.p4 page.p3 ≠ st1.rootFrame)
    (d3a : st1.p2f page.p4 page.p3 ≠ st1.p3f page.p4)
    (d4a : st1.p1f page.p4 page.p3 page.p2 ≠ st1.rootFrame)
    (d5a : st1.p1f page.p4 page.p3 page.p2 ≠ st1.p3f page.p4)
    (d6a : st1.p1f page.p4 page.p3 page.p2 ≠ st1.p2f page.p4 page.p3)
    (hleaf : st1.mem (st1.p1f page.p4 page.p3 page.p2) page.p1 = ⟨fr, fl⟩)
    (hv : fl.valid = true) :
    ∃ st2 st3 st4,
      translate_page l st1 page = Res.done (st2, some fr) ∧
      unmap l st2 page = Res.done (st3, UnmapResult.ok fr ⟨page⟩) ∧
      translate_page l st3 page = Res.done (st4, none) := by
  have hL1 : ¬ (st1.mem (st1.p1f page.p4 page.p3 page.p2) page.p1).isUnused := by
    rw [hleaf]
    exact not_unused_of_valid _ hv
  obtain ⟨st2, h2, hm2, hr2, hf2, ht2, he2⟩ :=
    translate_some l st1 page ha ha2 hA1 hB1 hC1 cA1 cB1 cC1 d1a d2a d3a d4a d5a d6a hL1
  rw [hleaf, frame_mk] at h2
  obtain ⟨u3, u2, u1⟩ := chain_transport_eq st1 st2 page.p4 page.p3 page.p2 hr2 hm2
  have hA2 : ¬ (st2.mem st2.rootFrame page.p4).isUnused := by
    rw [hm2, hr2]
    exact hA1
  have hB2 : ¬ (st2.mem (st2.p3f page.p4) page.p3).isUnused := by
    rw [hm2, u3]
    exact hB1
  have hC2 : ¬ (st2.mem (st2.p2f page.p4 page.p3) page.p2).isUnused := by
    rw [hm2, u2]
    exact hC1
  have cA2 : rwClear (st2.mem st2.rootFrame page.p4) := by
    rw [hm2, hr2]
    exact cA1
  have cB2 : rwClear (st2.mem (st2.p3f page.p4) page.p3) := by
    rw [hm2, u3]
    exact cB1
  have cC2 : rwClear (st2.mem (st2.p2f page.p4 page.p3) page.p2) := by
    rw [hm2, u2]
    exact cC1
  have d1b : st2.p3f page.p4 ≠ st2.rootFrame := by
    rw [u3, hr2]
    exact d1a
  have d2b : st2.p2f page.p4 page.p3 ≠ st2.rootFrame := by
    rw [u2, hr2]
    exact d2a
  have d3b : st2.p2f page.p4 page.p3 ≠ st2.p3f page.p4 := by
    rw [u2, u3]
    exact d3a
  have d4b : st2.p1f page.p4 page.p3 page.p2 ≠ st2.rootFrame := by
    rw [u1, hr2]
    exact d4a
  have d5b : st2.p1f page.p4 page.p3 page.p2 ≠ st2.p3f page.p4 := by
    rw [u1, u3]
    exact d5a
  have d6b : st2.p1f page.p4 page.p3 page.p2 ≠ st2.p2f page.p4 page.p3 := by
    rw [u1, u2]
    exact d6a
  have hv2 : (st2.mem (st2.p1f page.p4 page.p3 page.p2) page.p1).flags.valid = true := by
    rw [hm2, u1, hleaf]
    exact hv
  obtain ⟨st3, h3, hm3, hr3, hf3, ht3, he3⟩ :=
    unmap_mapped l st2 page ha ha2 hA2 hB2 hC2 cA2 cB2 cC2 d1b d2b d3b d4b d5b d6b hv2
  have hval2 : st2.mem (st2.p1f page.p4 page.p3 page.p2) page.p1 = ⟨fr, fl⟩ := by
    rw [hm2, u1, hleaf]
  rw [hval2, frame_mk] at h3
  obtain ⟨v3, v2, v1, G4, G3, G2, eL3⟩ :=
    chain_transport st2 st3 page.p4 page.p3 page.p2 page.p1 unusedEntry hr3 hm3
      d4b d5b d6b
  have cA3 : rwClear (st3.mem st3.rootFrame page.p4) := by
    rw [G4]
    exact cA2
  have cB3 : rwClear (st3.mem (st3.p3f page.p4) page.p3) := by
    rw [G3]
    exact cB2
  have cC3 : rwClear (st3.mem (st3.p2f page.p4 page.p3) page.p2) := by
    rw [G2]
    exact cC2
  have d1c : st3.p3f page.p4 ≠ st3.rootFrame := by
    rw [v3, hr3]
    exact d1b
  have d2c : st3.p2f page.p4 page.p3 ≠ st3.rootFrame := by
    rw [v2, hr3]
    exact d2b
  have d3c : st3.p2f page.p4 page.p3 ≠ st3.p3f page.p4 := by
    rw [v2, v3]
    exact d3b
  have d4c : st3.p1f page.p4 page.p3 page.p2 ≠ st3.rootFrame := by
    rw [v1, hr3]
    exact d4b
  have d5c : st3.p1f page.p4 page.p3 page.p2 ≠ st3.p3f page.p4 := by
    rw [v1, v3]
    exact d5b
  have d6c : st3.p1f page.p4 page.p3 page.p2 ≠ st3.p2f page.p4 page.p3 := by
    rw [v1, v2]
    exact d6b
  have hL3 : (st3.mem (st3.p1f page.p4 page.p3 page.p2) page.p1).isUnused := by
    rw [eL3]
    rfl
  obtain ⟨st4, h4, _, _, _⟩ :=
    translate_none l st3 page ha ha2 cA3 cB3 cC3 d1c d2c d3c d4c d5c d6c
      (Or.inr (Or.inr (Or.inr hL3)))
  exact ⟨st2, st3, st4, h2, h3, h4⟩

end RecPT

namespace RecPT

theorem is_mapped_rwsafe (l : Nat) (st : Machine) (a b c d : Nat)
    (ha : a ≠ l) (ha2 : a ≠ l + 1)
    (w1 : ¬ (st.mem st.rootFrame a).isUnused →
      rwClear (st.mem st.rootFrame a) ∧ st.p3f a ≠ st.rootFrame)
    (w2 : ¬ (st.mem st.rootFrame a).isUnused →
      ¬ (st.mem (st.p3f a) b).isUnused →
      rwClear (st.mem (st.p3f a) b)
      ∧ st.p2f a b ≠ st.rootFrame ∧ st.p2f a b ≠ st.p3f a)
    (w3 : ¬ (st.mem st.rootFrame a).isUnused →
      ¬ (st.mem (st.p3f a) b).isUnused →
      ¬ (st.mem (st.p2f a b) c).isUnused →
      rwClear (st.mem (st.p2f a b) c)
      ∧ st.p1f a b c ≠ st.rootFrame ∧ st.p1f a b c ≠ st.p3f a
      ∧ st.p1f a b c ≠ st.p2f a b) :
    ∃ st' r, is_mapped l st a b c d = Res.done (st', r) ∧ st'.mem = st.mem := by
  by_cases hAu : (st.mem st.rootFrame a).isUnused
  · exact ⟨st, false, is_mapped_unused4 l st a b c d ha ha2 hAu, rfl⟩
  · by_cases hBu : (st.mem (st.p3f a) b).isUnused
    · obtain ⟨st', him, hm, _, _, _⟩ :=
        is_mapped_unused3 l st a b c d ha ha2 hAu hBu (w1 hAu).1 (w1 hAu).2
      exact ⟨st', false, him, hm⟩
    · by_cases hCu : (st.mem (st.p2f a b) c).isUnused
      · obtain ⟨st', him, hm, _, _, _⟩ :=
          is_mapped_unused2 l st a b c d ha ha2 hAu hBu hCu (w1 hAu).1 (w2 hAu hBu).1
            (w1 hAu).2 (w2 hAu hBu).2.1 (w2 hAu hBu).2.2
        exact ⟨st', false, him, hm⟩
      · obtain ⟨st', him, hm, _, _, _, _⟩ :=
          is_mapped_exact l st a b c d ha ha2 hAu hBu hCu (w1 hAu).1 (w2 hAu hBu).1
            (w3 hAu hBu hCu).1 (w1 hAu).2 (w2 hAu hBu).2.1 (w2 hAu hBu).2.2
            (w3 hAu hBu hCu).2.1 (w3 hAu hBu hCu).2.2.1 (w3 hAu hBu hCu).2.2.2
        exact ⟨st', _, him, hm⟩

theorem translate_rwsafe (l : Nat) (st : Machine) (page : Page)
    (ha : page.p4 ≠ l) (ha2 : page.p4 ≠ l + 1)
    (w1 : ¬ (st.mem st.rootFrame page.p4).isUnused →
      rwClear (st.mem st.rootFrame page.p4) ∧ st.p3f page.p4 ≠ st.rootFrame)
    (w2 : ¬ (st.mem st.rootFrame page.p4).isUnused →
      ¬ (st.mem (st.p3f page.p4) page.p3).isUnused →
      rwClear (st.mem (st.p3f page.p4) page.p3)
      ∧ st.p2f page.p4 page.p3 ≠ st.rootFrame
      ∧ st.p2f page.p4 page.p3 ≠ st.p3f page.p4)
    (w3 : ¬ (st.mem st.rootFrame page.p4).isUnused →
      ¬ (st.mem (st.p3f page.p4) page.p3).isUnused →
      ¬ (st.mem (st.p2f page.p4 page.p3) page.p2).isUnused →
      rwClear (st.mem (st.p2f page.p4 page.p3) page.p2)
      ∧ st.p1f page.p4 page.p3 page.p2 ≠ st.rootFrame
      ∧ st.p1f page.p4 page.p3 page.p2 ≠ st.p3f page.p4
      ∧ st.p1f page.p4 page.p3 page.p2 ≠ st.p2f page.p4 page.p3) :
    ∃ st' r, translate_page l st page = Res.done (st', r) ∧ st'.mem = st.mem := by
  by_cases hAu : (st.mem st.rootFrame page.p4).isUnused
  · have him := is_mapped_unused4 l st page.p4 page.p3 page.p2 page.p1 ha ha2 hAu
    unfold translate_page
    rw [him]
    exact ⟨st, none, rfl, rfl⟩
  · by_cases hBu : (st.mem (st.p3f page.p4) page.p3).isUnused
    · obtain ⟨st', him, hm, _, _, _⟩ :=
        is_mapped_unused3 l st page.p4 page.p3 page.p2 page.p1 ha ha2 hAu hBu
          (w1 hAu).1 (w1 hAu).2
      unfold translate_page
      rw [him]
      exact ⟨st', none, rfl, hm⟩
    · by_cases hCu : (st.mem (st.p2f page.p4 page.p3) page.p2).isUnused
      · obtain ⟨st', him, hm, _, _, _⟩ :=
          is_mapped_unused2 l st page.p4 page.p3 page.p2 page.p1 ha ha2 hAu hBu hCu
            (w1 hAu).1 (w2 hAu hBu).1 (w1 hAu).2 (w2 hAu hBu).2.1 (w2 hAu hBu).2.2
        unfold translate_page
        rw [him]
        exact ⟨st', none, rfl, hm⟩
      · by_cases hL : (st.mem (st.p1f page.p4 page.p3 page.p2) page.p1).isUnused
        · obtain ⟨st', heq, hm, _, _⟩ :=
            translate_none l st page ha ha2 (w1 hAu).1 (w2 hAu hBu).1 (w3 hAu hBu hCu).1
              (w1 hAu).2 (w2 hAu hBu).2.1 (w2 hAu hBu).2.2 (w3 hAu hBu hCu).2.1
              (w3 hAu hBu hCu).2.2.1 (w3 hAu hBu hCu).2.2.2
              (Or.inr (Or.inr (Or.inr hL)))
          exact ⟨st', none, heq, hm⟩
        · obtain ⟨st', heq, hm, _, _, _, _⟩ :=
            translate_some l st page ha ha2 hAu hBu hCu (w1 hAu).1 (w2 hAu hBu).1
              (w3 hAu hBu hCu).1 (w1 hAu).2 (w2 hAu hBu).2.1 (w2 hAu hBu).2.2
              (w3 hAu hBu hCu).2.1 (w3 hAu hBu hCu).2.2.1 (w3 hAu hBu hCu).2.2.2 hL
          exact ⟨st', _, heq, hm⟩

theorem unmap_rwsafe (l : Nat) (st : Machine) (page : Page)
    (ha : page.p4 ≠ l) (ha2 : page.p4 ≠ l + 1)
    (w1 : ¬ (st.mem st.rootFrame page.p4).isUnused →
      rwClear (st.mem st.rootFrame page.p4) ∧ st.p3f page.p4 ≠ st.rootFrame)
    (w2 : ¬ (st.mem st.rootFrame page.p4).isUnused →
      ¬ (st.mem (st.p3f page.p4) page.p3).isUnused →
      rwClear (st.mem (st.p3f page.p4) page.p3)
      ∧ st.p2f page.p4 page.p3 ≠ st.rootFrame
      ∧ st.p2f page.p4 page.p3 ≠ st.p3f page.p4)
    (w3 : ¬ (st.mem st.rootFrame page.p4).isUnused →
      ¬ (st.mem (st.p3f page.p4) page.p3).isUnused →
      ¬ (st.mem (st.p2f page.p4 page.p3) page.p2).isUnused →
      rwClear (st.mem (st.p2f page.p4 page.p3) page.p2)
      ∧ st.p1f page.p4 page.p3 page.p2 ≠ st.rootFrame
      ∧ st.p1f page.p4 page.p3 page.p2 ≠ st.p3f page.p4
      ∧ st.p1f page.p4 page.p3 page.p2 ≠ st.p2f page.p4 page.p3) :
    ∃ st' r, unmap l st page = Res.done (st', r) ∧
      ∀ x y, ¬ (x = st'.p1f page.p4 page.p3 page.p2 ∧ y = page.p1) →
        (st'.mem x y = st.mem x y ∨ rwClear (st'.mem x y)) := by
  by_cases hAu : (st.mem st.rootFrame page.p4).isUnused
  · have him := is_mapped_unused4 l st page.p4 page.p3 page.p2 page.p1 ha ha2 hAu
    unfold unmap
    rw [him]
    exact ⟨st, _, rfl, fun x y _ => Or.inl rfl⟩
  · by_cases hBu : (st.mem (st.p3f page.p4) page.p3).isUnused
    · obtain ⟨st', him, hm, _, _, _⟩ :=
        is_mapped_unused3 l st page.p4 page.p3 page.p2 page.p1 ha ha2 hAu hBu
          (w1 hAu).1 (w1 hAu).2
      unfold unmap
      rw [him]
      exact ⟨st', _, rfl, fun x y _ => Or.inl (by rw [hm])⟩
    · by_cases hCu : (st.mem (st.p2f page.p4 page.p3) page.p2).isUnused
      · obtain ⟨st', him, hm, _, _, _⟩ :=
          is_mapped_unused2 l st page.p4 page.p3 page.p2 page.p1 ha ha2 hAu hBu hCu
            (w1 hAu).1 (w2 hAu hBu).1 (w1 hAu).2 (w2 hAu hBu).2.1 (w2 hAu hBu).2.2
        unfold unmap
        rw [him]
        exact ⟨st', _, rfl, fun x y _ => Or.inl (by rw [hm])⟩
      · by_cases hL : (st.mem (st.p1f page.p4 page.p3 page.p2) page.p1).isUnused
        · obtain ⟨st', him, hm, _, _, _, _⟩ :=
            is_mapped_exact l st page.p4 page.p3 page.p2 page.p1 ha ha2 hAu hBu hCu
              (w1 hAu).1 (w2 hAu hBu).1 (w3 hAu hBu hCu).1 (w1 hAu).2
              (w2 hAu hBu).2.1 (w2 hAu hBu).2.2 (w3 hAu hBu hCu).2.1
              (w3 hAu hBu hCu).2.2.1 (w3 hAu hBu hCu).2.2.2
          rw [if_pos hL] at him
          unfold unmap
          rw [him]
          exact ⟨st', _, rfl, fun x y _ => Or.inl (by rw [hm])⟩
        · by_cases hvv : (st.mem (st.p1f page.p4 page.p3 page.p2) page.p1).flags.valid
              = true
          · obtain ⟨st', heq, hm, hr, _, _, _⟩ :=
              unmap_mapped l st page ha ha2 hAu hBu hCu (w1 hAu).1 (w2 hAu hBu).1
                (w3 hAu hBu hCu).1 (w1 hAu).2 (w2 hAu hBu).2.1 (w2 hAu hBu).2.2
                (w3 hAu hBu hCu).2.1 (w3 hAu hBu hCu).2.2.1 (w3 hAu hBu hCu).2.2.2 hvv
            obtain ⟨t3, t2, t1, _, _, _, _⟩ :=
              chain_transport st st' page.p4 page.p3 page.p2 page.p1 unusedEntry hr hm
                (w3 hAu hBu hCu).2.1 (w3 hAu hBu hCu).2.2.1 (w3 hAu hBu hCu).2.2.2
            refine ⟨st', _, heq, ?_⟩
            intro x y hne
            rw [t1] at hne
            rw [hm x y, if_neg hne]
            exact Or.inl rfl
          · obtain ⟨st', heq, hm, _, _, _, _⟩ :=
              unmap_leaf_invalid l st page ha ha2 hAu hBu hCu (w1 hAu).1 (w2 hAu hBu).1
                (w3 hAu hBu hCu).1 (w1 hAu).2 (w2 hAu hBu).2.1 (w2 hAu hBu).2.2
                (w3 hAu hBu hCu).2.1 (w3 hAu hBu hCu).2.2.1 (w3 hAu hBu hCu).2.2.2 hL hvv
            exact ⟨st', _, heq, fun x y _ => Or.inl (by rw [hm])⟩

end RecPT

namespace RecPT

theorem map_to_rwsafe (l : Nat) (st : Machine) (page : Page) (fr : Nat) (fl : PTFlags)
    (ha : page.p4 ≠ l) (ha2 : page.p4 ≠ l + 1)
    (w1 : ¬ (st.mem st.rootFrame page.p4).isUnused →
      rwClear (st.mem st.rootFrame page.p4) ∧ st.p3f page.p4 ≠ st.rootFrame)
    (w2 : ¬ (st.mem st.rootFrame page.p4).isUnused →
      ¬ (st.mem (st.p3f page.p4) page.p3).isUnused →
      rwClear (st.mem (st.p3f page.p4) page.p3)
      ∧ st.p2f page.p4 page.p3 ≠ st.rootFrame
      ∧ st.p2f page.p4 page.p3 ≠ st.p3f page.p4)
    (w3 : ¬ (st.mem st.rootFrame page.p4).isUnused →
      ¬ (st.mem (st.p3f page.p4) page.p3).isUnused →
      ¬ (st.mem (st.p2f page.p4 page.p3) page.p2).isUnused →
      rwClear (st.mem (st.p2f page.p4 page.p3) page.p2)
      ∧ st.p1f page.p4 page.p3 page.p2 ≠ st.rootFrame
      ∧ st.p1f page.p4 page.p3 page.p2 ≠ st.p3f page.p4
      ∧ st.p1f page.p4 page.p3 page.p2 ≠ st.p2f page.p4 page.p3)
    (hfr : ∀ f ∈ st.freeFrames, f ≠ st.rootFrame
      ∧ (¬ (st.mem st.rootFrame page.p4).isUnused → f ≠ st.p3f page.p4)
      ∧ (¬ (st.mem st.rootFrame page.p4).isUnused →
         ¬ (st.mem (st.p3f page.p4) page.p3).isUnused → f ≠ st.p2f page.p4 page.p3))
    (hnd : st.freeFrames.Nodup) :
    ∃ st' r, map_to l st page fr fl = Res.done (st', r) ∧
      ∀ x y, ¬ (x = st'.p1f page.p4 page.p3 page.p2 ∧ y = page.p1) →
        (st'.mem x y = st.mem x y ∨ rwClear (st'.mem x y)) := by
  by_cases hAu : (st.mem st.rootFrame page.p4).isUnused
  · rcases hff : st.freeFrames with _ | ⟨f1, l1⟩
    · have hcf := create_fail4 l st page.p4 page.p3 page.p2 ha ha2 hAu hff
      exact ⟨st, _, map_to_err l st st page fr fl _ hcf, fun x y _ => Or.inl rfl⟩
    · rcases l1 with _ | ⟨f2, l2⟩
      · have gfr1 : f1 ≠ st.rootFrame :=
          (hfr f1 (by rw [hff]; exact List.mem_cons_self _ _)).1
        obtain ⟨st1, hcf, hm, _, _, _⟩ :=
          create_fail3b l st page.p4 page.p3 page.p2 f1 ha ha2 hAu hff gfr1
        refine ⟨st1, _, map_to_err l st st1 page fr fl _ hcf, ?_⟩
        intro x y _
        rw [hm x y]
        by_cases h1 : x = f1
        · rw [if_pos h1]
          exact Or.inr rwClear_unused
        · rw [if_neg h1]
          by_cases h2 : x = st.rootFrame ∧ y = page.p4
          · rw [if_pos h2]
            exact Or.inr (rwClear_validFlags f1)
          · rw [if_neg h2]
            exact Or.inl rfl
      · rcases l2 with _ | ⟨f3, rest⟩
        · have gfr1 : f1 ≠ st.rootFrame :=
            (hfr f1 (by rw [hff]; exact List.mem_cons_self _ _)).1
          have gfr2 : f2 ≠ st.rootFrame :=
            (hfr f2 (by rw [hff]; simp)).1
          have hnd' : (f1 :: f2 :: ([] : List Nat)).Nodup := by
            rw [← hff]
            exact hnd
          have gnd : f2 ≠ f1 := fun h =>
            (List.nodup_cons.mp hnd').1 (by rw [← h]; exact List.mem_cons_self _ _)
          obtain ⟨st1, hcf, hm, _, _, _⟩ :=
            create_fail2c l st page.p4 page.p3 page.p2 f1 f2 ha ha2 hAu hff
              gfr1 gfr2 gnd
          refine ⟨st1, _, map_to_err l st st1 page fr fl _ hcf, ?_⟩
          intro x y _
          rw [hm x y]
          by_cases h1 : x = f2
          · rw [if_pos h1]
            exact Or.inr rwClear_unused
          · rw [if_neg h1]
            by_cases h2 : x = f1 ∧ y = page.p3
            · rw [if_pos h2]
              exact Or.inr (rwClear_validFlags f2)
            · rw [if_neg h2]
              by_cases h3 : x = f1
              · rw [if_pos h3]
                exact Or.inr rwClear_unused
              · rw [if_neg h3]
                by_cases h4 : x = st.rootFrame ∧ y = page.p4
                · rw [if_pos h4]
                  exact Or.inr (rwClear_validFlags f1)
                · rw [if_neg h4]
                  exact Or.inl rfl
        · have gfr1 : f1 ≠ st.rootFrame :=
            (hfr f1 (by rw [hff]; exact List.mem_cons_self _ _)).1
          have gfr2 : f2 ≠ st.rootFrame :=
            (hfr f2 (by rw [hff]; simp)).1
          have gfr3 : f3 ≠ st.rootFrame :=
            (hfr f3 (by rw [hff]; simp)).1
          have hnd' : (f1 :: f2 :: f3 :: rest).Nodup := by
            rw [← hff]
            exact hnd
          have g3 : f2 ≠ f1 := fun h =>
            (List.nodup_cons.mp hnd').1 (by rw [← h]; exact List.mem_cons_self _ _)
          have g5 : f3 ≠ f1 := fun h =>
            (List.nodup_cons.mp hnd').1
              (by rw [← h]; exact List.mem_cons_of_mem _ (List.mem_cons_self _ _))
          have g6 : f3 ≠ f2 := fun h =>
            (List.nodup_cons.mp (List.nodup_cons.mp hnd').2).1
              (by rw [← h]; exact List.mem_cons_self _ _)
          obtain ⟨st', hmap, hm, hr, hfre, ht, he, q3, q2, q1, hleaf⟩ :=
            map_to_alloc_uuu l st page fr f1 f2 f3 fl rest ha ha2 hAu hff
              gfr1 gfr2 g3 gfr3 g5 g6
          refine ⟨st', _, hmap, ?_⟩
          intro x y hne
          rw [q1] at hne
          rw [hm x y, if_neg hne]
          by_cases h1 : x = f3
          · rw [if_pos h1]
            exact Or.inr rwClear_unused
          · rw [if_neg h1]
            by_cases h2 : x = f2 ∧ y = page.p2
            · rw [if_pos h2]
              exact Or.inr (rwClear_validFlags f3)
            · rw [if_neg h2]
              by_cases h3 : x = f2
              · rw [if_pos h3]
                exact Or.inr rwClear_unused
              · rw [if_neg h3]
                by_cases h4 : x = f1 ∧ y = page.p3
                · rw [if_pos h4]
                  exact Or.inr (rwClear_validFlags f2)
                · rw [if_neg h4]
                  by_cases h5 : x = f1
                  · rw [if_pos h5]
                    exact Or.inr rwClear_unused
                  · rw [if_neg h5]
                    by_cases h6 : x = st.rootFrame ∧ y = page.p4
                    · rw [if_pos h6]
                      exact Or.inr (rwClear_validFlags f1)
                    · rw [if_neg h6]
                      exact Or.inl rfl
  · by_cases hBu : (st.mem (st.p3f page.p4) page.p3).isUnused
    · rcases hff : st.freeFrames with _ | ⟨f2, l1⟩
      · obtain ⟨st1, hcf, hm, _, _, _⟩ :=
          create_fail3a l st page.p4 page.p3 page.p2 ha ha2 hAu hBu (w1 hAu).1
            (w1 hAu).2 hff
        exact ⟨st1, _, map_to_err l st st1 page fr fl _ hcf,
          fun x y _ => Or.inl (by rw [hm])⟩
      · rcases l1 with _ | ⟨f3, rest⟩
        · have gfr1 : f2 ≠ st.rootFrame :=
            (hfr f2 (by rw [hff]; exact List.mem_cons_self _ _)).1
          have gfr2 : f2 ≠ st.p3f page.p4 :=
            (hfr f2 (by rw [hff]; exact List.mem_cons_self _ _)).2.1 hAu
          obtain ⟨st1, hcf, hm, _, _, _⟩ :=
            create_fail2b l st page.p4 page.p3 page.p2 f2 ha ha2 hAu hBu (w1 hAu).1
              (w1 hAu).2 hff gfr1 gfr2
          refine ⟨st1, _, map_to_err l st st1 page fr fl _ hcf, ?_⟩
          intro x y _
          rw [hm x y]
          by_cases h1 : x = f2
          · rw [if_pos h1]
            exact Or.inr rwClear_unused
          · rw [if_neg h1]
            by_cases h2 : x = st.p3f page.p4 ∧ y = page.p3
            · rw [if_pos h2]
              exact Or.inr (rwClear_validFlags f2)
            · rw [if_neg h2]
              exact Or.inl rfl
        · have gfr1 : f2 ≠ st.rootFrame :=
            (hfr f2 (by rw [hff]; exact List.mem_cons_self _ _)).1
          have gfr2 : f2 ≠ st.p3f page.p4 :=
            (hfr f2 (by rw [hff]; exact List.mem_cons_self _ _)).2.1 hAu
          have gfr3 : f3 ≠ st.rootFrame :=
            (hfr f3 (by rw [hff]; simp)).1
          have gfr4 : f3 ≠ st.p3f page.p4 :=
            (hfr f3 (by rw [hff]; simp)).2.1 hAu
          have hnd' : (f2 :: f3 :: rest).Nodup := by
            rw [← hff]
            exact hnd
          have gnd : f3 ≠ f2 := fun h =>
            (List.nodup_cons.mp hnd').1 (by rw [← h]; exact List.mem_cons_self _ _)
          obtain ⟨st', hmap, hm, hr, hfre, ht, he, q3, q2, q1, hleaf⟩ :=
            map_to_alloc_puu l st page fr f2 f3 fl rest ha ha2 hAu hBu (w1 hAu).1
              (w1 hAu).2 hff gfr1 gfr2 gfr3 gfr4 gnd
          refine ⟨st', _, hmap, ?_⟩
          intro x y hne
          rw [q1] at hne
          rw [hm x y, if_neg hne]
          by_cases h1 : x = f3
          · rw [if_pos h1]
            exact Or.inr rwClear_unused
          · rw [if_neg h1]
            by_cases h2 : x = f2 ∧ y = page.p2
            · rw [if_pos h2]
              exact Or.inr (rwClear_validFlags f3)
            · rw [if_neg h2]
              by_cases h3 : x = f2
              · rw [if_pos h3]
                exact Or.inr rwClear_unused
              · rw [if_neg h3]
                by_cases h4 : x = st.p3f page.p4 ∧ y = page.p3
                · rw [if_pos h4]
                  exact Or.inr (rwClear_validFlags f2)
                · rw [if_neg h4]
                  exact Or.inl rfl
    · by_cases hCu : (st.mem (st.p2f page.p4 page.p3) page.p2).isUnused
      · rcases hff : st.freeFrames with _ | ⟨f3, rest⟩
        · obtain ⟨st1, hcf, hm, _, _, _⟩ :=
            create_fail2a l st page.p4 page.p3 page.p2 ha ha2 hAu hBu hCu (w1 hAu).1
              (w2 hAu hBu).1 (w1 hAu).2 (w2 hAu hBu).2.1 (w2 hAu hBu).2.2 hff
          exact ⟨st1, _, map_to_err l st st1 page fr fl _ hcf,
            fun x y _ => Or.inl (by rw [hm])⟩
        · have gfr1 : f3 ≠ st.rootFrame :=
            (hfr f3 (by rw [hff]; exact List.mem_cons_self _ _)).1
          have gfr2 : f3 ≠ st.p3f page.p4 :=
            (hfr f3 (by rw [hff]; exact List.mem_cons_self _ _)).2.1 hAu
          have gfr3 : f3 ≠ st.p2f page.p4 page.p3 :=
            (hfr f3 (by rw [hff]; exact List.mem_cons_self _ _)).2.2 hAu hBu
          obtain ⟨st', hmap, hm, hr, hfre, ht, he, q3, q2, q1, hleaf⟩ :=
            map_to_alloc_ppu l st page fr f3 fl rest ha ha2 hAu hBu hCu (w1 hAu).1
              (w2 hAu hBu).1 (w1 hAu).2 (w2 hAu hBu).2.1 (w2 hAu hBu).2.2 hff
              gfr1 gfr2 gfr3
          refine ⟨st', _, hmap, ?_⟩
          intro x y hne
          rw [q1] at hne
          rw [hm x y, if_neg hne]
          by_cases h1 : x = f3
          · rw [if_pos h1]
            exact Or.inr rwClear_unused
          · rw [if_neg h1]
            by_cases h2 : x = st.p2f page.p4 page.p3 ∧ y = page.p2
            · rw [if_pos h2]
              exact Or.inr (rwClear_validFlags f3)
            · rw [if_neg h2]
              exact Or.inl rfl
      · by_cases hL : (st.mem (st.p1f page.p4 page.p3 page.p2) page.p1).isUnused
        · obtain ⟨st', hmap, hm, hr, _, _, _⟩ :=
            map_to_fresh l st page fr fl ha ha2 hAu hBu hCu (w1 hAu).1 (w2 hAu hBu).1
              (w3 hAu hBu hCu).1 (w1 hAu).2 (w2 hAu hBu).2.1 (w2 hAu hBu).2.2
              (w3 hAu hBu hCu).2.1 (w3 hAu hBu hCu).2.2.1 (w3 hAu hBu hCu).2.2.2 hL
          obtain ⟨t3, t2, t1, _, _, _, _⟩ :=
            chain_transport st st' page.p4 page.p3 page.p2 page.p1 ⟨fr, fl⟩ hr hm
              (w3 hAu hBu hCu).2.1 (w3 hAu hBu hCu).2.2.1 (w3 hAu hBu hCu).2.2.2
          refine ⟨st', _, hmap, ?_⟩
          intro x y hne
          rw [t1] at hne
          rw [hm x y, if_neg hne]
          exact Or.inl rfl
        · obtain ⟨st', hmap, hm, _, _, _, _⟩ :=
            map_to_already l st page fr fl ha ha2 hAu hBu hCu (w1 hAu).1 (w2 hAu hBu).1
              (w3 hAu hBu hCu).1 (w1 hAu).2 (w2 hAu hBu).2.1 (w2 hAu hBu).2.2
              (w3 hAu hBu hCu).2.1 (w3 hAu hBu hCu).2.2.1 (w3 hAu hBu hCu).2.2.2 hL
          exact ⟨st', _, hmap, fun x y _ => Or.inl (by rw [hm])⟩

end RecPT

namespace RecPT

theorem events_alloc (st : Machine) : (st.alloc).2.events = st.events := by
  unfold Machine.alloc
  rcases st.freeFrames with _ | ⟨f, r⟩ <;> rfl

theorem stage4_events (st : Machine) (a : Nat) :
    ∃ st1 e n, stage4 st a = (st1, e) ∧
      st1.events = st.events ++ List.replicate n FlushEvent.flushAll := by
  unfold stage4
  by_cases h : (st.mem st.rootFrame a).isUnused
  · rw [if_pos h]
    rcases halloc : st.alloc with ⟨o, s1⟩
    have hev : s1.events = st.events := by
      have h2 := events_alloc st
      rw [halloc] at h2
      exact h2
    cases o with
    | none =>
      refine ⟨s1, some MapToError.frameAllocationFailed, 0, rfl, ?_⟩
      rw [hev]
      exact (List.append_nil _).symm
    | some f =>
      refine ⟨_, none, 2, rfl, ?_⟩
      show ((((s1.setP4e a f validFlags).seqA a).zeroP3 a).sfenceAll).events = _
      simp [Machine.sfenceAll, Machine.seqA, Machine.insP4e, Machine.insRW,
        Machine.setP4e, Machine.setE, Machine.zeroP3, Machine.zeroF, hev,
        List.replicate]
  · rw [if_neg h]
    exact ⟨st.seqA a, none, 1, rfl, events_seqA st a⟩

theorem stage3_events (st : Machine) (a b : Nat) :
    ∃ st1 e n, stage3 st a b = (st1, e) ∧
      st1.events = st.events ++ List.replicate n FlushEvent.flushAll := by
  unfold stage3
  by_cases h : (st.mem (st.p3f a) b).isUnused
  · rw [if_pos h]
    rcases halloc : st.alloc with ⟨o, s1⟩
    have hev : s1.events = st.events := by
      have h2 := events_alloc st
      rw [halloc] at h2
      exact h2
    cases o with
    | none =>
      refine ⟨s1.failA a, some MapToError.frameAllocationFailed, 1, rfl, ?_⟩
      rw [events_failA, hev]
    | some f =>
      refine ⟨_, none, 2, rfl, ?_⟩
      show (((s1.setP3e a b f validFlags).seqB a b).zeroP2 a b).events = _
      simp [Machine.sfenceAll, Machine.seqB, Machine.insP3e, Machine.remP4e,
        Machine.insRW, Machine.remRW, Machine.setP3e, Machine.setE, Machine.zeroP2,
        Machine.zeroF, hev, List.replicate]
  · rw [if_neg h]
    exact ⟨st.seqB a b, none, 2, rfl, events_seqB st a b⟩

theorem stage2_events (st : Machine) (a b c : Nat) :
    ∃ st1 e n, stage2 st a b c = (st1, e) ∧
      st1.events = st.events ++ List.replicate n FlushEvent.flushAll := by
  unfold stage2
  by_cases h : (st.mem (st.p2f a b) c).isUnused
  · rw [if_pos h]
    rcases halloc : st.alloc with ⟨o, s1⟩
    have hev : s1.events = st.events := by
      have h2 := events_alloc st
      rw [halloc] at h2
      exact h2
    cases o with
    | none =>
      refine ⟨s1.failB a b, some MapToError.frameAllocationFailed, 3, rfl, ?_⟩
      rw [events_failB, hev]
    | some f =>
      refine ⟨_, none, 4, rfl, ?_⟩
      show (((s1.setP2e a b c f validFlags).seqC a b c).zeroP1 a b c).events = _
      simp [Machine.sfenceAll, Machine.seqC, Machine.insP2e, Machine.insP4e,
        Machine.remP3e, Machine.remP4e, Machine.insRW, Machine.remRW,
        Machine.setP2e, Machine.setE, Machine.zeroP1, Machine.zeroF, hev,
        List.replicate]
  · rw [if_neg h]
    exact ⟨st.seqC a b c, none, 4, rfl, events_seqC st a b c⟩

theorem create_events (l : Nat) (st : Machine) (a b c : Nat) :
    create_p1_if_not_exist l st a b c = Res.crash ∨
    ∃ st1 e n, create_p1_if_not_exist l st a b c = Res.done (st1, e) ∧
      st1.events = st.events ++ List.replicate n FlushEvent.flushAll := by
  unfold create_p1_if_not_exist
  by_cases h : a = l ∨ a = l + 1
  · rw [if_pos h]
    exact Or.inl rfl
  · rw [if_neg h]
    obtain ⟨s4, e4, n4, h4, hev4⟩ := stage4_events st a
    rw [h4]
    cases e4 with
    | some e => exact Or.inr ⟨s4, some e, n4, rfl, hev4⟩
    | none =>
      dsimp only
      obtain ⟨s3, e3, n3, h3, hev3⟩ := stage3_events s4 a b
      rw [h3]
      have hev3a : s3.events = st.events ++ List.replicate (n4 + n3) FlushEvent.flushAll := by
        rw [hev3, hev4, rep_app]
      cases e3 with
      | some e => exact Or.inr ⟨s3, some e, n4 + n3, rfl, hev3a⟩
      | none =>
        dsimp only
        obtain ⟨s2, e2, n2, h2, hev2⟩ := stage2_events s3 a b c
        rw [h2]
        have hev2a : s2.events
            = st.events ++ List.replicate (n4 + n3 + n2) FlushEvent.flushAll := by
          rw [hev2, hev3a, rep_app]
        cases e2 with
        | some e => exact Or.inr ⟨s2, some e, n4 + n3 + n2, rfl, hev2a⟩
        | none =>
          refine Or.inr ⟨s2.closeSeq a b c, none, n4 + n3 + n2 + 7, rfl, ?_⟩
          rw [events_closeSeq, hev2a, rep_app]

theorem edit_events {T : Type} (l : Nat) (st : Machine) (a b c : Nat)
    (g : (Nat → PTEntry) → T × (Nat → PTEntry)) :
    edit_p1 l st a b c g = Res.crash ∨
    ∃ t st', edit_p1 l st a b c g = Res.done (t, st') ∧
      st'.events = st.events ++ List.replicate 14 FlushEvent.flushAll := by
  unfold edit_p1 editStep3 editStep2 editRun
  by_cases h1 : a = l ∨ a = l + 1
  · rw [if_pos h1]
    exact Or.inl rfl
  · rw [if_neg h1]
    by_cases h2 : (st.mem st.rootFrame a).isUnused
    · rw [if_pos h2]
      exact Or.inl rfl
    · rw [if_neg h2]
      by_cases h3 : ((st.seqA a).mem ((st.seqA a).p3f a) b).isUnused
      · rw [if_pos h3]
        exact Or.inl rfl
      · rw [if_neg h3]
        by_cases h4 : (((st.seqA a).seqB a b).mem (((st.seqA a).seqB a b).p2f a b) c).isUnused
        · rw [if_pos h4]
          exact Or.inl rfl
        · rw [if_neg h4]
          right
          rcases hg : g ((((st.seqA a).seqB a b).seqC a b c).mem
              ((((st.seqA a).seqB a b).seqC a b c).p1f a b c)) with ⟨t, tbl⟩
          refine ⟨t, ((((st.seqA a).seqB a b).seqC a b c).updT
              ((((st.seqA a).seqB a b).seqC a b c).p1f a b c) tbl).closeSeq a b c,
            ?_, ?_⟩
          · rfl
          · rw [events_closeSeq, events_updT, events_seqC, events_seqB, events_seqA,
              rep_app, rep_app, rep_app]

theorem is_mapped_events (l : Nat) (st : Machine) (a b c d : Nat) :
    is_mapped l st a b c d = Res.crash ∨
    ∃ s bl n, is_mapped l st a b c d = Res.done (s, bl) ∧
      s.events = st.events ++ List.replicate n FlushEvent.flushAll := by
  unfold is_mapped imStep3 imStep2 imStep1
  by_cases h1 : a = l ∨ a = l + 1
  · rw [if_pos h1]
    exact Or.inl rfl
  · rw [if_neg h1]
    by_cases h2 : (st.mem st.rootFrame a).isUnused
    · rw [if_pos h2]
      exact Or.inr ⟨st, false, 0, rfl, (List.append_nil _).symm⟩
    · rw [if_neg h2]
      by_cases h3 : ((st.seqA a).mem ((st.seqA a).p3f a) b).isUnused
      · rw [if_pos h3]
        refine Or.inr ⟨(st.seqA a).failA a, false, 2, rfl, ?_⟩
        rw [events_failA, events_seqA, rep_app]
      · rw [if_neg h3]
        by_cases h4 : (((st.seqA a).seqB a b).mem (((st.seqA a).seqB a b).p2f a b) c).isUnused
        · rw [if_pos h4]
          refine Or.inr ⟨((st.seqA a).seqB a b).failB a b, false, 6, rfl, ?_⟩
          rw [events_failB, events_seqB, events_seqA, rep_app, rep_app]
        · rw [if_neg h4]
          by_cases h5 : ((((st.seqA a).seqB a b).seqC a b c).mem
              ((((st.seqA a).seqB a b).seqC a b c).p1f a b c) d).isUnused
          · rw [if_pos h5]
            refine Or.inr ⟨(((st.seqA a).seqB a b).seqC a b c).closeSeq a b c, false,
              14, rfl, ?_⟩
            rw [events_closeSeq, events_seqC, events_seqB, events_seqA,
              rep_app, rep_app, rep_app]
          · rw [if_neg h5]
            refine Or.inr ⟨(((st.seqA a).seqB a b).seqC a b c).closeSeq a b c, true,
              14, rfl, ?_⟩
            rw [events_closeSeq, events_seqC, events_seqB, events_seqA,
              rep_app, rep_app, rep_app]

theorem map_to_events (l : Nat) (st : Machine) (page : Page) (fr : Nat) (fl : PTFlags) :
    ∀ st' r, map_to l st page fr fl = Res.done (st', r) →
      ∃ n, st'.events = st.events ++ List.replicate n FlushEvent.flushAll := by
  intro st' r h
  unfold map_to at h
  rcases create_events l st page.p4 page.p3 page.p2 with hc | ⟨s1, e, n1, hc, hev1⟩
  · rw [hc] at h
    exact Res.noConfusion h
  · rw [hc] at h
    cases e with
    | some e2 =>
      dsimp only at h
      have hst := congrArg (fun z => match z with
        | Res.crash => s1
        | Res.done p => p.1) h
      dsimp only at hst
      exact ⟨n1, hst ▸ hev1⟩
    | none =>
      dsimp only at h
      rcases edit_events l s1 page.p4 page.p3 page.p2
        (fun p1t =>
          if ¬ (p1t page.p1).isUnused then (MapResult.err MapToError.pageAlreadyMapped, p1t)
          else (MapResult.ok ⟨page⟩, updEntryT p1t page.p1 ⟨fr, fl⟩))
        with he | ⟨t, s2, he, hev2⟩
      · rw [he] at h
        exact Res.noConfusion h
      · rw [he] at h
        dsimp only at h
        have hst := congrArg (fun z => match z with
          | Res.crash => s2
          | Res.done p => p.1) h
        dsimp only at hst
        refine ⟨n1 + 14, ?_⟩
        rw [← hst, hev2, hev1, rep_app]

theorem unmap_events (l : Nat) (st : Machine) (page : Page) :
    ∀ st' r, unmap l st page = Res.done (st', r) →
      ∃ n, st'.events = st.events ++ List.replicate n FlushEvent.flushAll := by
  intro st' r h
  unfold unmap at h
  rcases is_mapped_events l st page.p4 page.p3 page.p2 page.p1
    with him | ⟨s1, bl, n1, him, hev1⟩
  · rw [him] at h
    exact Res.noConfusion h
  · rw [him] at h
    cases bl with
    | false =>
      dsimp only at h
      have hst := congrArg (fun z => match z with
        | Res.crash => s1
        | Res.done p => p.1) h
      dsimp only at hst
      exact ⟨n1, hst ▸ hev1⟩
    | true =>
      dsimp only at h
      rcases edit_events l s1 page.p4 page.p3 page.p2
        (fun p1t =>
          if ¬ ((p1t page.p1).flags.valid = true) then
            (UnmapResult.err UnmapError.pageNotMapped, p1t)
          else (UnmapResult.ok (p1t page.p1).frame ⟨page⟩,
            updEntryT p1t page.p1 unusedEntry))
        with he | ⟨t, s2, he, hev2⟩
      · rw [he] at h
        exact Res.noConfusion h
      · rw [he] at h
        dsimp only at h
        have hst := congrArg (fun z => match z with
          | Res.crash => s2
          | Res.done p => p.1) h
        dsimp only at hst
        refine ⟨n1 + 14, ?_⟩
        rw [← hst, hev2, hev1, rep_app]

end RecPT

namespace RecPT

/-- C4: mapping a page whose level-1 leaf entry is already valid returns
`Err(PageAlreadyMapped)` and leaves the existing leaf entry — previously
mapped frame and flags — and indeed the whole table state unchanged. -/
theorem C4_no_double_map (l : Nat) (st : Machine) (page : Page) (fr2 : Nat) (fl2 : PTFlags)
    (ha : page.p4 ≠ l) (ha2 : page.p4 ≠ l + 1)
    (hA : ¬ (st.mem st.rootFrame page.p4).isUnused)
    (hB : ¬ (st.mem (st.p3f page.p4) page.p3).isUnused)
    (hC : ¬ (st.mem (st.p2f page.p4 page.p3) page.p2).isUnused)
    (cA : rwClear (st.mem st.rootFrame page.p4))
    (cB : rwClear (st.mem (st.p3f page.p4) page.p3))
    (cC : rwClear (st.mem (st.p2f page.p4 page.p3) page.p2))
    (d1 : st.p3f page.p4 ≠ st.rootFrame)
    (d2 : st.p2f page.p4 page.p3 ≠ st.rootFrame)
    (d3 : st.p2f page.p4 page.p3 ≠ st.p3f page.p4)
    (d4 : st.p1f page.p4 page.p3 page.p2 ≠ st.rootFrame)
    (d5 : st.p1f page.p4 page.p3 page.p2 ≠ st.p3f page.p4)
    (d6 : st.p1f page.p4 page.p3 page.p2 ≠ st.p2f page.p4 page.p3)
    (hv : (st.mem (st.p1f page.p4 page.p3 page.p2) page.p1).flags.valid = true) :
    ∃ st', map_to l st page fr2 fl2
        = Res.done (st', MapResult.err MapToError.pageAlreadyMapped) ∧
      st'.mem (st.p1f page.p4 page.p3 page.p2) page.p1
        = st.mem (st.p1f page.p4 page.p3 page.p2) page.p1 ∧
      st'.mem = st.mem := by
  obtain ⟨st', hmap, hm, hr, hf, ht, he⟩ :=
    map_to_already l st page fr2 fl2 ha ha2 hA hB hC cA cB cC d1 d2 d3 d4 d5 d6
      (not_unused_of_valid _ hv)
  exact ⟨st', hmap, by rw [hm], hm⟩

/-- Witness for C4 on the fixture machine: page (5, 6, 7, 3) has a valid
leaf entry and a second `map_to` is rejected without changing memory. -/
theorem C4_no_double_map_witness :
    ∃ st', map_to 0 M0 ⟨5, 6, 7, 3⟩ 40 rwFlags
        = Res.done (st', MapResult.err MapToError.pageAlreadyMapped) ∧
      st'.mem (M0.p1f 5 6 7) 3 = M0.mem (M0.p1f 5 6 7) 3 ∧
      st'.mem = M0.mem :=
  C4_no_double_map 0 M0 ⟨5, 6, 7, 3⟩ 40 rwFlags (by decide) (by decide) (by decide)
    (by decide) (by decide) (by decide) (by decide) (by decide) (by decide) (by decide)
    (by decide) (by decide) (by decide) (by decide) (by decide)

/-- C5: the validating constructor accepts a root table whose entry at
the recursive index has READABLE set and WRITABLE clear (it only rejects
when BOTH bits are set, since bitflags `contains(R | W)` tests both),
although the claimed validation demands both bits be cleared. -/
theorem C5_constructor_bug :
    RecursivePageTable.new M5 4096 10 = Except.ok 0 ∧
    (M5.mem 10 (Page.ofAddr 4096).p4).flags.valid = true ∧
    (M5.mem 10 (Page.ofAddr 4096).p4).flags.readable = true ∧
    (M5.mem 10 (Page.ofAddr 4096).p4).flags.writable = false := by
  exact ⟨rfl, rfl, rfl, rfl⟩

/-- C7: unmapping a page that is not mapped (some ancestor entry or the
leaf entry is unused) returns `Err(PageNotMapped)`, leaves every table
entry unchanged and frees no frame. -/
theorem C7_no_phantom_unmap (l : Nat) (st : Machine) (page : Page)
    (ha : page.p4 ≠ l) (ha2 : page.p4 ≠ l + 1)
    (cA : rwClear (st.mem st.rootFrame page.p4))
    (cB : rwClear (st.mem (st.p3f page.p4) page.p3))
    (cC : rwClear (st.mem (st.p2f page.p4 page.p3) page.p2))
    (d1 : st.p3f page.p4 ≠ st.rootFrame)
    (d2 : st.p2f page.p4 page.p3 ≠ st.rootFrame)
    (d3 : st.p2f page.p4 page.p3 ≠ st.p3f page.p4)
    (d4 : st.p1f page.p4 page.p3 page.p2 ≠ st.rootFrame)
    (d5 : st.p1f page.p4 page.p3 page.p2 ≠ st.p3f page.p4)
    (d6 : st.p1f page.p4 page.p3 page.p2 ≠ st.p2f page.p4 page.p3)
    (hnm : (st.mem st.rootFrame page.p4).isUnused
         ∨ (st.mem (st.p3f page.p4) page.p3).isUnused
         ∨ (st.mem (st.p2f page.p4 page.p3) page.p2).isUnused
         ∨ (st.mem (st.p1f page.p4 page.p3 page.p2) page.p1).isUnused) :
    ∃ st', unmap l st page = Res.done (st', UnmapResult.err UnmapError.pageNotMapped) ∧
      st'.mem = st.mem ∧ st'.rootFrame = st.rootFrame ∧
      st'.freeFrames = st.freeFrames :=
  unmap_notmapped l st page ha ha2 cA cB cC d1 d2 d3 d4 d5 d6 hnm

/-- Witness for C7 on the fixture machine: page (5, 6, 7, 8) has an
unused leaf and `unmap` is a structural no-op returning `PageNotMapped`. -/
theorem C7_no_phantom_unmap_witness :
    ∃ st', unmap 0 M0 ⟨5, 6, 7, 8⟩
        = Res.done (st', UnmapResult.err UnmapError.pageNotMapped) ∧
      st'.mem = M0.mem ∧ st'.rootFrame = M0.rootFrame ∧
      st'.freeFrames = M0.freeFrames :=
  C7_no_phantom_unmap 0 M0 ⟨5, 6, 7, 8⟩ (by decide) (by decide) (by decide) (by decide)
    (by decide) (by decide) (by decide) (by decide) (by decide) (by decide) (by decide)
    (Or.inr (Or.inr (Or.inr (by decide))))

/-- C8: with a target root index equal to the recursive index or its
successor, `create_p1_if_not_exist`, `edit_p1` and `is_mapped` all panic
(crash) instead of returning an error value; `edit_p1` also panics when
any ancestor entry along its path is unused. -/
theorem C8_reserved_asserts {T : Type} (l : Nat) (st : Machine) (a b c d : Nat)
    (g : (Nat → PTEntry) → T × (Nat → PTEntry)) :
    (a = l ∨ a = l + 1 →
      create_p1_if_not_exist l st a b c = Res.crash ∧
      edit_p1 l st a b c g = Res.crash ∧
      is_mapped l st a b c d = Res.crash) ∧
    (a ≠ l → a ≠ l + 1 → (st.mem st.rootFrame a).isUnused →
      edit_p1 l st a b c g = Res.crash) ∧
    (a ≠ l → a ≠ l + 1 → ¬ (st.mem st.rootFrame a).isUnused →
      (st.mem (st.p3f a) b).isUnused → st.p3f a ≠ st.rootFrame →
      edit_p1 l st a b c g = Res.crash) ∧
    (a ≠ l → a ≠ l + 1 → ¬ (st.mem st.rootFrame a).isUnused →
      ¬ (st.mem (st.p3f a) b).isUnused → (st.mem (st.p2f a b) c).isUnused →
      st.p3f a ≠ st.rootFrame → st.p2f a b ≠ st.rootFrame → st.p2f a b ≠ st.p3f a →
      edit_p1 l st a b c g = Res.crash) := by
  refine ⟨?_, ?_, ?_, ?_⟩
  · intro h
    exact ⟨create_crash_reserved l st a b c h, edit_crash_reserved l st a b c g h,
      is_mapped_crash_reserved l st a b c d h⟩
  · intro ha ha2 hA
    exact edit_crash_unused4 l st a b c g ha ha2 hA
  · intro ha ha2 hA hB d1
    exact edit_crash_unused3 l st a b c g ha ha2 hA hB d1
  · intro ha ha2 hA hB hC d1 d2 d3
    exact edit_crash_unused2 l st a b c g ha ha2 hA hB hC d1 d2 d3

/-- Witness for C8: concrete crashes on the fixture machine for a
reserved root index (0 with recursive index 0) and for `edit_p1` paths
with an unused root, level-3 or level-2 entry. -/
theorem C8_reserved_asserts_witness :
    (create_p1_if_not_exist 0 M0 0 0 0 = Res.crash ∧
     edit_p1 0 M0 0 0 0 (fun t => ((0 : Nat), t)) = Res.crash ∧
     is_mapped 0 M0 0 0 0 0 = Res.crash) ∧
    edit_p1 0 M0 6 0 0 (fun t => ((0 : Nat), t)) = Res.crash ∧
    edit_p1 0 M0 5 0 0 (fun t => ((0 : Nat), t)) = Res.crash ∧
    edit_p1 0 M0 5 6 0 (fun t => ((0 : Nat), t)) = Res.crash :=
  ⟨(C8_reserved_asserts 0 M0 0 0 0 0 (fun t => ((0 : Nat), t))).1 (Or.inl rfl),
   (C8_reserved_asserts 0 M0 6 0 0 0 (fun t => ((0 : Nat), t))).2.1
     (by decide) (by decide) (by decide),
   (C8_reserved_asserts 0 M0 5 0 0 0 (fun t => ((0 : Nat), t))).2.2.1
     (by decide) (by decide) (by decide) (by decide) (by decide),
   (C8_reserved_asserts 0 M0 5 6 0 0 (fun t => ((0 : Nat), t))).2.2.2
     (by decide) (by decide) (by decide) (by decide) (by decide) (by decide)
     (by decide) (by decide)⟩

/-- C10: over the whole input space, a completed `unmap` only ever
returns `PageNotMapped` or success (never `InvalidFrameAddress`, never
`ParentEntryHugePage`), and a completed `map_to` only ever returns
`FrameAllocationFailed`, `PageAlreadyMapped` or success (never
`ParentEntryHugePage`). -/
theorem C10_error_surface :
    (∀ l st page st' r, unmap l st page = Res.done (st', r) →
      r = UnmapResult.err UnmapError.pageNotMapped ∨
      ∃ f mf, r = UnmapResult.ok f mf) ∧
    (∀ l st page fr fl st' r, map_to l st page fr fl = Res.done (st', r) →
      r = MapResult.err MapToError.frameAllocationFailed ∨
      r = MapResult.err MapToError.pageAlreadyMapped ∨
      ∃ mf, r = MapResult.ok mf) :=
  ⟨fun l st page st' r h => unmap_result_classification l st page st' r h,
   fun l st page fr fl st' r h => map_to_result_classification l st page fr fl st' r h⟩

/-- Witness for C10: concrete completed runs on the fixture machine — an
`unmap` of a not-mapped page and a `map_to` of an already-mapped page. -/
theorem C10_error_surface_witness :
    (UnmapResult.err UnmapError.pageNotMapped = UnmapResult.err UnmapError.pageNotMapped ∨
      ∃ f mf, UnmapResult.err UnmapError.pageNotMapped = UnmapResult.ok f mf) ∧
    (MapResult.err MapToError.pageAlreadyMapped
        = MapResult.err MapToError.frameAllocationFailed ∨
      MapResult.err MapToError.pageAlreadyMapped
        = MapResult.err MapToError.pageAlreadyMapped ∨
      ∃ mf, MapResult.err MapToError.pageAlreadyMapped = MapResult.ok mf) :=
  ⟨C10_error_surface.1 0 M0 ⟨5, 6, 7, 8⟩ (afterSt (unmap 0 M0 ⟨5, 6, 7, 8⟩))
      (UnmapResult.err UnmapError.pageNotMapped) rfl,
   C10_error_surface.2 0 M0 ⟨5, 6, 7, 3⟩ 40 rwFlags
      (afterSt (map_to 0 M0 ⟨5, 6, 7, 3⟩ 40 rwFlags))
      (MapResult.err MapToError.pageAlreadyMapped) rfl⟩

end RecPT

namespace RecPT

/-- C3: whenever the allocator runs out at any step of
`create_p1_if_not_exist` (after zero, one or two successful allocations,
on every presence configuration of the path), the call returns
`FrameAllocationFailed` and every transient READABLE/WRITABLE permission
raised earlier in the call has been rolled back: any entry that had both
bits clear before the call still has both bits clear after it. -/
theorem C3_allocator_rollback (l : Nat) (st : Machine) (a b c : Nat)
    (ha : a ≠ l) (ha2 : a ≠ l + 1) :
    ((st.mem st.rootFrame a).isUnused → st.freeFrames = [] →
      ∃ st', create_p1_if_not_exist l st a b c
          = Res.done (st', some MapToError.frameAllocationFailed) ∧
        ∀ x y, rwClear (st.mem x y) → rwClear (st'.mem x y)) ∧
    (¬ (st.mem st.rootFrame a).isUnused → (st.mem (st.p3f a) b).isUnused →
      rwClear (st.mem st.rootFrame a) → st.p3f a ≠ st.rootFrame →
      st.freeFrames = [] →
      ∃ st', create_p1_if_not_exist l st a b c
          = Res.done (st', some MapToError.frameAllocationFailed) ∧
        ∀ x y, rwClear (st.mem x y) → rwClear (st'.mem x y)) ∧
    (∀ f1, (st.mem st.rootFrame a).isUnused → st.freeFrames = [f1] →
      f1 ≠ st.rootFrame →
      ∃ st', create_p1_if_not_exist l st a b c
          = Res.done (st', some MapToError.frameAllocationFailed) ∧
        ∀ x y, rwClear (st.mem x y) → rwClear (st'.mem x y)) ∧
    (¬ (st.mem st.rootFrame a).isUnused → ¬ (st.mem (st.p3f a) b).isUnused →
      (st.mem (st.p2f a b) c).isUnused →
      rwClear (st.mem st.rootFrame a) → rwClear (st.mem (st.p3f a) b) →
      st.p3f a ≠ st.rootFrame → st.p2f a b ≠ st.rootFrame →
      st.p2f a b ≠ st.p3f a → st.freeFrames = [] →
      ∃ st', create_p1_if_not_exist l st a b c
          = Res.done (st', some MapToError.frameAllocationFailed) ∧
        ∀ x y, rwClear (st.mem x y) → rwClear (st'.mem x y)) ∧
    (∀ f2, ¬ (st.mem st.rootFrame a).isUnused → (st.mem (st.p3f a) b).isUnused →
      rwClear (st.mem st.rootFrame a) → st.p3f a ≠ st.rootFrame →
      st.freeFrames = [f2] → f2 ≠ st.rootFrame → f2 ≠ st.p3f a →
      ∃ st', create_p1_if_not_exist l st a b c
          = Res.done (st', some MapToError.frameAllocationFailed) ∧
        ∀ x y, rwClear (st.mem x y) → rwClear (st'.mem x y)) ∧
    (∀ f1 f2, (st.mem st.rootFrame a).isUnused → st.freeFrames = [f1, f2] →
      f1 ≠ st.rootFrame → f2 ≠ st.rootFrame → f2 ≠ f1 →
      ∃ st', create_p1_if_not_exist l st a b c
          = Res.done (st', some MapToError.frameAllocationFailed) ∧
        ∀ x y, rwClear (st.mem x y) → rwClear (st'.mem x y)) := by
  refine ⟨?_, ?_, ?_, ?_, ?_, ?_⟩
  · intro hA hf
    exact ⟨st, create_fail4 l st a b c ha ha2 hA hf, fun x y h => h⟩
  · intro hA hB cA d1 hf
    obtain ⟨st', heq, hm, _, _, _⟩ := create_fail3a l st a b c ha ha2 hA hB cA d1 hf
    exact ⟨st', heq, fun x y h => by rw [hm]; exact h⟩
  · intro f1 hA hf g1
    obtain ⟨st', heq, hm, _, _, _⟩ := create_fail3b l st a b c f1 ha ha2 hA hf g1
    refine ⟨st', heq, ?_⟩
    intro x y h
    rw [hm x y]
    by_cases h1 : x = f1
    · rw [if_pos h1]
      exact rwClear_unused
    · rw [if_neg h1]
      by_cases h2 : x = st.rootFrame ∧ y = a
      · rw [if_pos h2]
        exact rwClear_validFlags f1
      · rw [if_neg h2]
        exact h
  · intro hA hB hC cA cB d1 d2 d3 hf
    obtain ⟨st', heq, hm, _, _, _⟩ :=
      create_fail2a l st a b c ha ha2 hA hB hC cA cB d1 d2 d3 hf
    exact ⟨st', heq, fun x y h => by rw [hm]; exact h⟩
  · intro f2 hA hB cA d1 hf g1 g2
    obtain ⟨st', heq, hm, _, _, _⟩ :=
      create_fail2b l st a b c f2 ha ha2 hA hB cA d1 hf g1 g2
    refine ⟨st', heq, ?_⟩
    intro x y h
    rw [hm x y]
    by_cases h1 : x = f2
    · rw [if_pos h1]
      exact rwClear_unused
    · rw [if_neg h1]
      by_cases h2 : x = st.p3f a ∧ y = b
      · rw [if_pos h2]
        exact rwClear_validFlags f2
      · rw [if_neg h2]
        exact h
  · intro f1 f2 hA hf g1 g2 g3
    obtain ⟨st', heq, hm, _, _, _⟩ :=
      create_fail2c l st a b c f1 f2 ha ha2 hA hf g1 g2 g3
    refine ⟨st', heq, ?_⟩
    intro x y h
    rw [hm x y]
    by_cases h1 : x = f2
    · rw [if_pos h1]
      exact rwClear_unused
    · rw [if_neg h1]
      by_cases h2 : x = f1 ∧ y = b
      · rw [if_pos h2]
        exact rwClear_validFlags f2
      · rw [if_neg h2]
        by_cases h3 : x = f1
        · rw [if_pos h3]
          exact rwClear_unused
        · rw [if_neg h3]
          by_cases h4 : x = st.rootFrame ∧ y = a
          · rw [if_pos h4]
            exact rwClear_validFlags f1
          · rw [if_neg h4]
            exact h

/-- Witness for C3: on the fixture machine with a single free frame the
allocator succeeds once (level-3 table for the unused root entry 6) and
then exhausts; the call fails with `FrameAllocationFailed` and preserves
cleared READABLE/WRITABLE bits everywhere. -/
theorem C3_allocator_rollback_witness :
    ∃ st', create_p1_if_not_exist 0 M3 6 0 0
        = Res.done (st', some MapToError.frameAllocationFailed) ∧
      ∀ x y, rwClear (M3.mem x y) → rwClear (st'.mem x y) :=
  (C3_allocator_rollback 0 M3 6 0 0 (by decide) (by decide)).2.2.1 30
    (by decide) rfl (by decide)

end RecPT

namespace RecPT

/-- C6 counterexample: `translate_page` is not total — on a page whose
top-level index equals the recursive index (or its successor) it hits the
`is_mapped` assertions and panics instead of returning. -/
theorem C6_translate_counterexample :
    translate_page 0 M0 ⟨0, 0, 0, 0⟩ = Res.crash ∧
    translate_page 0 M0 ⟨1, 0, 0, 0⟩ = Res.crash := ⟨rfl, rfl⟩

/-- C6 (amended): for pages whose top-level index avoids the two reserved
recursive slots, on a well-formed table `translate_page` always completes,
returning the mapped frame when the whole path is present and `None`
otherwise, and leaving memory unchanged. -/
theorem C6_translate_total (l : Nat) (st : Machine) (page : Page)
    (ha : page.p4 ≠ l) (ha2 : page.p4 ≠ l + 1)
    (cA : rwClear (st.mem st.rootFrame page.p4))
    (cB : rwClear (st.mem (st.p3f page.p4) page.p3))
    (cC : rwClear (st.mem (st.p2f page.p4 page.p3) page.p2))
    (d1 : st.p3f page.p4 ≠ st.rootFrame)
    (d2 : st.p2f page.p4 page.p3 ≠ st.rootFrame)
    (d3 : st.p2f page.p4 page.p3 ≠ st.p3f page.p4)
    (d4 : st.p1f page.p4 page.p3 page.p2 ≠ st.rootFrame)
    (d5 : st.p1f page.p4 page.p3 page.p2 ≠ st.p3f page.p4)
    (d6 : st.p1f page.p4 page.p3 page.p2 ≠ st.p2f page.p4 page.p3) :
    ∃ st', translate_page l st page = Res.done (st',
        if ¬ (st.mem st.rootFrame page.p4).isUnused
            ∧ ¬ (st.mem (st.p3f page.p4) page.p3).isUnused
            ∧ ¬ (st.mem (st.p2f page.p4 page.p3) page.p2).isUnused
            ∧ ¬ (st.mem (st.p1f page.p4 page.p3 page.p2) page.p1).isUnused
        then some (st.mem (st.p1f page.p4 page.p3 page.p2) page.p1).frame
        else none) ∧
      st'.mem = st.mem ∧ st'.rootFrame = st.rootFrame ∧
      st'.freeFrames = st.freeFrames := by
  by_cases hh : ¬ (st.mem st.rootFrame page.p4).isUnused
      ∧ ¬ (st.mem (st.p3f page.p4) page.p3).isUnused
      ∧ ¬ (st.mem (st.p2f page.p4 page.p3) page.p2).isUnused
      ∧ ¬ (st.mem (st.p1f page.p4 page.p3 page.p2) page.p1).isUnused
  · rw [if_pos hh]
    obtain ⟨st', heq, hm, hr, hf, _, _⟩ :=
      translate_some l st page ha ha2 hh.1 hh.2.1 hh.2.2.1 cA cB cC d1 d2 d3 d4 d5 d6
        hh.2.2.2
    exact ⟨st', heq, hm, hr, hf⟩
  · rw [if_neg hh]
    have hnm : (st.mem st.rootFrame page.p4).isUnused
        ∨ (st.mem (st.p3f page.p4) page.p3).isUnused
        ∨ (st.mem (st.p2f page.p4 page.p3) page.p2).isUnused
        ∨ (st.mem (st.p1f page.p4 page.p3 page.p2) page.p1).isUnused := by
      by_cases h1 : (st.mem st.rootFrame page.p4).isUnused
      · exact Or.inl h1
      · by_cases h2 : (st.mem (st.p3f page.p4) page.p3).isUnused
        · exact Or.inr (Or.inl h2)
        · by_cases h3 : (st.mem (st.p2f page.p4 page.p3) page.p2).isUnused
          · exact Or.inr (Or.inr (Or.inl h3))
          · by_cases h4 : (st.mem (st.p1f page.p4 page.p3 page.p2) page.p1).isUnused
            · exact Or.inr (Or.inr (Or.inr h4))
            · exact absurd ⟨h1, h2, h3, h4⟩ hh
    exact translate_none l st page ha ha2 cA cB cC d1 d2 d3 d4 d5 d6 hnm

/-- Witness for C6 (amended) on the fixture machine at the mapped page
(5, 6, 7, 3): the translation completes and returns frame 77. -/
theorem C6_translate_total_witness :
    ∃ st', translate_page 0 M0 ⟨5, 6, 7, 3⟩ = Res.done (st',
        if ¬ (M0.mem M0.rootFrame 5).isUnused
            ∧ ¬ (M0.mem (M0.p3f 5) 6).isUnused
            ∧ ¬ (M0.mem (M0.p2f 5 6) 7).isUnused
            ∧ ¬ (M0.mem (M0.p1f 5 6 7) 3).isUnused
        then some (M0.mem (M0.p1f 5 6 7) 3).frame
        else none) ∧
      st'.mem = M0.mem ∧ st'.rootFrame = M0.rootFrame ∧
      st'.freeFrames = M0.freeFrames :=
  C6_translate_total 0 M0 ⟨5, 6, 7, 3⟩ (by decide) (by decide) (by decide) (by decide)
    (by decide) (by decide) (by decide) (by decide) (by decide) (by decide) (by decide)

end RecPT

namespace RecPT

/-- C9 counterexample: the fixture machine starts with the translation of
page (5, 6, 7, 8) cached in the TLB; after a successful `map_to` of that
very page — with no call to the returned handle's `flush()` — the cached
translation is gone (the internal `sfence_vma_all()` toggles emptied the
TLB), so the TLB does not end the call in the state it began in with
respect to the changed page. -/
theorem C9_tlb_counterexample :
    M0.tlb = [Page.startAddress ⟨5, 6, 7, 8⟩] ∧
    resOf (map_to 0 M0 ⟨5, 6, 7, 8⟩ 40 rwFlags) = some (MapResult.ok ⟨⟨5, 6, 7, 8⟩⟩) ∧
    (afterSt (map_to 0 M0 ⟨5, 6, 7, 8⟩ 40 rwFlags)).tlb = [] :=
  ⟨rfl, rfl, rfl⟩

/-- C9 (amended): no mutating operation issues a targeted single-page
invalidation before returning.  Unconditionally — whatever the path
configuration and the allocator contents — the flush trace appended by
any completed `map_to`, `unmap` or `identity_map` call is a run of
global `sfence_vma_all()` events only, and such a run contains no
`sfence_vma(0, va)` for any address.  On success the run has exactly 28
events when the top-level entry already exists (for `unmap` always),
and 29 when all three intermediate tables must be allocated.  The
targeted invalidation of the changed page happens exactly when the
caller invokes `flush()` on the returned `MapperFlush`: that appends
the single `flushOne` event and removes the page address from the
TLB. -/
theorem C9_deferred_flush (l : Nat) (st : Machine) (page : Page) (fr : Nat)
    (fl : PTFlags)
    (ha : page.p4 ≠ l) (ha2 : page.p4 ≠ l + 1)
    (w1 : ¬ (st.mem st.rootFrame page.p4).isUnused →
      rwClear (st.mem st.rootFrame page.p4) ∧ st.p3f page.p4 ≠ st.rootFrame)
    (w2 : ¬ (st.mem st.rootFrame page.p4).isUnused →
      ¬ (st.mem (st.p3f page.p4) page.p3).isUnused →
      rwClear (st.mem (st.p3f page.p4) page.p3)
      ∧ st.p2f page.p4 page.p3 ≠ st.rootFrame
      ∧ st.p2f page.p4 page.p3 ≠ st.p3f page.p4)
    (w3 : ¬ (st.mem st.rootFrame page.p4).isUnused →
      ¬ (st.mem (st.p3f page.p4) page.p3).isUnused →
      ¬ (st.mem (st.p2f page.p4 page.p3) page.p2).isUnused →
      rwClear (st.mem (st.p2f page.p4 page.p3) page.p2)
      ∧ st.p1f page.p4 page.p3 page.p2 ≠ st.rootFrame
      ∧ st.p1f page.p4 page.p3 page.p2 ≠ st.p3f page.p4
      ∧ st.p1f page.p4 page.p3 page.p2 ≠ st.p2f page.p4 page.p3)
    (hfr : ∀ f ∈ st.freeFrames, f ≠ st.rootFrame)
    (hnd : st.freeFrames.Nodup) :
    (∀ pg2 fr2 fl2 st' r, map_to l st pg2 fr2 fl2 = Res.done (st', r) →
      ∃ n, st'.events = st.events ++ List.replicate n FlushEvent.flushAll) ∧
    (∀ pg2 st' r, unmap l st pg2 = Res.done (st', r) →
      ∃ n, st'.events = st.events ++ List.replicate n FlushEvent.flushAll) ∧
    (∀ fr2 fl2 st' r, identity_map l st fr2 fl2 = Res.done (st', r) →
      ∃ n, st'.events = st.events ++ List.replicate n FlushEvent.flushAll) ∧
    (∀ n va, FlushEvent.flushOne va ∉ List.replicate n FlushEvent.flushAll) ∧
    (∀ (m : MapperFlush) (s : Machine),
      (MapperFlush.flush m s).events
        = s.events ++ [FlushEvent.flushOne m.page.startAddress] ∧
      (MapperFlush.flush m s).tlb
        = s.tlb.filter (fun x => x ≠ m.page.startAddress)) ∧
    (¬ (st.mem st.rootFrame page.p4).isUnused →
     ¬ (st.mem (st.p3f page.p4) page.p3).isUnused →
     ¬ (st.mem (st.p2f page.p4 page.p3) page.p2).isUnused →
     (st.mem (st.p1f page.p4 page.p3 page.p2) page.p1).isUnused →
      ∃ st', map_to l st page fr fl = Res.done (st', MapResult.ok ⟨page⟩) ∧
        st'.events = st.events ++ List.replicate 28 FlushEvent.flushAll) ∧
    ((st.mem st.rootFrame page.p4).isUnused →
      ∀ f1 f2 f3 rest, st.freeFrames = f1 :: f2 :: f3 :: rest →
      ∃ st', map_to l st page fr fl = Res.done (st', MapResult.ok ⟨page⟩) ∧
        st'.events = st.events ++ List.replicate 29 FlushEvent.flushAll) ∧
    (¬ (st.mem st.rootFrame page.p4).isUnused →
     ¬ (st.mem (st.p3f page.p4) page.p3).isUnused →
     ¬ (st.mem (st.p2f page.p4 page.p3) page.p2).isUnused →
     (st.mem (st.p1f page.p4 page.p3 page.p2) page.p1).flags.valid = true →
      ∃ st', unmap l st page = Res.done (st',
          UnmapResult.ok (st.mem (st.p1f page.p4 page.p3 page.p2) page.p1).frame
            ⟨page⟩) ∧
        st'.events = st.events ++ List.replicate 28 FlushEvent.flushAll) := by
  refine ⟨?_, ?_, ?_, ?_, ?_, ?_, ?_, ?_⟩
  · intro pg2 fr2 fl2 st' r h
    exact map_to_events l st pg2 fr2 fl2 st' r h
  · intro pg2 st' r h
    exact unmap_events l st pg2 st' r h
  · intro fr2 fl2 st' r h
    unfold identity_map at h
    exact map_to_events l st (Page.ofAddr fr2) fr2 fl2 st' r h
  · intro n va h
    exact FlushEvent.noConfusion (List.eq_of_mem_replicate h)
  · intro m s
    exact ⟨rfl, rfl⟩
  · intro hA hB hC hL
    obtain ⟨st', heq, _, _, _, _, he⟩ :=
      map_to_fresh l st page fr fl ha ha2 hA hB hC (w1 hA).1 (w2 hA hB).1
        (w3 hA hB hC).1 (w1 hA).2 (w2 hA hB).2.1 (w2 hA hB).2.2
        (w3 hA hB hC).2.1 (w3 hA hB hC).2.2.1 (w3 hA hB hC).2.2.2 hL
    exact ⟨st', heq, he⟩
  · intro hAu f1 f2 f3 rest hff
    have g1 : f1 ≠ st.rootFrame := hfr f1 (by rw [hff]; exact List.mem_cons_self _ _)
    have g2 : f2 ≠ st.rootFrame := hfr f2 (by rw [hff]; simp)
    have g4 : f3 ≠ st.rootFrame := hfr f3 (by rw [hff]; simp)
    have hnd' : (f1 :: f2 :: f3 :: rest).Nodup := by
      rw [← hff]
      exact hnd
    have g3 : f2 ≠ f1 := fun h =>
      (List.nodup_cons.mp hnd').1 (by rw [← h]; exact List.mem_cons_self _ _)
    have g5 : f3 ≠ f1 := fun h =>
      (List.nodup_cons.mp hnd').1
        (by rw [← h]; exact List.mem_cons_of_mem _ (List.mem_cons_self _ _))
    have g6 : f3 ≠ f2 := fun h =>
      (List.nodup_cons.mp (List.nodup_cons.mp hnd').2).1
        (by rw [← h]; exact List.mem_cons_self _ _)
    obtain ⟨st', heq, _, _, _, _, he, _, _, _, _⟩ :=
      map_to_alloc_uuu l st page fr f1 f2 f3 fl rest ha ha2 hAu hff g1 g2 g3 g4 g5 g6
    exact ⟨st', heq, he⟩
  · intro hA hB hC hv
    obtain ⟨st', heq, _, _, _, _, he⟩ :=
      unmap_mapped l st page ha ha2 hA hB hC (w1 hA).1 (w2 hA hB).1
        (w3 hA hB hC).1 (w1 hA).2 (w2 hA hB).2.1 (w2 hA hB).2.2
        (w3 hA hB hC).2.1 (w3 hA hB hC).2.2.1 (w3 hA hB hC).2.2.2 hv
    exact ⟨st', heq, he⟩

/-- Witness for C9 (amended) on the fixture machine: a present-chain
`map_to` appends 28 global flushes, an `unmap` of the live mapping at
index 3 appends 28, a `map_to` under an unused top-level entry (three
tables allocated) appends 29, no replicate run holds a `flushOne`, and
the returned handle performs the targeted flush. -/
theorem C9_deferred_flush_witness :
    ((M0.mem (M0.p1f 5 6 7) 8).isUnused ∧
      ∃ st', map_to 0 M0 ⟨5, 6, 7, 8⟩ 40 rwFlags
          = Res.done (st', MapResult.ok ⟨⟨5, 6, 7, 8⟩⟩) ∧
        st'.events = M0.events ++ List.replicate 28 FlushEvent.flushAll) ∧
    ((M0.mem (M0.p1f 5 6 7) 3).flags.valid = true ∧
      ∃ st', unmap 0 M0 ⟨5, 6, 7, 3⟩ = Res.done (st',
          UnmapResult.ok (M0.mem (M0.p1f 5 6 7) 3).frame ⟨⟨5, 6, 7, 3⟩⟩) ∧
        st'.events = M0.events ++ List.replicate 28 FlushEvent.flushAll) ∧
    ((M0.mem M0.rootFrame 6).isUnused ∧ M0.freeFrames = 30 :: 31 :: 32 :: [] ∧
      ∃ st', map_to 0 M0 ⟨6, 0, 0, 1⟩ 41 rwFlags
          = Res.done (st', MapResult.ok ⟨⟨6, 0, 0, 1⟩⟩) ∧
        st'.events = M0.events ++ List.replicate 29 FlushEvent.flushAll) ∧
    (∀ va, FlushEvent.flushOne va ∉ List.replicate 28 FlushEvent.flushAll) ∧
    ((MapperFlush.flush ⟨⟨5, 6, 7, 8⟩⟩ M0).events
        = M0.events ++ [FlushEvent.flushOne (Page.startAddress ⟨5, 6, 7, 8⟩)] ∧
      (MapperFlush.flush ⟨⟨5, 6, 7, 8⟩⟩ M0).tlb
        = M0.tlb.filter (fun x => x ≠ Page.startAddress ⟨5, 6, 7, 8⟩)) := by
  have h1 := C9_deferred_flush 0 M0 ⟨5, 6, 7, 8⟩ 40 rwFlags (by decide) (by decide)
    (by decide) (by decide) (by decide) (by decide) (by decide)
  have h2 := C9_deferred_flush 0 M0 ⟨5, 6, 7, 3⟩ 40 rwFlags (by decide) (by decide)
    (by decide) (by decide) (by decide) (by decide) (by decide)
  have h3 := C9_deferred_flush 0 M0 ⟨6, 0, 0, 1⟩ 41 rwFlags (by decide) (by decide)
    (by decide) (by decide) (by decide) (by decide) (by decide)
  refine ⟨⟨by decide,
      h1.2.2.2.2.2.1 (by decide) (by decide) (by decide) (by decide)⟩,
    ⟨by decide,
      h2.2.2.2.2.2.2.2 (by decide) (by decide) (by decide) (by decide)⟩,
    ⟨by decide, rfl,
      h3.2.2.2.2.2.2.1 (by decide) 30 31 32 [] rfl⟩,
    fun va => h1.2.2.2.1 28 va,
    h1.2.2.2.2.1 ⟨⟨5, 6, 7, 8⟩⟩ M0⟩

end RecPT

namespace RecPT

/-- C2 counterexample: with `flags = ∅` (VALID clear) on an unmapped page
and a free frame, `map_to` succeeds and `translate_page` even returns the
frame (the leaf is merely non-zero), but `unmap` — which re-checks the
VALID bit — returns `Err(PageNotMapped)` instead of `Ok((F, _))`, so the
claimed unconditional round trip fails at the unmap step. -/
theorem C2_roundtrip_counterexample :
    (M0.mem (M0.p1f 5 6 7) 8).isUnused ∧
    PTFlags.none.valid = false ∧
    resOf (map_to 0 M0 ⟨5, 6, 7, 8⟩ 40 PTFlags.none)
      = some (MapResult.ok ⟨⟨5, 6, 7, 8⟩⟩) ∧
    resOf (translate_page 0 (afterSt (map_to 0 M0 ⟨5, 6, 7, 8⟩ 40 PTFlags.none))
        ⟨5, 6, 7, 8⟩) = some (some 40) ∧
    resOf (unmap 0 (afterSt (translate_page 0
        (afterSt (map_to 0 M0 ⟨5, 6, 7, 8⟩ 40 PTFlags.none)) ⟨5, 6, 7, 8⟩))
        ⟨5, 6, 7, 8⟩) = some (UnmapResult.err UnmapError.pageNotMapped) :=
  ⟨by decide, rfl, rfl, rfl, rfl⟩

/-- C2 (amended): on a well-formed table whose fresh-frame allocator
holds at least three frames, for a page that is not yet mapped (some
entry on its path, or its level-1 leaf, is unused) and flags with VALID
set, `map_to` succeeds — allocating whatever intermediate tables are
missing — a following `translate_page` returns the mapped frame, a
following `unmap` returns `Ok` with that frame, and a final
`translate_page` returns `None`.  The VALID condition is forced by
`C2_roundtrip_counterexample`. -/
theorem C2_roundtrip (l : Nat) (st : Machine) (page : Page) (fr : Nat) (fl : PTFlags)
    (ha : page.p4 ≠ l) (ha2 : page.p4 ≠ l + 1)
    (w1 : ¬ (st.mem st.rootFrame page.p4).isUnused →
      rwClear (st.mem st.rootFrame page.p4) ∧ st.p3f page.p4 ≠ st.rootFrame)
    (w2 : ¬ (st.mem st.rootFrame page.p4).isUnused →
      ¬ (st.mem (st.p3f page.p4) page.p3).isUnused →
      rwClear (st.mem (st.p3f page.p4) page.p3)
      ∧ st.p2f page.p4 page.p3 ≠ st.rootFrame
      ∧ st.p2f page.p4 page.p3 ≠ st.p3f page.p4)
    (w3 : ¬ (st.mem st.rootFrame page.p4).isUnused →
      ¬ (st.mem (st.p3f page.p4) page.p3).isUnused →
      ¬ (st.mem (st.p2f page.p4 page.p3) page.p2).isUnused →
      rwClear (st.mem (st.p2f page.p4 page.p3) page.p2)
      ∧ st.p1f page.p4 page.p3 page.p2 ≠ st.rootFrame
      ∧ st.p1f page.p4 page.p3 page.p2 ≠ st.p3f page.p4
      ∧ st.p1f page.p4 page.p3 page.p2 ≠ st.p2f page.p4 page.p3)
    (hfr : ∀ f ∈ st.freeFrames, f ≠ st.rootFrame
      ∧ (¬ (st.mem st.rootFrame page.p4).isUnused → f ≠ st.p3f page.p4)
      ∧ (¬ (st.mem st.rootFrame page.p4).isUnused →
         ¬ (st.mem (st.p3f page.p4) page.p3).isUnused →
         f ≠ st.p2f page.p4 page.p3))
    (hnd : st.freeFrames.Nodup)
    (hlen : 3 ≤ st.freeFrames.length)
    (hNM : (st.mem st.rootFrame page.p4).isUnused
      ∨ (st.mem (st.p3f page.p4) page.p3).isUnused
      ∨ (st.mem (st.p2f page.p4 page.p3) page.p2).isUnused
      ∨ (st.mem (st.p1f page.p4 page.p3 page.p2) page.p1).isUnused)
    (hv : fl.valid = true) :
    ∃ st1 st2 st3 st4,
      map_to l st page fr fl = Res.done (st1, MapResult.ok ⟨page⟩) ∧
      translate_page l st1 page = Res.done (st2, some fr) ∧
      unmap l st2 page = Res.done (st3, UnmapResult.ok fr ⟨page⟩) ∧
      translate_page l st3 page = Res.done (st4, none) := by
  by_cases hAu : (st.mem st.rootFrame page.p4).isUnused
  · rcases hff : st.freeFrames with _ | ⟨f1, _ | ⟨f2, _ | ⟨f3, rest⟩⟩⟩
    · rw [hff] at hlen
      simp only [List.length_nil] at hlen
      exact absurd hlen (by omega)
    · rw [hff] at hlen
      simp only [List.length_cons, List.length_nil] at hlen
      exact absurd hlen (by omega)
    · rw [hff] at hlen
      simp only [List.length_cons, List.length_nil] at hlen
      exact absurd hlen (by omega)
    · have gfr1 : f1 ≠ st.rootFrame :=
        (hfr f1 (by rw [hff]; exact List.mem_cons_self _ _)).1
      have gfr2 : f2 ≠ st.rootFrame := (hfr f2 (by rw [hff]; simp)).1
      have gfr3 : f3 ≠ st.rootFrame := (hfr f3 (by rw [hff]; simp)).1
      have hnd' : (f1 :: f2 :: f3 :: rest).Nodup := by
        rw [← hff]
        exact hnd
      have gn3 : f2 ≠ f1 := fun h =>
        (List.nodup_cons.mp hnd').1 (by rw [← h]; exact List.mem_cons_self _ _)
      have gn5 : f3 ≠ f1 := fun h =>
        (List.nodup_cons.mp hnd').1
          (by rw [← h]; exact List.mem_cons_of_mem _ (List.mem_cons_self _ _))
      have gn6 : f3 ≠ f2 := fun h =>
        (List.nodup_cons.mp (List.nodup_cons.mp hnd').2).1
          (by rw [← h]; exact List.mem_cons_self _ _)
      obtain ⟨st1, heq, hm, hr, _, _, _, q3, q2, q1, hleaf⟩ :=
        map_to_alloc_uuu l st page fr f1 f2 f3 fl rest ha ha2 hAu hff
          gfr1 gfr2 gn3 gfr3 gn5 gn6
      have E4 : st1.mem st.rootFrame page.p4 = ⟨f1, validFlags⟩ := by
        rw [hm, if_neg (fun h => gfr3 h.1.symm), if_neg (fun h => gfr3 h.symm),
          if_neg (fun h => gfr2 h.1.symm), if_neg (fun h => gfr2 h.symm),
          if_neg (fun h => gfr1 h.1.symm), if_neg (fun h => gfr1 h.symm),
          if_pos ⟨rfl, rfl⟩]
      have E3 : st1.mem f1 page.p3 = ⟨f2, validFlags⟩ := by
        rw [hm, if_neg (fun h => gn5 h.1.symm), if_neg (fun h => gn5 h.symm),
          if_neg (fun h => gn3 h.1.symm), if_neg (fun h => gn3 h.symm),
          if_pos ⟨rfl, rfl⟩]
      have E2 : st1.mem f2 page.p2 = ⟨f3, validFlags⟩ := by
        rw [hm, if_neg (fun h => gn6 h.1.symm), if_neg (fun h => gn6 h.symm),
          if_pos ⟨rfl, rfl⟩]
      have hA1 : ¬ (st1.mem st1.rootFrame page.p4).isUnused := by
        rw [hr, E4]
        exact not_unused_of_valid _ rfl
      have hB1 : ¬ (st1.mem (st1.p3f page.p4) page.p3).isUnused := by
        rw [q3, E3]
        exact not_unused_of_valid _ rfl
      have hC1 : ¬ (st1.mem (st1.p2f page.p4 page.p3) page.p2).isUnused := by
        rw [q2, E2]
        exact not_unused_of_valid _ rfl
      have cA1 : rwClear (st1.mem st1.rootFrame page.p4) := by
        rw [hr, E4]
        exact rwClear_validFlags f1
      have cB1 : rwClear (st1.mem (st1.p3f page.p4) page.p3) := by
        rw [q3, E3]
        exact rwClear_validFlags f2
      have cC1 : rwClear (st1.mem (st1.p2f page.p4 page.p3) page.p2) := by
        rw [q2, E2]
        exact rwClear_validFlags f3
      have d1a : st1.p3f page.p4 ≠ st1.rootFrame := by
        rw [q3, hr]
        exact gfr1
      have d2a : st1.p2f page.p4 page.p3 ≠ st1.rootFrame := by
        rw [q2, hr]
        exact gfr2
      have d3a : st1.p2f page.p4 page.p3 ≠ st1.p3f page.p4 := by
        rw [q2, q3]
        exact gn3
      have d4a : st1.p1f page.p4 page.p3 page.p2 ≠ st1.rootFrame := by
        rw [q1, hr]
        exact gfr3
      have d5a : st1.p1f page.p4 page.p3 page.p2 ≠ st1.p3f page.p4 := by
        rw [q1, q3]
        exact gn5
      have d6a : st1.p1f page.p4 page.p3 page.p2 ≠ st1.p2f page.p4 page.p3 := by
        rw [q1, q2]
        exact gn6
      obtain ⟨st2, st3, st4, ht2, hu3, ht4⟩ :=
        roundtrip_tail l st1 page fr fl ha ha2 hA1 hB1 hC1 cA1 cB1 cC1
          d1a d2a d3a d4a d5a d6a hleaf hv
      exact ⟨st1, st2, st3, st4, heq, ht2, hu3, ht4⟩
  · by_cases hBu : (st.mem (st.p3f page.p4) page.p3).isUnused
    · rcases hff : st.freeFrames with _ | ⟨f2, _ | ⟨f3, rest⟩⟩
      · rw [hff] at hlen
        simp only [List.length_nil] at hlen
        exact absurd hlen (by omega)
      · rw [hff] at hlen
        simp only [List.length_cons, List.length_nil] at hlen
        exact absurd hlen (by omega)
      · have ga1 : f2 ≠ st.rootFrame :=
          (hfr f2 (by rw [hff]; exact List.mem_cons_self _ _)).1
        have ga2 : f2 ≠ st.p3f page.p4 :=
          (hfr f2 (by rw [hff]; exact List.mem_cons_self _ _)).2.1 hAu
        have gb1 : f3 ≠ st.rootFrame := (hfr f3 (by rw [hff]; simp)).1
        have gb2 : f3 ≠ st.p3f page.p4 := (hfr f3 (by rw [hff]; simp)).2.1 hAu
        have hnd' : (f2 :: f3 :: rest).Nodup := by
          rw [← hff]
          exact hnd
        have gb3 : f3 ≠ f2 := fun h =>
          (List.nodup_cons.mp hnd').1 (by rw [← h]; exact List.mem_cons_self _ _)
        obtain ⟨st1, heq, hm, hr, _, _, _, q3, q2, q1, hleaf⟩ :=
          map_to_alloc_puu l st page fr f2 f3 fl rest ha ha2 hAu hBu
            (w1 hAu).1 (w1 hAu).2 hff ga1 ga2 gb1 gb2 gb3
        have E4 : st1.mem st.rootFrame page.p4 = st.mem st.rootFrame page.p4 := by
          rw [hm, if_neg (fun h => gb1 h.1.symm), if_neg (fun h => gb1 h.symm),
            if_neg (fun h => ga1 h.1.symm), if_neg (fun h => ga1 h.symm),
            if_neg (fun h => (w1 hAu).2 h.1.symm)]
        have E3 : st1.mem (st.p3f page.p4) page.p3 = ⟨f2, validFlags⟩ := by
          rw [hm, if_neg (fun h => gb2 h.1.symm), if_neg (fun h => gb2 h.symm),
            if_neg (fun h => ga2 h.1.symm), if_neg (fun h => ga2 h.symm),
            if_pos ⟨rfl, rfl⟩]
        have E2 : st1.mem f2 page.p2 = ⟨f3, validFlags⟩ := by
          rw [hm, if_neg (fun h => gb3 h.1.symm), if_neg (fun h => gb3 h.symm),
            if_pos ⟨rfl, rfl⟩]
        have hA1 : ¬ (st1.mem st1.rootFrame page.p4).isUnused := by
          rw [hr, E4]
          exact hAu
        have hB1 : ¬ (st1.mem (st1.p3f page.p4) page.p3).isUnused := by
          rw [q3, E3]
          exact not_unused_of_valid _ rfl
        have hC1 : ¬ (st1.mem (st1.p2f page.p4 page.p3) page.p2).isUnused := by
          rw [q2, E2]
          exact not_unused_of_valid _ rfl
        have cA1 : rwClear (st1.mem st1.rootFrame page.p4) := by
          rw [hr, E4]
          exact (w1 hAu).1
        have cB1 : rwClear (st1.mem (st1.p3f page.p4) page.p3) := by
          rw [q3, E3]
          exact rwClear_validFlags f2
        have cC1 : rwClear (st1.mem (st1.p2f page.p4 page.p3) page.p2) := by
          rw [q2, E2]
          exact rwClear_validFlags f3
        have d1a : st1.p3f page.p4 ≠ st1.rootFrame := by
          rw [q3, hr]
          exact (w1 hAu).2
        have d2a : st1.p2f page.p4 page.p3 ≠ st1.rootFrame := by
          rw [q2, hr]
          exact ga1
        have d3a : st1.p2f page.p4 page.p3 ≠ st1.p3f page.p4 := by
          rw [q2, q3]
          exact ga2
        have d4a : st1.p1f page.p4 page.p3 page.p2 ≠ st1.rootFrame := by
          rw [q1, hr]
          exact gb1
        have d5a : st1.p1f page.p4 page.p3 page.p2 ≠ st1.p3f page.p4 := by
          rw [q1, q3]
          exact gb2
        have d6a : st1.p1f page.p4 page.p3 page.p2 ≠ st1.p2f page.p4 page.p3 := by
          rw [q1, q2]
          exact gb3
        obtain ⟨st2, st3, st4, ht2, hu3, ht4⟩ :=
          roundtrip_tail l st1 page fr fl ha ha2 hA1 hB1 hC1 cA1 cB1 cC1
            d1a d2a d3a d4a d5a d6a hleaf hv
        exact ⟨st1, st2, st3, st4, heq, ht2, hu3, ht4⟩
    · by_cases hCu : (st.mem (st.p2f page.p4 page.p3) page.p2).isUnused
      · rcases hff : st.freeFrames with _ | ⟨f3, rest⟩
        · rw [hff] at hlen
          simp only [List.length_nil] at hlen
          exact absurd hlen (by omega)
        · have g1 : f3 ≠ st.rootFrame :=
            (hfr f3 (by rw [hff]; exact List.mem_cons_self _ _)).1
          have g2 : f3 ≠ st.p3f page.p4 :=
            (hfr f3 (by rw [hff]; exact List.mem_cons_self _ _)).2.1 hAu
          have g3 : f3 ≠ st.p2f page.p4 page.p3 :=
            (hfr f3 (by rw [hff]; exact List.mem_cons_self _ _)).2.2 hAu hBu
          obtain ⟨st1, heq, hm, hr, _, _, _, q3, q2, q1, hleaf⟩ :=
            map_to_alloc_ppu l st page fr f3 fl rest ha ha2 hAu hBu hCu
              (w1 hAu).1 (w2 hAu hBu).1 (w1 hAu).2 (w2 hAu hBu).2.1 (w2 hAu hBu).2.2
              hff g1 g2 g3
          have E4 : st1.mem st.rootFrame page.p4 = st.mem st.rootFrame page.p4 := by
            rw [hm, if_neg (fun h => g1 h.1.symm), if_neg (fun h => g1 h.symm),
              if_neg (fun h => (w2 hAu hBu).2.1 h.1.symm)]
          have E3 : st1.mem (st.p3f page.p4) page.p3
              = st.mem (st.p3f page.p4) page.p3 := by
            rw [hm, if_neg (fun h => g2 h.1.symm), if_neg (fun h => g2 h.symm),
              if_neg (fun h => (w2 hAu hBu).2.2 h.1.symm)]
          have E2 : st1.mem (st.p2f page.p4 page.p3) page.p2 = ⟨f3, validFlags⟩ := by
            rw [hm, if_neg (fun h => g3 h.1.symm), if_neg (fun h => g3 h.symm),
              if_pos ⟨rfl, rfl⟩]
          have hA1 : ¬ (st1.mem st1.rootFrame page.p4).isUnused := by
            rw [hr, E4]
            exact hAu
          have hB1 : ¬ (st1.mem (st1.p3f page.p4) page.p3).isUnused := by
            rw [q3, E3]
            exact hBu
          have hC1 : ¬ (st1.mem (st1.p2f page.p4 page.p3) page.p2).isUnused := by
            rw [q2, E2]
            exact not_unused_of_valid _ rfl
          have cA1 : rwClear (st1.mem st1.rootFrame page.p4) := by
            rw [hr, E4]
            exact (w1 hAu).1
          have cB1 : rwClear (st1.mem (st1.p3f page.p4) page.p3) := by
            rw [q3, E3]
            exact (w2 hAu hBu).1
          have cC1 : rwClear (st1.mem (st1.p2f page.p4 page.p3) page.p2) := by
            rw [q2, E2]
            exact rwClear_validFlags f3
          have d1a : st1.p3f page.p4 ≠ st1.rootFrame := by
            rw [q3, hr]
            exact (w1 hAu).2
          have d2a : st1.p2f page.p4 page.p3 ≠ st1.rootFrame := by
            rw [q2, hr]
            exact (w2 hAu hBu).2.1
          have d3a : st1.p2f page.p4 page.p3 ≠ st1.p3f page.p4 := by
            rw [q2, q3]
            exact (w2 hAu hBu).2.2
          have d4a : st1.p1f page.p4 page.p3 page.p2 ≠ st1.rootFrame := by
            rw [q1, hr]
            exact g1
          have d5a : st1.p1f page.p4 page.p3 page.p2 ≠ st1.p3f page.p4 := by
            rw [q1, q3]
            exact g2
          have d6a : st1.p1f page.p4 page.p3 page.p2 ≠ st1.p2f page.p4 page.p3 := by
            rw [q1, q2]
            exact g3
          obtain ⟨st2, st3, st4, ht2, hu3, ht4⟩ :=
            roundtrip_tail l st1 page fr fl ha ha2 hA1 hB1 hC1 cA1 cB1 cC1
              d1a d2a d3a d4a d5a d6a hleaf hv
          exact ⟨st1, st2, st3, st4, heq, ht2, hu3, ht4⟩
      · have hL : (st.mem (st.p1f page.p4 page.p3 page.p2) page.p1).isUnused := by
          rcases hNM with h | h | h | h
          · exact absurd h hAu
          · exact absurd h hBu
          · exact absurd h hCu
          · exact h
        obtain ⟨st1, heq, hm, hr, _, _, _⟩ :=
          map_to_fresh l st page fr fl ha ha2 hAu hBu hCu (w1 hAu).1 (w2 hAu hBu).1
            (w3 hAu hBu hCu).1 (w1 hAu).2 (w2 hAu hBu).2.1 (w2 hAu hBu).2.2
            (w3 hAu hBu hCu).2.1 (w3 hAu hBu hCu).2.2.1 (w3 hAu hBu hCu).2.2.2 hL
        obtain ⟨q3, q2, q1, e4, e3, e2, eL⟩ :=
          chain_transport st st1 page.p4 page.p3 page.p2 page.p1 ⟨fr, fl⟩ hr hm
            (w3 hAu hBu hCu).2.1 (w3 hAu hBu hCu).2.2.1 (w3 hAu hBu hCu).2.2.2
        have hA1 : ¬ (st1.mem st1.rootFrame page.p4).isUnused := by
          rw [e4]
          exact hAu
        have hB1 : ¬ (st1.mem (st1.p3f page.p4) page.p3).isUnused := by
          rw [e3]
          exact hBu
        have hC1 : ¬ (st1.mem (st1.p2f page.p4 page.p3) page.p2).isUnused := by
          rw [e2]
          exact hCu
        have cA1 : rwClear (st1.mem st1.rootFrame page.p4) := by
          rw [e4]
          exact (w1 hAu).1
        have cB1 : rwClear (st1.mem (st1.p3f page.p4) page.p3) := by
          rw [e3]
          exact (w2 hAu hBu).1
        have cC1 : rwClear (st1.mem (st1.p2f page.p4 page.p3) page.p2) := by
          rw [e2]
          exact (w3 hAu hBu hCu).1
        have d1a : st1.p3f page.p4 ≠ st1.rootFrame := by
          rw [q3, hr]
          exact (w1 hAu).2
        have d2a : st1.p2f page.p4 page.p3 ≠ st1.rootFrame := by
          rw [q2, hr]
          exact (w2 hAu hBu).2.1
        have d3a : st1.p2f page.p4 page.p3 ≠ st1.p3f page.p4 := by
          rw [q2, q3]
          exact (w2 hAu hBu).2.2
        have d4a : st1.p1f page.p4 page.p3 page.p2 ≠ st1.rootFrame := by
          rw [q1, hr]
          exact (w3 hAu hBu hCu).2.1
        have d5a : st1.p1f page.p4 page.p3 page.p2 ≠ st1.p3f page.p4 := by
          rw [q1, q3]
          exact (w3 hAu hBu hCu).2.2.1
        have d6a : st1.p1f page.p4 page.p3 page.p2 ≠ st1.p2f page.p4 page.p3 := by
          rw [q1, q2]
          exact (w3 hAu hBu hCu).2.2.2
        obtain ⟨st2, st3, st4, ht2, hu3, ht4⟩ :=
          roundtrip_tail l st1 page fr fl ha ha2 hA1 hB1 hC1 cA1 cB1 cC1
            d1a d2a d3a d4a d5a d6a eL hv
        exact ⟨st1, st2, st3, st4, heq, ht2, hu3, ht4⟩

/-- Witness for C2 (amended) on the fixture machine: the round trip for
page (5, 6, 7, 8), whose path is fully present with an unused leaf, and
for page (6, 0, 0, 1), whose top-level entry is unused so all three
intermediate tables are allocated from the free list. -/
theorem C2_roundtrip_witness :
    (∃ st1 st2 st3 st4,
      map_to 0 M0 ⟨5, 6, 7, 8⟩ 40 rwFlags
          = Res.done (st1, MapResult.ok ⟨⟨5, 6, 7, 8⟩⟩) ∧
      translate_page 0 st1 ⟨5, 6, 7, 8⟩ = Res.done (st2, some 40) ∧
      unmap 0 st2 ⟨5, 6, 7, 8⟩ = Res.done (st3, UnmapResult.ok 40 ⟨⟨5, 6, 7, 8⟩⟩) ∧
      translate_page 0 st3 ⟨5, 6, 7, 8⟩ = Res.done (st4, none)) ∧
    ((M0.mem M0.rootFrame 6).isUnused ∧
     ∃ st1 st2 st3 st4,
      map_to 0 M0 ⟨6, 0, 0, 1⟩ 41 rwFlags
          = Res.done (st1, MapResult.ok ⟨⟨6, 0, 0, 1⟩⟩) ∧
      translate_page 0 st1 ⟨6, 0, 0, 1⟩ = Res.done (st2, some 41) ∧
      unmap 0 st2 ⟨6, 0, 0, 1⟩ = Res.done (st3, UnmapResult.ok 41 ⟨⟨6, 0, 0, 1⟩⟩) ∧
      translate_page 0 st3 ⟨6, 0, 0, 1⟩ = Res.done (st4, none)) :=
  ⟨C2_roundtrip 0 M0 ⟨5, 6, 7, 8⟩ 40 rwFlags (by decide) (by decide) (by decide)
      (by decide) (by decide) (by decide) (by decide) (by decide)
      (Or.inr (Or.inr (Or.inr (by decide)))) rfl,
    ⟨by decide,
      C2_roundtrip 0 M0 ⟨6, 0, 0, 1⟩ 41 rwFlags (by decide) (by decide) (by decide)
        (by decide) (by decide) (by decide) (by decide) (by decide)
        (Or.inl (by decide)) rfl⟩⟩

end RecPT

namespace RecPT

/-- C1: on a table satisfying the construction invariant, with a
well-formed walked path (whenever a prefix of the path is present, its
entries have READABLE and WRITABLE clear and the table frames it names
are pairwise distinct and distinct from the root) and a fresh-frame
allocator (free frames distinct from the root and from the live path
tables, without duplicates), every public operation — `map_to`,
`unmap`, `translate_page`, `is_mapped`, `identity_map` — completes,
and on return every entry other than the target page's level-1 leaf
slot is either unchanged or has READABLE and WRITABLE clear: no
elevated-access window opened by the toggle protocol survives the
return, in any path configuration — fully present, partially or fully
absent (allocating fresh tables), or failing on allocator
exhaustion. -/
theorem C1_window (l : Nat) (st : Machine) (page : Page) (fr fr2 : Nat)
    (fl fl2 : PTFlags)
    (ha : page.p4 ≠ l) (ha2 : page.p4 ≠ l + 1)
    (w1 : ¬ (st.mem st.rootFrame page.p4).isUnused →
      rwClear (st.mem st.rootFrame page.p4) ∧ st.p3f page.p4 ≠ st.rootFrame)
    (w2 : ¬ (st.mem st.rootFrame page.p4).isUnused →
      ¬ (st.mem (st.p3f page.p4) page.p3).isUnused →
      rwClear (st.mem (st.p3f page.p4) page.p3)
      ∧ st.p2f page.p4 page.p3 ≠ st.rootFrame
      ∧ st.p2f page.p4 page.p3 ≠ st.p3f page.p4)
    (w3 : ¬ (st.mem st.rootFrame page.p4).isUnused →
      ¬ (st.mem (st.p3f page.p4) page.p3).isUnused →
      ¬ (st.mem (st.p2f page.p4 page.p3) page.p2).isUnused →
      rwClear (st.mem (st.p2f page.p4 page.p3) page.p2)
      ∧ st.p1f page.p4 page.p3 page.p2 ≠ st.rootFrame
      ∧ st.p1f page.p4 page.p3 page.p2 ≠ st.p3f page.p4
      ∧ st.p1f page.p4 page.p3 page.p2 ≠ st.p2f page.p4 page.p3)
    (hfr : ∀ f ∈ st.freeFrames, f ≠ st.rootFrame
      ∧ (¬ (st.mem st.rootFrame page.p4).isUnused → f ≠ st.p3f page.p4)
      ∧ (¬ (st.mem st.rootFrame page.p4).isUnused →
         ¬ (st.mem (st.p3f page.p4) page.p3).isUnused →
         f ≠ st.p2f page.p4 page.p3))
    (hnd : st.freeFrames.Nodup) :
    (∃ st' r, map_to l st page fr fl = Res.done (st', r) ∧
      ∀ x y, ¬ (x = st'.p1f page.p4 page.p3 page.p2 ∧ y = page.p1) →
        (st'.mem x y = st.mem x y ∨ rwClear (st'.mem x y))) ∧
    (∃ st' r, unmap l st page = Res.done (st', r) ∧
      ∀ x y, ¬ (x = st'.p1f page.p4 page.p3 page.p2 ∧ y = page.p1) →
        (st'.mem x y = st.mem x y ∨ rwClear (st'.mem x y))) ∧
    (∃ st' r, translate_page l st page = Res.done (st', r) ∧ st'.mem = st.mem) ∧
    (∃ st' r, is_mapped l st page.p4 page.p3 page.p2 page.p1 = Res.done (st', r) ∧
      st'.mem = st.mem) ∧
    (Page.ofAddr fr2 = page →
      ∃ st' r, identity_map l st fr2 fl2 = Res.done (st', r) ∧
        ∀ x y, ¬ (x = st'.p1f page.p4 page.p3 page.p2 ∧ y = page.p1) →
          (st'.mem x y = st.mem x y ∨ rwClear (st'.mem x y))) := by
  refine ⟨map_to_rwsafe l st page fr fl ha ha2 w1 w2 w3 hfr hnd,
    unmap_rwsafe l st page ha ha2 w1 w2 w3,
    translate_rwsafe l st page ha ha2 w1 w2 w3,
    is_mapped_rwsafe l st page.p4 page.p3 page.p2 page.p1 ha ha2 w1 w2 w3, ?_⟩
  intro hpg
  have h := map_to_rwsafe l st page fr2 fl2 ha ha2 w1 w2 w3 hfr hnd
  unfold identity_map
  rw [hpg]
  exact h

/-- Witness for C1 on the fixture machine: all five operations complete
on page (5, 6, 7, 8), whose path is fully present, and `map_to` also
completes on page (6, 0, 0, 1), whose top-level entry is unused so the
allocating path runs; in both cases every entry off the target leaf
slot is untouched or R/W-clear. -/
theorem C1_window_witness :
    ((∃ st' r, map_to 0 M0 ⟨5, 6, 7, 8⟩ 40 rwFlags = Res.done (st', r) ∧
        ∀ x y, ¬ (x = st'.p1f 5 6 7 ∧ y = 8) →
          (st'.mem x y = M0.mem x y ∨ rwClear (st'.mem x y))) ∧
      (∃ st' r, unmap 0 M0 ⟨5, 6, 7, 8⟩ = Res.done (st', r) ∧
        ∀ x y, ¬ (x = st'.p1f 5 6 7 ∧ y = 8) →
          (st'.mem x y = M0.mem x y ∨ rwClear (st'.mem x y))) ∧
      (∃ st' r, translate_page 0 M0 ⟨5, 6, 7, 8⟩ = Res.done (st', r) ∧
        st'.mem = M0.mem) ∧
      (∃ st' r, is_mapped 0 M0 5 6 7 8 = Res.done (st', r) ∧ st'.mem = M0.mem) ∧
      (Page.ofAddr (Page.startAddress ⟨5, 6, 7, 8⟩) = ⟨5, 6, 7, 8⟩ →
        ∃ st' r, identity_map 0 M0 (Page.startAddress ⟨5, 6, 7, 8⟩) rwFlags
            = Res.done (st', r) ∧
          ∀ x y, ¬ (x = st'.p1f 5 6 7 ∧ y = 8) →
            (st'.mem x y = M0.mem x y ∨ rwClear (st'.mem x y)))) ∧
    Page.ofAddr (Page.startAddress ⟨5, 6, 7, 8⟩) = ⟨5, 6, 7, 8⟩ ∧
    (M0.mem M0.rootFrame 6).isUnused ∧
    (∃ st' r, map_to 0 M0 ⟨6, 0, 0, 1⟩ 41 rwFlags = Res.done (st', r) ∧
      ∀ x y, ¬ (x = st'.p1f 6 0 0 ∧ y = 1) →
        (st'.mem x y = M0.mem x y ∨ rwClear (st'.mem x y))) :=
  ⟨C1_window 0 M0 ⟨5, 6, 7, 8⟩ 40 (Page.startAddress ⟨5, 6, 7, 8⟩) rwFlags rwFlags
      (by decide) (by decide) (by decide) (by decide) (by decide) (by decide)
      (by decide),
    by decide, by decide,
    (C1_window 0 M0 ⟨6, 0, 0, 1⟩ 41 (Page.startAddress ⟨6, 0, 0, 1⟩) rwFlags rwFlags
      (by decide) (by decide) (by decide) (by decide) (by decide) (by decide)
      (by decide)).1⟩

end RecPT
